import Mathlib

/-!
# pfsense_exporter: configuration validation, API client and scrape orchestration

A shallow embedding of `internal/utils` (config.go, request.go), of the
concrete collectors of `internal/collectors` and of `internal/registry`.
Go `int` values are modelled as `Int`; the code only compares them, so no
wrap-around arises.  A method with a pointer receiver that mutates its
receiver and returns an `error` becomes a function returning the receiver
afterwards together with the error (`none` for Go's `nil`).
-/

namespace PfsenseExporter

/-! ## internal/utils/config.go -/

/-- Target represents a single target object in the YAML.  `Collectors` is
`none` for a nil slice and `some l` for a non-nil slice (possibly of length 0). -/
structure Target where
  Host : String
  Port : Int
  Scheme : String
  AuthMethod : String
  Username : String
  Password : String
  Key : String
  ValidateCert : Bool
  Timeout : Int
  Collectors : Option (List String)
  MaxCollectorConcurrency : Int
  MaxCollectorBufferSize : Int
deriving DecidableEq, Repr

/-- The zero value of `Target`. -/
def Target.zero : Target :=
  ⟨"", 0, "", "", "", "", "", false, 0, none, 0, 0⟩

/-- Method `validateHostAndPort` of config.go: the host is present and the port lies in 1..65535.
The receiver is not modified. -/
def Target.validateHostAndPort (t : Target) : Option String :=
  if t.Host = "" then
    some "Target 'host' is a required field"
  else if t.Port < 1 ∨ t.Port > 65535 then
    some ("Target 'port' must be between 1 and 65535 for host '" ++ t.Host ++ "'")
  else
    none

/-- Method `validateScheme` of config.go: default the empty scheme to https, then require http or https. -/
def Target.validateScheme (t : Target) : Target × Option String :=
  let t := if t.Scheme = "" then { t with Scheme := "https" } else t
  if t.Scheme ≠ "http" ∧ t.Scheme ≠ "https" then
    (t, some ("Target 'scheme' must be 'http' or 'https' for host '" ++ t.Host ++ "'"))
  else
    (t, none)

/-- Method `validateAuth` of config.go: the switch on `AuthMethod` and its dependent fields.
The receiver is not modified. -/
def Target.validateAuth (t : Target) : Option String :=
  if t.AuthMethod = "basic" then
    if t.Username = "" then
      some ("Target 'username' is required with auth_method 'basic' on host '" ++ t.Host ++ "'")
    else if t.Password = "" then
      some ("Target 'password' is required with auth_method 'basic' on host '" ++ t.Host ++ "'")
    else
      none
  else if t.AuthMethod = "key" then
    if t.Key = "" then
      some ("Target 'key' is required with auth_method 'key' on host '" ++ t.Host ++ "'")
    else
      none
  else
    some ("'auth_method' must be 'basic' or 'key' for host '" ++ t.Host ++ "'")

/-- Method `validateValidateCert` of config.go: it only logs, and always returns nil. -/
def Target.validateValidateCert (_t : Target) : Option String :=
  none

/-- Method `validateTimeout` of config.go: default 0 to 30, then reject values `<= 5` or `>= 360`. -/
def Target.validateTimeout (t : Target) : Target × Option String :=
  let t := if t.Timeout = 0 then { t with Timeout := 30 } else t
  if t.Timeout ≤ 5 ∨ t.Timeout ≥ 360 then
    (t, some ("Target 'timeout' must be between 5 and 360 seconds for host '" ++ t.Host ++ "'"))
  else
    (t, none)

/-- Method `ValidateMaxCollectorConcurrency` of config.go: default 0 to 4, then reject values `< 1` or `> 10`. -/
def Target.ValidateMaxCollectorConcurrency (t : Target) : Target × Option String :=
  let t := if t.MaxCollectorConcurrency = 0 then { t with MaxCollectorConcurrency := 4 } else t
  if t.MaxCollectorConcurrency < 1 ∨ t.MaxCollectorConcurrency > 10 then
    (t, some "global 'max_concurrent_collectors' must be between 1 and 10")
  else
    (t, none)

/-- Method `ValidateMaxCollectorBufferSize` of config.go: default 0 to 100, then reject values `< 10`. -/
def Target.ValidateMaxCollectorBufferSize (t : Target) : Target × Option String :=
  let t := if t.MaxCollectorBufferSize = 0 then { t with MaxCollectorBufferSize := 100 } else t
  if t.MaxCollectorBufferSize < 10 then
    (t, some "global 'max_collector_buffer_size' must be at least 10")
  else
    (t, none)

/-- Method `Validate` of config.go on `Target`: the seven checks in source order, stopping at
the first error.  The first component is the receiver afterwards (defaults written by the
checks that ran stay written); the second is the error.  The returned pointer is the
receiver itself when the error is `none`, and nil otherwise. -/
def Target.Validate (t : Target) : Target × Option String :=
  match t.validateHostAndPort with
  | some err => (t, some err)
  | none =>
    match t.validateScheme with
    | (t, some err) => (t, some err)
    | (t, none) =>
      match t.validateAuth with
      | some err => (t, some err)
      | none =>
        match t.validateTimeout with
        | (t, some err) => (t, some err)
        | (t, none) =>
          match t.validateValidateCert with
          | some err => (t, some err)
          | none =>
            match t.ValidateMaxCollectorConcurrency with
            | (t, some err) => (t, some err)
            | (t, none) =>
              match t.ValidateMaxCollectorBufferSize with
              | (t, some err) => (t, some err)
              | (t, none) => (t, none)

/-! ## internal/utils/request.go -/

/-- The raw bytes of a JSON value (`json.RawMessage`), kept as text. -/
abbrev RawMessage := String

/-- Response describes the API JSON response structure.  `Data` is `none` for a nil
`json.RawMessage`. -/
structure Response where
  Code : Int
  Status : String
  ResponseID : String
  Message : String
  Data : Option RawMessage
deriving DecidableEq, Repr

/-- `textproto.CanonicalMIMEHeaderKey` on header names made of letters, digits and hyphens:
the first letter and every letter after a hyphen is upper case, the others lower case. -/
def CanonicalMIMEHeaderKey (key : String) : String :=
  let rec go : Bool → List Char → List Char
    | _, [] => []
    | upper, c :: cs => (if upper then c.toUpper else c.toLower) :: go (c == '-') cs
  String.mk (go true key.toList)

/-- The `http.Header` of a request.  The client only ever calls `Set`, so every key holds one
value; keys are stored in canonical form. -/
structure Header where
  entries : List (String × String)
deriving DecidableEq, Repr

/-- `Header.Set`: replace whatever the canonical key held by the single value. -/
def Header.Set (h : Header) (key value : String) : Header :=
  let k := CanonicalMIMEHeaderKey key
  ⟨(k, value) :: h.entries.filter (fun e => e.1 ≠ k)⟩

/-- `Header.Get`, with `none` where the key is absent (Go returns the empty string there). -/
def Header.Get (h : Header) (key : String) : Option String :=
  (h.entries.find? (fun e => e.1 = CanonicalMIMEHeaderKey key)).map (fun e => e.2)

/-- The fields of `http.Request` the client touches. -/
structure HttpRequest where
  Method : String
  URL : String
  Header : Header
deriving DecidableEq, Repr

/-- The fields of `http.Client` set by `newHTTPClient`; `Timeout` is in seconds. -/
structure HttpClient where
  InsecureSkipVerify : Bool
  Timeout : Int
deriving DecidableEq, Repr

/-- The fields of `http.Response` the client reads: the transport-level status and what
`io.ReadAll` yields on the body (the bytes, or a read error). -/
structure HttpResponse where
  StatusCode : Int
  Body : Except String String

/-- Library code outside the repository, taken as parameters: `net/http` (request creation,
for which `NewRequest` gives the error if any, and the round trip `Do`), `encoding/base64`
and `encoding/json` on the envelope. -/
structure Lib where
  NewRequest : String → String → Option String
  Do : HttpClient → HttpRequest → Except String HttpResponse
  base64 : String → String
  Unmarshal : String → Except String Response

/-- `Request.SetBasicAuth` of net/http: `Authorization: Basic base64(username:password)`. -/
def HttpRequest.SetBasicAuth (lib : Lib) (req : HttpRequest) (username password : String) :
    HttpRequest :=
  let credentials := "Basic " ++ lib.base64 (username ++ ":" ++ password)
  { req with Header := req.Header.Set "Authorization" credentials }

/-- Function `newHTTPClient` of request.go. -/
def newHTTPClient (target : Target) : HttpClient :=
  { InsecureSkipVerify := !target.ValidateCert, Timeout := target.Timeout }

/-- Function `formatURL` of request.go: the format `%s://%s:%d%s`. -/
def formatURL (target : Target) (endpoint : String) : String :=
  target.Scheme ++ "://" ++ target.Host ++ ":" ++ toString target.Port ++ endpoint

/-- Function `executeAndParse` of request.go.  The pair is Go's `(*Response, error)`. -/
def executeAndParse (lib : Lib) (client : HttpClient) (req : HttpRequest) :
    Option Response × Option String :=
  match lib.Do client req with
  | .error err => (none, some ("error making request: " ++ err))
  | .ok resp =>
    match resp.Body with
    | .error err => (none, some ("error reading response body: " ++ err))
    | .ok body =>
      match lib.Unmarshal body with
      | .error err => (none, some ("error unmarshalling response body: " ++ err))
      | .ok response =>
        if response.Code ≠ 200 then
          (none, some ("received non-200 status code " ++ toString response.Code ++ ": "
            ++ response.Message))
        else
          (some response, none)

/-- Function `setHeaders` of request.go. -/
def setHeaders (lib : Lib) (req : HttpRequest) (target : Target) : HttpRequest :=
  let req := { req with Header := req.Header.Set "Accept" "application/json" }
  let req := { req with Header := req.Header.Set "Content-Type" "application/x-www-form-urlencoded" }
  if target.AuthMethod = "basic" then
    req.SetBasicAuth lib target.Username target.Password
  else if target.AuthMethod = "key" then
    { req with Header := req.Header.Set "X-API-Key" target.Key }
  else
    req

/-- Function `Request` of request.go: client creation, request creation, headers, execution. -/
def Request (lib : Lib) (target : Target) (method endpoint : String) :
    Option Response × Option String :=
  let client := newHTTPClient target
  let fullURL := formatURL target endpoint
  match lib.NewRequest method fullURL with
  | some err => (none, some ("error creating request: " ++ err))
  | none =>
    let req : HttpRequest := { Method := method, URL := fullURL, Header := ⟨[]⟩ }
    let req := setHeaders lib req target
    executeAndParse lib client req

/-! ## Go `float64`

The values the collectors compute are Go `float64`s, that is IEEE 754 binary64 numbers; the
operations used by the source are the conversion of constants and of `int` lengths, unary
minus, division and `==`.  They are given here on the three bit fields, with
round-to-nearest-even. -/

/-- A Go `float64`: sign bit, 11-bit exponent field and 52-bit fraction field. -/
structure Float64 where
  sign : Bool
  exponent : Fin 2048
  fraction : Fin 4503599627370496
deriving DecidableEq, Repr

/-- The 64 bits as a number, sign bit first. -/
def Float64.bits (x : Float64) : Nat :=
  (if x.sign then 2 ^ 63 else 0) + x.exponent.val * 2 ^ 52 + x.fraction.val

/-- The value with the given sign whose other 63 bits are `b` (taken modulo `2 ^ 63`). -/
def Float64.ofBits (sign : Bool) (b : Nat) : Float64 :=
  { sign := sign, exponent := Fin.ofNat (b / 2 ^ 52), fraction := Fin.ofNat b }

/-- The quiet not-a-number; its sign and payload are not tracked. -/
def Float64.nan : Float64 := Float64.ofBits false (2047 * 2 ^ 52 + 2 ^ 51)

/-- Infinity of the given sign. -/
def Float64.inf (sign : Bool) : Float64 := Float64.ofBits sign (2047 * 2 ^ 52)

/-- Zero of the given sign. -/
def Float64.zero (sign : Bool) : Float64 := Float64.ofBits sign 0

/-- Not-a-number: exponent field all ones and a non-zero fraction. -/
def Float64.isNaN (x : Float64) : Bool := x.exponent.val = 2047 ∧ x.fraction.val ≠ 0

/-- Infinite: exponent field all ones and a zero fraction. -/
def Float64.isInf (x : Float64) : Bool := x.exponent.val = 2047 ∧ x.fraction.val = 0

/-- Plus or minus zero. -/
def Float64.isZero (x : Float64) : Bool := x.exponent.val = 0 ∧ x.fraction.val = 0

/-- The significand of a finite value: the fraction, with the hidden bit unless subnormal. -/
def Float64.significand (x : Float64) : Nat :=
  if x.exponent.val = 0 then x.fraction.val else 2 ^ 52 + x.fraction.val

/-- The binary scale of a finite value: its magnitude is `significand * 2 ^ (scale - 1074)`. -/
def Float64.scale (x : Float64) : Nat :=
  x.exponent.val - 1

/-- The position of the leading bit of `n`, by halving; `fuel` bounds the halvings. -/
def Float64.log2 : Nat → Nat → Nat
  | 0, _ => 0
  | fuel + 1, n => if n ≥ 2 then Float64.log2 fuel (n / 2) + 1 else 0

/-- The `float64` nearest to `num / den` (both positive), ties to even, with the given sign;
overflow gives infinity and underflow a subnormal or zero.  `e` is the binary exponent of the
quotient and `k` the exponent of the unit in the last place, both written with an offset of
1100 to stay in the natural numbers. -/
def Float64.round (sign : Bool) (num den : Nat) : Float64 :=
  let ln := Float64.log2 num num
  let ld := Float64.log2 den den
  let e := if num * 2 ^ ld ≥ den * 2 ^ ln then ln + 1100 - ld else ln + 1099 - ld
  let k := max (e - 52) 26
  let n := num * 2 ^ (1100 - k)
  let d := den * 2 ^ (k - 1100)
  let q := n / d
  let r := n % d
  let q := if 2 * r > d ∨ (2 * r = d ∧ q % 2 = 1) then q + 1 else q
  let b := (k - 26) * 2 ^ 52 + q
  if b ≥ 2047 * 2 ^ 52 then Float64.inf sign else Float64.ofBits sign b

/-- The conversion of an integer (a constant, or an `int` such as a length) to `float64`. -/
def Float64.ofNat (n : Nat) : Float64 :=
  if n = 0 then Float64.zero false else Float64.round false n 1

/-- The conversion of the decimal constant `m * 10 ^ e`, or `m / 10 ^ e`, to `float64`. -/
def Float64.ofScientific (m : Nat) (negativeExponent : Bool) (e : Nat) : Float64 :=
  if m = 0 then Float64.zero false
  else if negativeExponent then Float64.round false m (10 ^ e)
  else Float64.round false (m * 10 ^ e) 1

/-- Unary minus: the sign bit is flipped. -/
def Float64.neg (x : Float64) : Float64 := { x with sign := !x.sign }

/-- Division `x / y` of IEEE 754. -/
def Float64.div (x y : Float64) : Float64 :=
  if x.isNaN ∨ y.isNaN then Float64.nan
  else if x.isInf then (if y.isInf then Float64.nan else Float64.inf (x.sign != y.sign))
  else if y.isInf then Float64.zero (x.sign != y.sign)
  else if y.isZero then (if x.isZero then Float64.nan else Float64.inf (x.sign != y.sign))
  else if x.isZero then Float64.zero (x.sign != y.sign)
  else Float64.round (x.sign != y.sign) (x.significand * 2 ^ (x.scale - y.scale))
    (y.significand * 2 ^ (y.scale - x.scale))

/-- The comparison `x == y` of Go: false when either side is not-a-number, and true for the
two zeros. -/
def Float64.eq (x y : Float64) : Bool :=
  !x.isNaN && !y.isNaN && (decide (x = y) || (x.isZero && y.isZero))

instance : OfNat Float64 n := ⟨Float64.ofNat n⟩

instance : OfScientific Float64 := ⟨Float64.ofScientific⟩

instance : Neg Float64 := ⟨Float64.neg⟩

instance : Div Float64 := ⟨Float64.div⟩

/-! ## prometheus client library, as the collectors use it -/

/-- One sample sent on a metric channel: metric name, label values, value. -/
structure Metric where
  Name : String
  LabelValues : List String
  Value : Float64
deriving DecidableEq, Repr

/-- One descriptor sent by `Describe`: metric name and label names. -/
structure Desc where
  Name : String
  LabelNames : List String
deriving DecidableEq, Repr

/-- A `prometheus.GaugeVec`: its descriptor and its current children, keyed by label values.
The library keeps the children in a map; they are listed here in order of creation. -/
structure GaugeVec where
  Name : String
  LabelNames : List String
  children : List (List String × Float64)

/-- `prometheus.NewGaugeVec`: no children yet. -/
def NewGaugeVec (name : String) (labelNames : List String) : GaugeVec :=
  ⟨name, labelNames, []⟩

/-- The chain `WithLabelValues(lvs...).Set(v)`: create the child if needed, then store the value. -/
def GaugeVec.Set (g : GaugeVec) (lvs : List String) (v : Float64) : GaugeVec :=
  if g.children.any (fun p => p.1 = lvs) then
    { g with children := g.children.map (fun p => if p.1 = lvs then (p.1, v) else p) }
  else
    { g with children := g.children ++ [(lvs, v)] }

/-- `GaugeVec.Reset`: delete every child. -/
def GaugeVec.Reset (g : GaugeVec) : GaugeVec :=
  { g with children := [] }

/-- `GaugeVec.Collect`: the samples sent on the channel, one per child. -/
def GaugeVec.Collect (g : GaugeVec) : List Metric :=
  g.children.map (fun p => ⟨g.Name, p.1, p.2⟩)

/-- `GaugeVec.Describe`: the one descriptor sent on the channel. -/
def GaugeVec.Describe (g : GaugeVec) : List Desc :=
  [⟨g.Name, g.LabelNames⟩]

/-! ## internal/utils/helpers.go -/

/-- Function `BoolToFloat64` of helpers.go. -/
def BoolToFloat64 (b : Bool) : Float64 :=
  if b then 1.0 else 0.0

/-! ## internal/collectors -/

/-- MetricsPrefix of registry.go. -/
def MetricsPrefix : String := "pfsense_"

/-- The statements that open every `CollectWithTarget`, identical in all collectors up to the
endpoint, the log text and the decoded type: the request, the return on an error, the return on
a nil response or nil `Data`, the decode of `Data` and the return on a decode error.  `none`
stands for each of these early returns. -/
def fetch {α : Type} (lib : Lib) (target : Target) (endpoint : String)
    (unmarshal : RawMessage → Except String α) : Option α :=
  match Request lib target "GET" endpoint with
  | (_, some _) => none
  | (none, none) => none
  | (some resp, none) =>
    match resp.Data with
    | none => none
    | some data =>
      match unmarshal data with
      | .error _ => none
      | .ok stats => some stats

/-- CARPStats of carp.go. -/
structure CARPStats where
  Enabled : Bool
  MaintenanceMode : Bool
deriving DecidableEq, Repr

/-- CARPVirtualIPStatus of carp.go. -/
structure CARPVirtualIPStatus where
  CARPStatus : String
  UniqID : String
  Subnet : String
  VHID : Int
  Interface : String
deriving DecidableEq, Repr

/-- GatewayStats of gateway.go. -/
structure GatewayStats where
  Name : String
  Loss : Float64
  Delay : Float64
  StdDev : Float64
  Status : String
  Substatus : String
  SourceIP : String
  MonitorIP : String
deriving DecidableEq, Repr

/-- RESTAPIStats of restapi.go. -/
structure RESTAPIStats where
  UpdateAvailable : Bool
  CurrentVersion : String
  LatestVersion : String
  LatestVersionReleaseDate : String
deriving DecidableEq, Repr

/-- SystemStats of system.go. -/
structure SystemStats where
  TempC : Float64
  CPUCount : Float64
  CPUUsage : Float64
  DiskUsage : Float64
  MemUsage : Float64
  SwapUsage : Float64
  MbufUsage : Float64
deriving DecidableEq, Repr

/-- FirewallStatesStats of firewall_state.go. -/
structure FirewallStatesStats where
  MaximumStates : Float64
  DefaultMaximumStates : Float64
  CurrentStates : Float64
deriving DecidableEq, Repr

/-- ServiceStats of service.go. -/
structure ServiceStats where
  Name : String
  Enabled : Bool
  Status : Bool
deriving DecidableEq, Repr

/-- InterfaceStats of interface.go. -/
structure InterfaceStats where
  Name : String
  Descr : String
  Hwif : String
  Status : String
  InErrs : Float64
  OutErrs : Float64
  Collisions : Float64
  InBytes : Float64
  InBytesPass : Float64
  OutBytes : Float64
  OutBytesPass : Float64
  InPkts : Float64
  InPktsPass : Float64
  OutPkts : Float64
  OutPktsPass : Float64
deriving DecidableEq, Repr

/-- PackageStats of package.go. -/
structure PackageStats where
  Name : String
  Shortname : String
  InstalledVersion : String
  LatestVersion : String
  UpdateAvailable : Bool
deriving DecidableEq, Repr

/-- LoginProtectionStats of login_protection.go. -/
structure LoginProtectionStats where
  Id : String
  Entries : List String
deriving DecidableEq, Repr

/-- FirewallScheduleStats of firewall_schedule.go. -/
structure FirewallScheduleStats where
  Name : String
  Active : Bool
deriving DecidableEq, Repr

/-- `json.Unmarshal` of a payload into each collector's typed shape (library code, taken as
parameters): the decoded value or the decode error. -/
structure Decoders where
  CARPStats : RawMessage → Except String CARPStats
  CARPVirtualIPs : RawMessage → Except String (List CARPVirtualIPStatus)
  Gateways : RawMessage → Except String (List GatewayStats)
  RESTAPIStats : RawMessage → Except String RESTAPIStats
  SystemStats : RawMessage → Except String SystemStats
  FirewallStatesStats : RawMessage → Except String FirewallStatesStats
  Services : RawMessage → Except String (List ServiceStats)
  Interfaces : RawMessage → Except String (List InterfaceStats)
  Packages : RawMessage → Except String (List PackageStats)
  LoginProtectionStats : RawMessage → Except String LoginProtectionStats
  FirewallSchedules : RawMessage → Except String (List FirewallScheduleStats)

/-- CARPCollector of carp.go. -/
structure CARPCollector where
  carpEnabled : GaugeVec
  carpMaintenanceModeEnabled : GaugeVec
  carpVirtualIPStatus : GaugeVec

/-- Constructor `NewCARPCollector` of carp.go. -/
def NewCARPCollector : CARPCollector :=
  { carpEnabled := NewGaugeVec (MetricsPrefix ++ "carp_enabled") ["host"]
    carpMaintenanceModeEnabled :=
      NewGaugeVec (MetricsPrefix ++ "carp_maintenance_mode_enabled") ["host"]
    carpVirtualIPStatus := NewGaugeVec (MetricsPrefix ++ "carp_virtual_ip_status")
      ["host", "carp_status", "uniqid", "subnet", "vhid", "interface"] }

/-- Method `Name` of CARPCollector. -/
def CARPCollector.Name (_c : CARPCollector) : String := "carp"

/-- Method `Describe` of CARPCollector. -/
def CARPCollector.Describe (c : CARPCollector) : List Desc :=
  c.carpEnabled.Describe ++ c.carpMaintenanceModeEnabled.Describe

/-- Method `resetMetrics` of CARPCollector. -/
def CARPCollector.resetMetrics (c : CARPCollector) : CARPCollector :=
  { carpEnabled := c.carpEnabled.Reset
    carpMaintenanceModeEnabled := c.carpMaintenanceModeEnabled.Reset
    carpVirtualIPStatus := c.carpVirtualIPStatus.Reset }

/-- Function `CARPStatusToFloat64` of carp.go. -/
def CARPStatusToFloat64 (status : String) : Float64 :=
  if status = "master" then 1
  else if status = "backup" then 0
  else -1

/-- Method `CollectWithTarget` of CARPCollector: the collector afterwards and the samples sent
on the channel, in order. -/
def CARPCollector.CollectWithTarget (lib : Lib) (dec : Decoders) (c : CARPCollector)
    (target : Target) : CARPCollector × List Metric :=
  match fetch lib target "/api/v2/status/carp" dec.CARPStats with
  | none => (c, [])
  | some stats =>
    let c := c.resetMetrics
    let c := { c with carpEnabled := c.carpEnabled.Set [target.Host] (BoolToFloat64 stats.Enabled) }
    let maintenance := BoolToFloat64 stats.MaintenanceMode
    let c := { c with
      carpMaintenanceModeEnabled := c.carpMaintenanceModeEnabled.Set [target.Host] maintenance }
    match fetch lib target "/api/v2/firewall/virtual_ips?mode=carp" dec.CARPVirtualIPs with
    | none => (c, [])
    | some virtualIPs =>
      let c := virtualIPs.foldl (fun (c : CARPCollector) ip =>
        let lvs := [target.Host, ip.CARPStatus, ip.UniqID, ip.Subnet, toString ip.VHID, ip.Interface]
        { c with carpVirtualIPStatus := c.carpVirtualIPStatus.Set lvs (CARPStatusToFloat64 ip.CARPStatus) })
        c
      (c, c.carpEnabled.Collect ++ c.carpMaintenanceModeEnabled.Collect
        ++ c.carpVirtualIPStatus.Collect)

/-- GatewayCollector of gateway.go. -/
structure GatewayCollector where
  gatewayLossRatio : GaugeVec
  gatewayDelaySeconds : GaugeVec
  gatewayStdDevSeconds : GaugeVec
  gatewayUp : GaugeVec

/-- Constructor `NewGatewayCollector` of gateway.go. -/
def NewGatewayCollector : GatewayCollector :=
  { gatewayLossRatio :=
      NewGaugeVec (MetricsPrefix ++ "gateway_loss_ratio") ["host", "name", "srcip", "monitorip"]
    gatewayDelaySeconds :=
      NewGaugeVec (MetricsPrefix ++ "gateway_delay_seconds") ["host", "name", "srcip", "monitorip"]
    gatewayStdDevSeconds :=
      NewGaugeVec (MetricsPrefix ++ "gateway_stddev_seconds") ["host", "name", "srcip", "monitorip"]
    gatewayUp := NewGaugeVec (MetricsPrefix ++ "gateway_up")
      ["host", "name", "srcip", "monitorip", "substatus"] }

/-- Method `Name` of GatewayCollector. -/
def GatewayCollector.Name (_c : GatewayCollector) : String := "gateways"

/-- Method `Describe` of GatewayCollector. -/
def GatewayCollector.Describe (c : GatewayCollector) : List Desc :=
  c.gatewayLossRatio.Describe ++ c.gatewayDelaySeconds.Describe
    ++ c.gatewayStdDevSeconds.Describe ++ c.gatewayUp.Describe

/-- Method `resetMetrics` of GatewayCollector. -/
def GatewayCollector.resetMetrics (c : GatewayCollector) : GatewayCollector :=
  { gatewayLossRatio := c.gatewayLossRatio.Reset
    gatewayDelaySeconds := c.gatewayDelaySeconds.Reset
    gatewayStdDevSeconds := c.gatewayStdDevSeconds.Reset
    gatewayUp := c.gatewayUp.Reset }

/-- Function `gatewayUpToFloat64` of gateway.go. -/
def gatewayUpToFloat64 (status : String) : Float64 :=
  if status = "online" then 1.0 else 0.0

/-- Method `CollectWithTarget` of GatewayCollector. -/
def GatewayCollector.CollectWithTarget (lib : Lib) (dec : Decoders) (c : GatewayCollector)
    (target : Target) : GatewayCollector × List Metric :=
  match fetch lib target "/api/v2/status/gateways" dec.Gateways with
  | none => (c, [])
  | some gateways =>
    let c := c.resetMetrics
    let c := gateways.foldl (fun (c : GatewayCollector) gw =>
      let lvs := [target.Host, gw.Name, gw.SourceIP, gw.MonitorIP]
      let c := { c with gatewayLossRatio := c.gatewayLossRatio.Set lvs (gw.Loss / 100.0) }
      let c := { c with gatewayDelaySeconds := c.gatewayDelaySeconds.Set lvs (gw.Delay / 1000.0) }
      let c := { c with gatewayStdDevSeconds := c.gatewayStdDevSeconds.Set lvs (gw.StdDev / 1000.0) }
      let up := gatewayUpToFloat64 gw.Status
      { c with gatewayUp := c.gatewayUp.Set (lvs ++ [gw.Substatus]) up })
      c
    (c, c.gatewayLossRatio.Collect ++ c.gatewayDelaySeconds.Collect
      ++ c.gatewayStdDevSeconds.Collect ++ c.gatewayUp.Collect)

/-- RESTAPICollector of restapi.go. -/
structure RESTAPICollector where
  restAPIUpdateAvailable : GaugeVec

/-- Constructor `NewRESTAPICollector` of restapi.go. -/
def NewRESTAPICollector : RESTAPICollector :=
  { restAPIUpdateAvailable := NewGaugeVec (MetricsPrefix ++ "restapi_update_available")
      ["host", "current_version", "latest_version", "latest_version_release_date"] }

/-- Method `Name` of RESTAPICollector. -/
def RESTAPICollector.Name (_c : RESTAPICollector) : String := "restapi"

/-- Method `Describe` of RESTAPICollector. -/
def RESTAPICollector.Describe (c : RESTAPICollector) : List Desc :=
  c.restAPIUpdateAvailable.Describe

/-- Method `resetMetrics` of RESTAPICollector. -/
def RESTAPICollector.resetMetrics (c : RESTAPICollector) : RESTAPICollector :=
  { restAPIUpdateAvailable := c.restAPIUpdateAvailable.Reset }

/-- Method `CollectWithTarget` of RESTAPICollector. -/
def RESTAPICollector.CollectWithTarget (lib : Lib) (dec : Decoders) (c : RESTAPICollector)
    (target : Target) : RESTAPICollector × List Metric :=
  match fetch lib target "/api/v2/system/restapi/version" dec.RESTAPIStats with
  | none => (c, [])
  | some stats =>
    let c := c.resetMetrics
    let lvs := [target.Host, stats.CurrentVersion, stats.LatestVersion, stats.LatestVersionReleaseDate]
    let update := BoolToFloat64 stats.UpdateAvailable
    let c := { c with restAPIUpdateAvailable := c.restAPIUpdateAvailable.Set lvs update }
    (c, c.restAPIUpdateAvailable.Collect)

/-- SystemCollector of system.go. -/
structure SystemCollector where
  systemTemperatureCelsius : GaugeVec
  systemCPUCount : GaugeVec
  systemCPUUsage : GaugeVec
  systemDiskUsage : GaugeVec
  systemMemoryUsage : GaugeVec
  systemSwapUsage : GaugeVec
  systemMbufUsage : GaugeVec

/-- Constructor `NewSystemCollector` of system.go. -/
def NewSystemCollector : SystemCollector :=
  { systemTemperatureCelsius := NewGaugeVec (MetricsPrefix ++ "system_temperature_celsius") ["host"]
    systemCPUCount := NewGaugeVec (MetricsPrefix ++ "system_cpu_count") ["host"]
    systemCPUUsage := NewGaugeVec (MetricsPrefix ++ "system_cpu_usage_ratio") ["host"]
    systemDiskUsage := NewGaugeVec (MetricsPrefix ++ "system_disk_usage_ratio") ["host"]
    systemMemoryUsage := NewGaugeVec (MetricsPrefix ++ "system_memory_usage_ratio") ["host"]
    systemSwapUsage := NewGaugeVec (MetricsPrefix ++ "system_swap_usage_ratio") ["host"]
    systemMbufUsage := NewGaugeVec (MetricsPrefix ++ "system_mbuf_usage_ratio") ["host"] }

/-- Method `Name` of SystemCollector. -/
def SystemCollector.Name (_c : SystemCollector) : String := "system"

/-- Method `Describe` of SystemCollector. -/
def SystemCollector.Describe (c : SystemCollector) : List Desc :=
  c.systemTemperatureCelsius.Describe ++ c.systemCPUCount.Describe ++ c.systemCPUUsage.Describe
    ++ c.systemDiskUsage.Describe ++ c.systemMemoryUsage.Describe ++ c.systemSwapUsage.Describe
    ++ c.systemMbufUsage.Describe

/-- Method `CollectWithTarget` of SystemCollector (it has no reset step). -/
def SystemCollector.CollectWithTarget (lib : Lib) (dec : Decoders) (c : SystemCollector)
    (target : Target) : SystemCollector × List Metric :=
  match fetch lib target "/api/v2/status/system" dec.SystemStats with
  | none => (c, [])
  | some stats =>
    let h := [target.Host]
    let c := { c with systemTemperatureCelsius := c.systemTemperatureCelsius.Set h stats.TempC }
    let c := { c with systemCPUCount := c.systemCPUCount.Set h stats.CPUCount }
    let c := { c with systemCPUUsage := c.systemCPUUsage.Set h (stats.CPUUsage / 100) }
    let c := { c with systemDiskUsage := c.systemDiskUsage.Set h (stats.DiskUsage / 100) }
    let c := { c with systemMemoryUsage := c.systemMemoryUsage.Set h (stats.MemUsage / 100) }
    let c := { c with systemSwapUsage := c.systemSwapUsage.Set h (stats.SwapUsage / 100) }
    let c := { c with systemMbufUsage := c.systemMbufUsage.Set h (stats.MbufUsage / 100) }
    (c, c.systemTemperatureCelsius.Collect ++ c.systemCPUCount.Collect ++ c.systemCPUUsage.Collect
      ++ c.systemDiskUsage.Collect ++ c.systemMemoryUsage.Collect ++ c.systemSwapUsage.Collect
      ++ c.systemMbufUsage.Collect)

/-- FirewallStatesCollector of firewall_state.go. -/
structure FirewallStatesCollector where
  firewallStatesMaximumCount : GaugeVec
  firewallStatesCurrentCount : GaugeVec
  firewallStatesUsageRatio : GaugeVec

/-- Constructor `NewFirewallStatesCollector` of firewall_state.go. -/
def NewFirewallStatesCollector : FirewallStatesCollector :=
  { firewallStatesMaximumCount :=
      NewGaugeVec (MetricsPrefix ++ "firewall_states_maximum_count") ["host"]
    firewallStatesCurrentCount :=
      NewGaugeVec (MetricsPrefix ++ "firewall_states_current_count") ["host"]
    firewallStatesUsageRatio :=
      NewGaugeVec (MetricsPrefix ++ "firewall_states_usage_ratio") ["host"] }

/-- Method `Name` of FirewallStatesCollector. -/
def FirewallStatesCollector.Name (_c : FirewallStatesCollector) : String := "firewall_states"

/-- Method `Describe` of FirewallStatesCollector. -/
def FirewallStatesCollector.Describe (c : FirewallStatesCollector) : List Desc :=
  c.firewallStatesMaximumCount.Describe ++ c.firewallStatesCurrentCount.Describe
    ++ c.firewallStatesUsageRatio.Describe

/-- Method `CollectWithTarget` of FirewallStatesCollector (it has no reset step). -/
def FirewallStatesCollector.CollectWithTarget (lib : Lib) (dec : Decoders)
    (c : FirewallStatesCollector) (target : Target) : FirewallStatesCollector × List Metric :=
  match fetch lib target "/api/v2/firewall/states/size" dec.FirewallStatesStats with
  | none => (c, [])
  | some stats =>
    let stats :=
      if Float64.eq stats.MaximumStates 0 then
        { stats with MaximumStates := stats.DefaultMaximumStates }
      else stats
    let h := [target.Host]
    let c := { c with
      firewallStatesMaximumCount := c.firewallStatesMaximumCount.Set h stats.MaximumStates }
    let c := { c with
      firewallStatesCurrentCount := c.firewallStatesCurrentCount.Set h stats.CurrentStates }
    let ratio := stats.CurrentStates / stats.MaximumStates
    let c := { c with firewallStatesUsageRatio := c.firewallStatesUsageRatio.Set h ratio }
    (c, c.firewallStatesCurrentCount.Collect ++ c.firewallStatesMaximumCount.Collect
      ++ c.firewallStatesUsageRatio.Collect)

/-- ServiceCollector of service.go. -/
structure ServiceCollector where
  serviceUp : GaugeVec
  serviceEnabled : GaugeVec

/-- Constructor `NewServiceCollector` of service.go. -/
def NewServiceCollector : ServiceCollector :=
  { serviceUp := NewGaugeVec (MetricsPrefix ++ "service_up") ["host", "name"]
    serviceEnabled := NewGaugeVec (MetricsPrefix ++ "service_enabled") ["host", "name"] }

/-- Method `Name` of ServiceCollector. -/
def ServiceCollector.Name (_c : ServiceCollector) : String := "service"

/-- Method `Describe` of ServiceCollector. -/
def ServiceCollector.Describe (c : ServiceCollector) : List Desc :=
  c.serviceUp.Describe ++ c.serviceEnabled.Describe

/-- Method `CollectWithTarget` of ServiceCollector. -/
def ServiceCollector.CollectWithTarget (lib : Lib) (dec : Decoders) (c : ServiceCollector)
    (target : Target) : ServiceCollector × List Metric :=
  match fetch lib target "/api/v2/status/services" dec.Services with
  | none => (c, [])
  | some services =>
    let c := { c with serviceUp := c.serviceUp.Reset }
    let c := { c with serviceEnabled := c.serviceEnabled.Reset }
    let c := services.foldl (fun (c : ServiceCollector) svc =>
      let lvs := [target.Host, svc.Name]
      let c := { c with serviceUp := c.serviceUp.Set lvs (BoolToFloat64 svc.Status) }
      { c with serviceEnabled := c.serviceEnabled.Set lvs (BoolToFloat64 svc.Enabled) })
      c
    (c, c.serviceUp.Collect ++ c.serviceEnabled.Collect)

/-- InterfaceCollector of interface.go. -/
structure InterfaceCollector where
  interfaceUp : GaugeVec
  interfaceInErrsCount : GaugeVec
  interfaceOutErrsCount : GaugeVec
  interfaceCollisionsCount : GaugeVec
  interfaceInBytesCount : GaugeVec
  interfaceInBytesPassCount : GaugeVec
  interfaceOutBytesCount : GaugeVec
  interfaceOutBytesPassCount : GaugeVec
  interfaceInPktsCount : GaugeVec
  interfaceInPktsPassCount : GaugeVec
  interfaceOutPktsCount : GaugeVec
  interfaceOutPktsPassCount : GaugeVec

/-- Constructor `NewInterfaceCollector` of interface.go. -/
def NewInterfaceCollector : InterfaceCollector :=
  { interfaceUp :=
      NewGaugeVec (MetricsPrefix ++ "interface_up") ["host", "name", "descr", "hwif", "status"]
    interfaceInErrsCount :=
      NewGaugeVec (MetricsPrefix ++ "interface_in_errs_count") ["host", "name", "descr", "hwif"]
    interfaceOutErrsCount :=
      NewGaugeVec (MetricsPrefix ++ "interface_out_errs_count") ["host", "name", "descr", "hwif"]
    interfaceCollisionsCount :=
      NewGaugeVec (MetricsPrefix ++ "interface_collisions_count") ["host", "name", "descr", "hwif"]
    interfaceInBytesCount :=
      NewGaugeVec (MetricsPrefix ++ "interface_in_bytes") ["host", "name", "descr", "hwif"]
    interfaceInBytesPassCount :=
      NewGaugeVec (MetricsPrefix ++ "interface_in_pass_bytes") ["host", "name", "descr", "hwif"]
    interfaceOutBytesCount :=
      NewGaugeVec (MetricsPrefix ++ "interface_out_bytes") ["host", "name", "descr", "hwif"]
    interfaceOutBytesPassCount :=
      NewGaugeVec (MetricsPrefix ++ "interface_out_pass_bytes") ["host", "name", "descr", "hwif"]
    interfaceInPktsCount :=
      NewGaugeVec (MetricsPrefix ++ "interface_in_pkts_count") ["host", "name", "descr", "hwif"]
    interfaceInPktsPassCount :=
      NewGaugeVec (MetricsPrefix ++ "interface_in_pass_pkts_count") ["host", "name", "descr", "hwif"]
    interfaceOutPktsCount :=
      NewGaugeVec (MetricsPrefix ++ "interface_out_pkts_count") ["host", "name", "descr", "hwif"]
    interfaceOutPktsPassCount :=
      NewGaugeVec (MetricsPrefix ++ "interface_out_pass_pkts_count") ["host", "name", "descr", "hwif"] }

/-- Method `Name` of InterfaceCollector. -/
def InterfaceCollector.Name (_c : InterfaceCollector) : String := "interface"

/-- Method `Describe` of InterfaceCollector. -/
def InterfaceCollector.Describe (c : InterfaceCollector) : List Desc :=
  c.interfaceInErrsCount.Describe
    ++ c.interfaceOutErrsCount.Describe
    ++ c.interfaceCollisionsCount.Describe
    ++ c.interfaceInBytesCount.Describe
    ++ c.interfaceInBytesPassCount.Describe
    ++ c.interfaceOutBytesCount.Describe
    ++ c.interfaceOutBytesPassCount.Describe
    ++ c.interfaceInPktsCount.Describe
    ++ c.interfaceInPktsPassCount.Describe
    ++ c.interfaceOutPktsCount.Describe
    ++ c.interfaceOutPktsPassCount.Describe

/-- Function `interfaceStatusToFloat64` of interface.go. -/
def interfaceStatusToFloat64 (status : String) : Float64 :=
  if status = "up" then 1.0 else 0.0

/-- Method `CollectWithTarget` of InterfaceCollector.  The twelve resets, and the twelve sets of
one loop round, each touch a gauge of their own and are written as one record. -/
def InterfaceCollector.CollectWithTarget (lib : Lib) (dec : Decoders) (c : InterfaceCollector)
    (target : Target) : InterfaceCollector × List Metric :=
  match fetch lib target "/api/v2/status/interfaces" dec.Interfaces with
  | none => (c, [])
  | some interfaces =>
    let c : InterfaceCollector :=
      { interfaceUp := c.interfaceUp.Reset
        interfaceInErrsCount := c.interfaceInErrsCount.Reset
        interfaceOutErrsCount := c.interfaceOutErrsCount.Reset
        interfaceCollisionsCount := c.interfaceCollisionsCount.Reset
        interfaceInBytesCount := c.interfaceInBytesCount.Reset
        interfaceInBytesPassCount := c.interfaceInBytesPassCount.Reset
        interfaceOutBytesCount := c.interfaceOutBytesCount.Reset
        interfaceOutBytesPassCount := c.interfaceOutBytesPassCount.Reset
        interfaceInPktsCount := c.interfaceInPktsCount.Reset
        interfaceInPktsPassCount := c.interfaceInPktsPassCount.Reset
        interfaceOutPktsCount := c.interfaceOutPktsCount.Reset
        interfaceOutPktsPassCount := c.interfaceOutPktsPassCount.Reset }
    let c := interfaces.foldl (fun (c : InterfaceCollector) iface =>
      let lvs := [target.Host, iface.Name, iface.Descr, iface.Hwif]
      { interfaceUp := c.interfaceUp.Set (lvs ++ [iface.Status]) (interfaceStatusToFloat64 iface.Status)
        interfaceInErrsCount := c.interfaceInErrsCount.Set lvs iface.InErrs
        interfaceOutErrsCount := c.interfaceOutErrsCount.Set lvs iface.OutErrs
        interfaceCollisionsCount := c.interfaceCollisionsCount.Set lvs iface.Collisions
        interfaceInBytesCount := c.interfaceInBytesCount.Set lvs iface.InBytes
        interfaceInBytesPassCount := c.interfaceInBytesPassCount.Set lvs iface.InBytesPass
        interfaceOutBytesCount := c.interfaceOutBytesCount.Set lvs iface.OutBytes
        interfaceOutBytesPassCount := c.interfaceOutBytesPassCount.Set lvs iface.OutBytesPass
        interfaceInPktsCount := c.interfaceInPktsCount.Set lvs iface.InPkts
        interfaceInPktsPassCount := c.interfaceInPktsPassCount.Set lvs iface.InPktsPass
        interfaceOutPktsCount := c.interfaceOutPktsCount.Set lvs iface.OutPkts
        interfaceOutPktsPassCount := c.interfaceOutPktsPassCount.Set lvs iface.OutPktsPass })
      c
    (c, c.interfaceUp.Collect
      ++ c.interfaceInErrsCount.Collect
      ++ c.interfaceOutErrsCount.Collect
      ++ c.interfaceCollisionsCount.Collect
      ++ c.interfaceInBytesCount.Collect
      ++ c.interfaceInBytesPassCount.Collect
      ++ c.interfaceOutBytesCount.Collect
      ++ c.interfaceOutBytesPassCount.Collect
      ++ c.interfaceInPktsCount.Collect
      ++ c.interfaceInPktsPassCount.Collect
      ++ c.interfaceOutPktsCount.Collect
      ++ c.interfaceOutPktsPassCount.Collect)

/-- PackageCollector of package.go. -/
structure PackageCollector where
  updateAvailable : GaugeVec

/-- Constructor `NewPackageCollector` of package.go. -/
def NewPackageCollector : PackageCollector :=
  { updateAvailable := NewGaugeVec (MetricsPrefix ++ "package_update_available")
      ["host", "name", "shortname", "installed_version", "latest_version"] }

/-- Method `Name` of PackageCollector. -/
def PackageCollector.Name (_c : PackageCollector) : String := "package"

/-- Method `Describe` of PackageCollector. -/
def PackageCollector.Describe (c : PackageCollector) : List Desc :=
  c.updateAvailable.Describe

/-- Method `resetMetrics` of PackageCollector. -/
def PackageCollector.resetMetrics (c : PackageCollector) : PackageCollector :=
  { updateAvailable := c.updateAvailable.Reset }

/-- Method `CollectWithTarget` of PackageCollector. -/
def PackageCollector.CollectWithTarget (lib : Lib) (dec : Decoders) (c : PackageCollector)
    (target : Target) : PackageCollector × List Metric :=
  match fetch lib target "/api/v2/system/packages" dec.Packages with
  | none => (c, [])
  | some packages =>
    let c := c.resetMetrics
    let c := packages.foldl (fun (c : PackageCollector) pkg =>
      let lvs := [target.Host, pkg.Name, pkg.Shortname, pkg.InstalledVersion, pkg.LatestVersion]
      { c with updateAvailable := c.updateAvailable.Set lvs (BoolToFloat64 pkg.UpdateAvailable) })
      c
    (c, c.updateAvailable.Collect)

/-- LoginProtectionCollector of login_protection.go. -/
structure LoginProtectionCollector where
  loginProtectionBlockedIP : GaugeVec
  loginProtectionBlockedIPCount : GaugeVec

/-- Constructor `NewLoginProtectionCollector` of login_protection.go. -/
def NewLoginProtectionCollector : LoginProtectionCollector :=
  { loginProtectionBlockedIP :=
      NewGaugeVec (MetricsPrefix ++ "login_protection_blocked_ip") ["host", "ip"]
    loginProtectionBlockedIPCount :=
      NewGaugeVec (MetricsPrefix ++ "login_protection_blocked_ip_count") ["host"] }

/-- Method `Name` of LoginProtectionCollector. -/
def LoginProtectionCollector.Name (_c : LoginProtectionCollector) : String := "login_protection"

/-- Method `Describe` of LoginProtectionCollector. -/
def LoginProtectionCollector.Describe (c : LoginProtectionCollector) : List Desc :=
  c.loginProtectionBlockedIP.Describe ++ c.loginProtectionBlockedIPCount.Describe

/-- Method `CollectWithTarget` of LoginProtectionCollector (only the per-IP gauge is reset). -/
def LoginProtectionCollector.CollectWithTarget (lib : Lib) (dec : Decoders)
    (c : LoginProtectionCollector) (target : Target) : LoginProtectionCollector × List Metric :=
  match fetch lib target "/api/v2/diagnostics/table?id=sshguard" dec.LoginProtectionStats with
  | none => (c, [])
  | some stats =>
    let c := { c with loginProtectionBlockedIP := c.loginProtectionBlockedIP.Reset }
    let c := stats.Entries.foldl (fun (c : LoginProtectionCollector) entry =>
      { c with loginProtectionBlockedIP := c.loginProtectionBlockedIP.Set [target.Host, entry] 1 })
      c
    let count := Float64.ofNat stats.Entries.length
    let c := { c with
      loginProtectionBlockedIPCount := c.loginProtectionBlockedIPCount.Set [target.Host] count }
    (c, c.loginProtectionBlockedIP.Collect ++ c.loginProtectionBlockedIPCount.Collect)

/-- FirewallScheduleCollector of firewall_schedule.go. -/
structure FirewallScheduleCollector where
  firewallScheduleActive : GaugeVec

/-- Constructor `NewFirewallScheduleCollector` of firewall_schedule.go. -/
def NewFirewallScheduleCollector : FirewallScheduleCollector :=
  { firewallScheduleActive :=
      NewGaugeVec (MetricsPrefix ++ "firewall_schedule_active") ["host", "name"] }

/-- Method `Name` of FirewallScheduleCollector. -/
def FirewallScheduleCollector.Name (_c : FirewallScheduleCollector) : String :=
  "firewall_schedule"

/-- Method `Describe` of FirewallScheduleCollector. -/
def FirewallScheduleCollector.Describe (c : FirewallScheduleCollector) : List Desc :=
  c.firewallScheduleActive.Describe

/-- Method `CollectWithTarget` of FirewallScheduleCollector. -/
def FirewallScheduleCollector.CollectWithTarget (lib : Lib) (dec : Decoders)
    (c : FirewallScheduleCollector) (target : Target) : FirewallScheduleCollector × List Metric :=
  match fetch lib target "/api/v2/firewall/schedules" dec.FirewallSchedules with
  | none => (c, [])
  | some stats =>
    let c := { c with firewallScheduleActive := c.firewallScheduleActive.Reset }
    let c := stats.foldl (fun (c : FirewallScheduleCollector) schedule =>
      let active := BoolToFloat64 schedule.Active
      { c with firewallScheduleActive := c.firewallScheduleActive.Set [target.Host, schedule.Name] active })
      c
    (c, c.firewallScheduleActive.Collect)

/-- The concrete collectors, one constructor per type that an `init` function of
internal/collectors registers; each implements `registry.TargetedCollector`. -/
inductive Collector
  | carp (c : CARPCollector)
  | firewallSchedule (c : FirewallScheduleCollector)
  | firewallStates (c : FirewallStatesCollector)
  | gateway (c : GatewayCollector)
  | interface (c : InterfaceCollector)
  | loginProtection (c : LoginProtectionCollector)
  | package (c : PackageCollector)
  | restapi (c : RESTAPICollector)
  | service (c : ServiceCollector)
  | system (c : SystemCollector)

/-- Method `Name` of the interface, by dynamic dispatch. -/
def Collector.Name : Collector → String
  | .carp c => c.Name
  | .firewallSchedule c => c.Name
  | .firewallStates c => c.Name
  | .gateway c => c.Name
  | .interface c => c.Name
  | .loginProtection c => c.Name
  | .package c => c.Name
  | .restapi c => c.Name
  | .service c => c.Name
  | .system c => c.Name

/-- Method `Describe` of the interface, by dynamic dispatch. -/
def Collector.Describe : Collector → List Desc
  | .carp c => c.Describe
  | .firewallSchedule c => c.Describe
  | .firewallStates c => c.Describe
  | .gateway c => c.Describe
  | .interface c => c.Describe
  | .loginProtection c => c.Describe
  | .package c => c.Describe
  | .restapi c => c.Describe
  | .service c => c.Describe
  | .system c => c.Describe

/-- Method `CollectWithTarget` of the interface, by dynamic dispatch: the collector afterwards
and the samples it sent on its channel. -/
def Collector.CollectWithTarget (lib : Lib) (dec : Decoders) (k : Collector) (target : Target) :
    Collector × List Metric :=
  match k with
  | .carp c => (.carp (c.CollectWithTarget lib dec target).1, (c.CollectWithTarget lib dec target).2)
  | .firewallSchedule c => (.firewallSchedule (c.CollectWithTarget lib dec target).1, (c.CollectWithTarget lib dec target).2)
  | .firewallStates c => (.firewallStates (c.CollectWithTarget lib dec target).1, (c.CollectWithTarget lib dec target).2)
  | .gateway c => (.gateway (c.CollectWithTarget lib dec target).1, (c.CollectWithTarget lib dec target).2)
  | .interface c => (.interface (c.CollectWithTarget lib dec target).1, (c.CollectWithTarget lib dec target).2)
  | .loginProtection c => (.loginProtection (c.CollectWithTarget lib dec target).1, (c.CollectWithTarget lib dec target).2)
  | .package c => (.package (c.CollectWithTarget lib dec target).1, (c.CollectWithTarget lib dec target).2)
  | .restapi c => (.restapi (c.CollectWithTarget lib dec target).1, (c.CollectWithTarget lib dec target).2)
  | .service c => (.service (c.CollectWithTarget lib dec target).1, (c.CollectWithTarget lib dec target).2)
  | .system c => (.system (c.CollectWithTarget lib dec target).1, (c.CollectWithTarget lib dec target).2)

/-- A fetch of `endpoint` fails: `utils.Request` returns an error, or a nil response, or a
response with nil `Data`, or a payload that does not decode into the typed shape. -/
def FetchFails {α : Type} (lib : Lib) (target : Target) (endpoint : String)
    (unmarshal : RawMessage → Except String α) : Prop :=
  (Request lib target "GET" endpoint).2 ≠ none ∨
  (Request lib target "GET" endpoint).1 = none ∨
  ∃ resp, (Request lib target "GET" endpoint).1 = some resp ∧
    (resp.Data = none ∨ ∃ data err, resp.Data = some data ∧ unmarshal data = .error err)

/-- Some fetch of the collector fails: its one fetch, or for CARP either the status fetch or
the virtual-IP fetch. -/
def Collector.FetchFails (lib : Lib) (dec : Decoders) (k : Collector) (target : Target) : Prop :=
  match k with
  | .carp _ => PfsenseExporter.FetchFails lib target "/api/v2/status/carp" dec.CARPStats ∨
      PfsenseExporter.FetchFails lib target "/api/v2/firewall/virtual_ips?mode=carp" dec.CARPVirtualIPs
  | .firewallSchedule _ => PfsenseExporter.FetchFails lib target "/api/v2/firewall/schedules" dec.FirewallSchedules
  | .firewallStates _ => PfsenseExporter.FetchFails lib target "/api/v2/firewall/states/size" dec.FirewallStatesStats
  | .gateway _ => PfsenseExporter.FetchFails lib target "/api/v2/status/gateways" dec.Gateways
  | .interface _ => PfsenseExporter.FetchFails lib target "/api/v2/status/interfaces" dec.Interfaces
  | .loginProtection _ => PfsenseExporter.FetchFails lib target "/api/v2/diagnostics/table?id=sshguard" dec.LoginProtectionStats
  | .package _ => PfsenseExporter.FetchFails lib target "/api/v2/system/packages" dec.Packages
  | .restapi _ => PfsenseExporter.FetchFails lib target "/api/v2/system/restapi/version" dec.RESTAPIStats
  | .service _ => PfsenseExporter.FetchFails lib target "/api/v2/status/services" dec.Services
  | .system _ => PfsenseExporter.FetchFails lib target "/api/v2/status/system" dec.SystemStats

/-- Decoders that reject every payload. -/
def Decoders.failing : Decoders :=
  { CARPStats := fun _ => .error "invalid"
    CARPVirtualIPs := fun _ => .error "invalid"
    Gateways := fun _ => .error "invalid"
    RESTAPIStats := fun _ => .error "invalid"
    SystemStats := fun _ => .error "invalid"
    FirewallStatesStats := fun _ => .error "invalid"
    Services := fun _ => .error "invalid"
    Interfaces := fun _ => .error "invalid"
    Packages := fun _ => .error "invalid"
    LoginProtectionStats := fun _ => .error "invalid"
    FirewallSchedules := fun _ => .error "invalid" }

/-! ## internal/registry/registry.go -/

/-- TargetedCollector, the interface of registry.go, as the orchestrator sees a registered
value: its `Name()`, what `Describe` sends, and the samples `CollectWithTarget` sends on the
channel it is given, in order, when called for a target. -/
structure TargetedCollector where
  Name : String
  Describe : List Desc
  CollectWithTarget : Target → List Metric

/-- A concrete collector seen through the interface, for a given library and decoders. -/
def Collector.toTargeted (lib : Lib) (dec : Decoders) (k : Collector) : TargetedCollector :=
  { Name := k.Name
    Describe := k.Describe
    CollectWithTarget := fun target => (k.CollectWithTarget lib dec target).2 }

/-- Function `Register` of registry.go, with the global `collectors` passed explicitly. -/
def Register (collectors : List TargetedCollector) (c : TargetedCollector) :
    List TargetedCollector :=
  collectors ++ [c]

/-- MasterCollector is the entry point for Prometheus scrapes. -/
structure MasterCollector where
  Target : Target

/-- Constructor `NewMasterCollector` of registry.go. -/
def NewMasterCollector (target : Target) : MasterCollector :=
  { Target := target }

/-- Method `Describe` of MasterCollector: every registered collector in turn. -/
def MasterCollector.Describe (_mc : MasterCollector) (collectors : List TargetedCollector) :
    List Desc :=
  collectors.flatMap (fun c => c.Describe)

/-- The test that guards the early return in the goroutine of `Collect`:
`mc.Target.Collectors != nil && !slices.Contains(mc.Target.Collectors, collector.Name())`. -/
def MasterCollector.skips (mc : MasterCollector) (collector : TargetedCollector) : Bool :=
  match mc.Target.Collectors with
  | none => false
  | some names => !names.contains collector.Name

/-! ### `MasterCollector.Collect` as a step machine

`Collect` starts one goroutine per registered collector and waits for them.  Its runs are
modelled as the interleavings of atomic steps: one step per channel operation (the send into
and the receive from `semaphore`, each send into `collectorCh`, each forward to `ch`), per
WaitGroup operation, and for the allow-list test.  A scheduler picks which goroutine moves
next; a blocked operation is a step that is not enabled. -/

/-- Where the goroutine that `Collect` starts for one collector stands.
* `notStarted`: its `go` statement has not run yet;
* `acquire`: before `semaphore <- struct{}{}`;
* `check`: slot acquired, before the allow-list test;
* `collect n`: inside `CollectWithTarget`, with `n` samples sent into `collectorCh`;
* `forward n`: `collectorCh` closed, `n` samples forwarded to `ch`;
* `release`: before the deferred `<-semaphore`;
* `wgDone`: before the deferred `wg.Done()`;
* `finished`: the goroutine has ended. -/
inductive Pc
  | notStarted
  | acquire
  | check
  | collect (sent : Nat)
  | forward (sent : Nat)
  | release
  | wgDone
  | finished
deriving DecidableEq, Repr

/-- One goroutine of `Collect`: the collector it was started for, its program point, and two
history counters, the entries into and the returns from `CollectWithTarget`. -/
structure Task where
  collector : TargetedCollector
  pc : Pc
  calls : Nat
  returns : Nat

/-- The state of one run of `Collect`: the goroutines (one per registry entry, in order), the
index of the `range` loop, the number of tokens in the `semaphore` channel, the WaitGroup
counter, the samples sent on `ch` so far, whether `wg.Wait()` has returned, and whether the
run has panicked. -/
structure CollectState where
  tasks : List Task
  launched : Nat
  semaphore : Nat
  wg : Nat
  ch : List Metric
  returned : Bool
  panicked : Bool

/-- What the scheduler may pick: the main goroutine's next loop round, the next atomic step
of goroutine `i`, or the main goroutine's `wg.Wait()`. -/
inductive Action
  | launch
  | run (i : Nat)
  | wait
deriving DecidableEq, Repr

/-- The state when `Collect` has made the semaphore channel (`make` panics on a negative
capacity) and is about to enter the loop. -/
def MasterCollector.init (mc : MasterCollector) (collectors : List TargetedCollector) :
    CollectState :=
  { tasks := collectors.map (fun c => ⟨c, .notStarted, 0, 0⟩)
    launched := 0
    semaphore := 0
    wg := 0
    ch := []
    returned := false
    panicked := decide (mc.Target.MaxCollectorConcurrency < 0) }

/-- The next atomic step of goroutine `i`, whose state is `t`; `none` when it is blocked or
over.  A send on a buffered channel blocks while the buffer is full, a receive while it is
empty; the reader of `ch` is taken to be always ready.  `make` panics on a negative capacity
and is taken to succeed on every other one: validation sets no upper bound on
`MaxCollectorBufferSize`, and what the runtime does with a capacity beyond the memory of the
machine (the panic `makechan: size out of range`, or running out of memory) is not part of
the model. -/
def MasterCollector.stepTask (mc : MasterCollector) (s : CollectState) (i : Nat) (t : Task) :
    Option CollectState :=
  match t.pc with
  | .notStarted => none
  | .acquire =>
    if (s.semaphore : Int) < mc.Target.MaxCollectorConcurrency then
      some { s with semaphore := s.semaphore + 1, tasks := s.tasks.set i { t with pc := .check } }
    else none
  | .check =>
    if mc.skips t.collector then
      some { s with tasks := s.tasks.set i { t with pc := .release } }
    else if mc.Target.MaxCollectorBufferSize < 0 then
      some { s with panicked := true }
    else
      some { s with tasks := s.tasks.set i { t with pc := .collect 0, calls := t.calls + 1 } }
  | .collect n =>
    if n < (t.collector.CollectWithTarget mc.Target).length then
      if (n : Int) < mc.Target.MaxCollectorBufferSize then
        some { s with tasks := s.tasks.set i { t with pc := .collect (n + 1) } }
      else none
    else
      some { s with tasks := s.tasks.set i { t with pc := .forward 0, returns := t.returns + 1 } }
  | .forward n =>
    match (t.collector.CollectWithTarget mc.Target)[n]? with
    | some metric =>
      some { s with ch := s.ch ++ [metric], tasks := s.tasks.set i { t with pc := .forward (n + 1) } }
    | none => some { s with tasks := s.tasks.set i { t with pc := .release } }
  | .release =>
    if s.semaphore = 0 then none
    else some { s with semaphore := s.semaphore - 1, tasks := s.tasks.set i { t with pc := .wgDone } }
  | .wgDone =>
    if s.wg = 0 then some { s with panicked := true }
    else some { s with wg := s.wg - 1, tasks := s.tasks.set i { t with pc := .finished } }
  | .finished => none

/-- One scheduled step of `Collect`; `none` when the action is not enabled.  Nothing runs
after a panic or after `wg.Wait()` has returned. -/
def MasterCollector.step (mc : MasterCollector) (s : CollectState) (a : Action) :
    Option CollectState :=
  if s.returned ∨ s.panicked then none
  else
    match a with
    | .launch =>
      match s.tasks[s.launched]? with
      | some t =>
        some { s with wg := s.wg + 1, tasks := s.tasks.set s.launched { t with pc := .acquire },
                      launched := s.launched + 1 }
      | none => none
    | .run i =>
      match s.tasks[i]? with
      | some t => mc.stepTask s i t
      | none => none
    | .wait =>
      if s.launched = s.tasks.length ∧ s.wg = 0 then some { s with returned := true } else none

/-- The steps of a schedule, one after the other, from a state. -/
def MasterCollector.exec (mc : MasterCollector) (s : CollectState) :
    List Action → Option CollectState
  | [] => some s
  | a :: rest =>
    match mc.step s a with
    | some s' => mc.exec s' rest
    | none => none

/-- Method `Collect` of MasterCollector under a schedule: the state the run is in after the
scheduled steps, `none` if the schedule picks a step that is not enabled. -/
def MasterCollector.Collect (mc : MasterCollector) (collectors : List TargetedCollector)
    (schedule : List Action) : Option CollectState :=
  mc.exec (mc.init collectors) schedule

/-- Whether a goroutine at this point holds a semaphore slot (it has sent into `semaphore`
and has not yet received from it). -/
def Pc.holdsSlot : Pc → Bool
  | .check | .collect _ | .forward _ | .release => true
  | _ => false

/-- Whether a goroutine at this point is inside `CollectWithTarget`. -/
def Pc.inCollect : Pc → Bool
  | .collect _ => true
  | _ => false

/-- The collectors on which `CollectWithTarget` has been called so far, in registry order. -/
def CollectState.invoked (s : CollectState) : List TargetedCollector :=
  (s.tasks.filter (fun t => 0 < t.calls)).map (fun t => t.collector)

/-- Whether a goroutine at this point counts in the WaitGroup: started and not yet past
`wg.Done()`. -/
def Pc.active : Pc → Bool
  | .notStarted | .finished => false
  | _ => true

/-- The samples a goroutine has sent on `ch` so far, read off its program point. -/
def Task.forwarded (mc : MasterCollector) (t : Task) : List Metric :=
  match t.pc with
  | .forward n => (t.collector.CollectWithTarget mc.Target).take n
  | .release | .wgDone | .finished =>
    if mc.skips t.collector then [] else t.collector.CollectWithTarget mc.Target
  | _ => []

/-- The history counters of a goroutine agree with its program point. -/
def Task.ok (mc : MasterCollector) (t : Task) : Prop :=
  match t.pc with
  | .notStarted | .acquire | .check => t.calls = 0 ∧ t.returns = 0
  | .collect _ => mc.skips t.collector = false ∧ t.calls = 1 ∧ t.returns = 0
  | .forward _ => mc.skips t.collector = false ∧ t.calls = 1 ∧ t.returns = 1
  | .release | .wgDone | .finished =>
    if mc.skips t.collector then t.calls = 0 ∧ t.returns = 0 else t.calls = 1 ∧ t.returns = 1

/-- The invariant of a run of `Collect` over the registry `collectors`. -/
structure CollectState.Inv (mc : MasterCollector) (collectors : List TargetedCollector)
    (s : CollectState) : Prop where
  collectors_eq : s.tasks.map (fun t => t.collector) = collectors
  sem_eq : s.semaphore = (s.tasks.map (fun t => if t.pc.holdsSlot then 1 else 0)).sum
  sem_le : s.semaphore = 0 ∨ (s.semaphore : Int) ≤ mc.Target.MaxCollectorConcurrency
  wg_eq : s.wg = (s.tasks.map (fun t => if t.pc.active then 1 else 0)).sum
  started : ∀ i t, s.tasks[i]? = some t → (t.pc = .notStarted ↔ s.launched ≤ i)
  task_ok : ∀ t ∈ s.tasks, t.ok mc
  ch_eq : (s.ch : Multiset Metric)
    = (s.tasks.map (fun t => (t.forwarded mc : Multiset Metric))).sum
  returned_imp : s.returned = true → s.launched = s.tasks.length ∧ s.wg = 0

/-- MockCollector of registry_test.go; this one sends the given samples when called. -/
def MockCollector (name : String) (metrics : List Metric) : TargetedCollector :=
  { Name := name, Describe := [], CollectWithTarget := fun _ => metrics }

/-- The schedule that starts every goroutine and then runs them to the end one after the
other: `steps` gives, per goroutine, the number of atomic steps to run. -/
def sequentialSchedule (steps : List Nat) : List Action :=
  List.replicate steps.length Action.launch
    ++ (steps.enum.flatMap (fun p => List.replicate p.2 (Action.run p.1)))
    ++ [Action.wait]

/-- The number of atomic steps the goroutine of a collector takes from its start to its end:
acquire, test, release and `wg.Done()` when it is skipped; otherwise also the sends into
`collectorCh`, the return, the forwards to `ch` and the end of the `range` loop. -/
def MasterCollector.stepsOf (mc : MasterCollector) (c : TargetedCollector) : Nat :=
  if mc.skips c then 4 else 2 * (c.CollectWithTarget mc.Target).length + 6

/-- The state of `Collect` in its loop when the goroutines of `pre` have been started and
have not yet run, and those of `post` are still to be started. -/
def launchedState (pre post : List TargetedCollector) : CollectState :=
  { tasks := pre.map (fun c => ⟨c, .acquire, 0, 0⟩) ++ post.map (fun c => ⟨c, .notStarted, 0, 0⟩)
    launched := pre.length
    semaphore := 0
    wg := pre.length
    ch := []
    returned := false
    panicked := false }

/-! ## internal/utils/config.go: the configuration and the lookup of a target -/

/-- Config is the top-level structure for the YAML config file. -/
structure Config where
  Address : String
  Port : Int
  Targets : List Target
deriving DecidableEq, Repr

/-- The `range` loop of `GetTarget`: the first target whose `Host` is `host`, if any. -/
def GetTarget.loop (host : String) : List Target → Option Target
  | [] => none
  | target :: rest => if target.Host = host then some target else GetTarget.loop host rest

/-- Function `GetTarget` of config.go, with the global `Cfg` (loaded by `LoadConfig` before the
server starts) passed explicitly.  The pair is Go's `(*Target, error)`. -/
def GetTarget (Cfg : Config) (host : String) : Option Target × Option String :=
  match GetTarget.loop host Cfg.Targets with
  | some target => (some target, none)
  | none => (none, some ("target not configured: " ++ host))

/-! ## cmd/pfsense_exporter/main.go -/

/-- What a handler answers: the status code and the body. -/
structure HandlerResponse where
  StatusCode : Int
  Body : String
deriving DecidableEq, Repr

/-- The handler that `main` registers for `/metrics`, on the value of the `target` query
parameter.  `serve` stands for the rest of the handler, which is library code around the
scrape: a new prometheus registry, `MustRegister(registry.NewMasterCollector(target))` and
`promhttp.HandlerFor(...).ServeHTTP`, given the target pointer. -/
def metricsHandler (serve : Option Target → HandlerResponse) (Cfg : Config)
    (targetParam : String) : HandlerResponse :=
  match GetTarget Cfg targetParam with
  | (_, some _) => ⟨400, "Bad target\n"⟩
  | (target, none) => serve target

/-- Decoders that decode every interfaces payload to the given records and reject the rest. -/
def Decoders.interfaces (records : List InterfaceStats) : Decoders :=
  { Decoders.failing with Interfaces := fun _ => .ok records }

/-- Decoders that decode every gateways payload to the given records and reject the rest. -/
def Decoders.gateways (records : List GatewayStats) : Decoders :=
  { Decoders.failing with Gateways := fun _ => .ok records }

/-- Decoders that decode every firewall-states payload to the given value and reject the
rest. -/
def Decoders.firewallStates (stats : PfsenseExporter.FirewallStatesStats) : Decoders :=
  { Decoders.failing with FirewallStatesStats := fun _ => .ok stats }

/-! ## Specification predicates for `executeAndParse` and `Target.Validate`, and `ValidateTargets` -/

/-- Transport failure: `client.Do` returns an error. -/
def transportFails (lib : Lib) (client : HttpClient) (req : HttpRequest) : Bool :=
  match lib.Do client req with
  | .error _ => true
  | .ok _ => false

/-- Body-read failure: the round trip succeeds and `io.ReadAll` on the body returns an error. -/
def bodyReadFails (lib : Lib) (client : HttpClient) (req : HttpRequest) : Bool :=
  match lib.Do client req with
  | .error _ => false
  | .ok resp =>
    match resp.Body with
    | .error _ => true
    | .ok _ => false

/-- JSON-decode failure of the envelope: the body is read and `json.Unmarshal` returns an
error. -/
def envelopeDecodeFails (lib : Lib) (client : HttpClient) (req : HttpRequest) : Bool :=
  match lib.Do client req with
  | .error _ => false
  | .ok resp =>
    match resp.Body with
    | .error _ => false
    | .ok body =>
      match lib.Unmarshal body with
      | .error _ => true
      | .ok _ => false

/-- Embedded non-success code: the envelope decodes and its `Code` is not 200. -/
def embeddedCodeFails (lib : Lib) (client : HttpClient) (req : HttpRequest) : Bool :=
  match lib.Do client req with
  | .error _ => false
  | .ok resp =>
    match resp.Body with
    | .error _ => false
    | .ok body =>
      match lib.Unmarshal body with
      | .error _ => false
      | .ok response => decide (response.Code ≠ 200)

/-- The pointer that `Validate` returns: nil (`none`) at each `return nil, err`, and the
receiver at `return t, nil`. -/
def Target.Validate.returned (t : Target) : Option Target :=
  match t.Validate with
  | (_, some _) => none
  | (t, none) => some t

/-- The `range` loop of `ValidateTargets` from index `idx` on; `c` is the configuration as
written so far and the list holds the elements still to be visited.  `target` is the loop
copy: `Validate` runs on the copy, and the slice is only written by
`c.Targets[idx] = *validated_target`. -/
def Config.ValidateTargets.loop (c : Config) : Nat → List Target → Config × Option String
  | _, [] => (c, none)
  | idx, target :: rest =>
    match target.Validate with
    | (_, some err) =>
      (c, some ("validation error for target " ++ toString idx ++ ": " ++ err))
    | (validated_target, none) =>
      Config.ValidateTargets.loop { c with Targets := c.Targets.set idx validated_target }
        (idx + 1) rest

/-- Method `ValidateTargets` of config.go: the configuration afterwards and the error. -/
def Config.ValidateTargets (c : Config) : Config × Option String :=
  Config.ValidateTargets.loop c 0 c.Targets

/-- Decoders that decode every system payload to the given value and reject the rest. -/
def Decoders.system (stats : PfsenseExporter.SystemStats) : Decoders :=
  { Decoders.failing with SystemStats := fun _ => .ok stats }

/-- Decoders that decode every login-protection payload to the given value and reject the
rest. -/
def Decoders.loginProtection (stats : PfsenseExporter.LoginProtectionStats) : Decoders :=
  { Decoders.failing with LoginProtectionStats := fun _ => .ok stats }

/-- Decoders that decode every services payload to the given records and reject the rest. -/
def Decoders.services (records : List ServiceStats) : Decoders :=
  { Decoders.failing with Services := fun _ => .ok records }

/-- Decoders that decode every CARP status payload and every virtual-IP payload to the given
values and reject the rest. -/
def Decoders.carp (stats : PfsenseExporter.CARPStats) (virtualIPs : List CARPVirtualIPStatus) :
    Decoders :=
  { Decoders.failing with CARPStats := fun _ => .ok stats, CARPVirtualIPs := fun _ => .ok virtualIPs }

/-! ## The gauges of a collector, and what the prometheus library keeps true of a gauge -/

/-- The gauges of a collector, in the order in which its `CollectWithTarget` collects them. -/
def Collector.gauges : Collector → List GaugeVec
  | .carp c => [c.carpEnabled, c.carpMaintenanceModeEnabled, c.carpVirtualIPStatus]
  | .firewallSchedule c => [c.firewallScheduleActive]
  | .firewallStates c =>
    [c.firewallStatesCurrentCount, c.firewallStatesMaximumCount, c.firewallStatesUsageRatio]
  | .gateway c =>
    [c.gatewayLossRatio, c.gatewayDelaySeconds, c.gatewayStdDevSeconds, c.gatewayUp]
  | .interface c =>
    [c.interfaceUp, c.interfaceInErrsCount, c.interfaceOutErrsCount, c.interfaceCollisionsCount,
     c.interfaceInBytesCount, c.interfaceInBytesPassCount, c.interfaceOutBytesCount,
     c.interfaceOutBytesPassCount, c.interfaceInPktsCount, c.interfaceInPktsPassCount,
     c.interfaceOutPktsCount, c.interfaceOutPktsPassCount]
  | .loginProtection c => [c.loginProtectionBlockedIP, c.loginProtectionBlockedIPCount]
  | .package c => [c.updateAvailable]
  | .restapi c => [c.restAPIUpdateAvailable]
  | .service c => [c.serviceUp, c.serviceEnabled]
  | .system c =>
    [c.systemTemperatureCelsius, c.systemCPUCount, c.systemCPUUsage, c.systemDiskUsage,
     c.systemMemoryUsage, c.systemSwapUsage, c.systemMbufUsage]

/-- The library keeps the children of a `GaugeVec` in a map keyed by the label values: no two
children have the same label values. -/
def GaugeVec.WF (g : GaugeVec) : Prop :=
  (g.children.map (fun p => p.1)).Nodup

/-- What holds of a collector as constructed and after every call: its gauges have names of
their own, and each gauge has at most one child per label values. -/
def Collector.WF (k : Collector) : Prop :=
  (k.gauges.map (fun g => g.Name)).Nodup ∧ ∀ g ∈ k.gauges, g.WF

/-- The gauge `g'` is the gauge `g` after operations of the library on it: it has the name of
`g`, and one child per label values if `g` had. -/
def GaugeVec.Follows (g g' : GaugeVec) : Prop :=
  g'.Name = g.Name ∧ (g.WF → g'.WF)

/-- The ten collectors as the `init` functions of internal/collectors construct them. -/
def Collector.registered : List Collector :=
  [.carp NewCARPCollector, .firewallSchedule NewFirewallScheduleCollector,
   .firewallStates NewFirewallStatesCollector, .gateway NewGatewayCollector,
   .interface NewInterfaceCollector, .loginProtection NewLoginProtectionCollector,
   .package NewPackageCollector, .restapi NewRESTAPICollector, .service NewServiceCollector,
   .system NewSystemCollector]

/-- The last record wins: of the records of `payload`, each one after which no record has
the same label values `key` has its value `val` among `samples`, under the metric `name` and
these label values. -/
def LastWins {α : Type} (samples : List Metric) (payload : List α) (name : String)
    (key : α → List String) (val : α → Float64) : Prop :=
  ∀ pre r post, payload = pre ++ r :: post → (∀ x ∈ post, key x ≠ key r) →
    (⟨name, key r, val r⟩ : Metric) ∈ samples

/-! ## Reading Basic credentials back: strings, encoding/base64 and net/http

`Request.BasicAuth` of net/http reads the credentials of a request back from its
`Authorization` header.  It is library code, given here as the library defines it, together
with `base64.StdEncoding` on the UTF-8 bytes of a string. -/

/-- The bytes of one character in a Go string (UTF-8). -/
def utf8EncodeChar (c : Char) : List Nat :=
  let n := c.toNat
  if n < 128 then [n]
  else if n < 2048 then [192 + n / 64, 128 + n % 64]
  else if n < 65536 then [224 + n / 4096, 128 + n / 64 % 64, 128 + n % 64]
  else [240 + n / 262144, 128 + n / 4096 % 64, 128 + n / 64 % 64, 128 + n % 64]

/-- The conversion `[]byte(s)`. -/
def utf8Encode (s : String) : List Nat :=
  s.toList.flatMap utf8EncodeChar

/-- The conversion `string(bytes)`, for bytes that are the UTF-8 form of some text; `none`
for other bytes, which Go keeps as they are and which no text stands for.  `fuel` bounds the
number of characters. -/
def utf8Decode : Nat → List Nat → Option (List Char)
  | _, [] => some []
  | 0, _ :: _ => none
  | fuel + 1, b0 :: rest =>
    let n :=
      if b0 < 128 then b0
      else if b0 < 224 then (b0 - 192) * 64 + (rest.getD 0 0 - 128)
      else if b0 < 240 then (b0 - 224) * 4096 + (rest.getD 0 0 - 128) * 64 + (rest.getD 1 0 - 128)
      else (b0 - 240) * 262144 + (rest.getD 0 0 - 128) * 4096 + (rest.getD 1 0 - 128) * 64
        + (rest.getD 2 0 - 128)
    let c := Char.ofNat n
    let bytes := utf8EncodeChar c
    if (b0 :: rest).take bytes.length = bytes then
      (utf8Decode fuel ((b0 :: rest).drop bytes.length)).map (fun cs => c :: cs)
    else none

/-- The alphabet of `base64.StdEncoding`. -/
def base64Alphabet : List Char :=
  "ABCDEFGHIJKLMNOPQRSTUVWXYZabcdefghijklmnopqrstuvwxyz0123456789+/".toList

/-- The character for a 6-bit value. -/
def base64Char (i : Nat) : Char :=
  base64Alphabet.getD i 'A'

/-- The 6-bit value of a character of the alphabet. -/
def base64Index (c : Char) : Option Nat :=
  if base64Alphabet.indexOf c < 64 then some (base64Alphabet.indexOf c) else none

/-- The encoding of `base64.StdEncoding`: four characters per three bytes, padded with `=`. -/
def base64Encode : List Nat → List Char
  | a :: b :: c :: rest =>
    base64Char (a / 4) :: base64Char (a % 4 * 16 + b / 16) :: base64Char (b % 16 * 4 + c / 64)
      :: base64Char (c % 64) :: base64Encode rest
  | [a, b] => [base64Char (a / 4), base64Char (a % 4 * 16 + b / 16), base64Char (b % 16 * 4), '=']
  | [a] => [base64Char (a / 4), base64Char (a % 4 * 16), '=', '=']
  | [] => []

/-- The decoding of `base64.StdEncoding`, padding required; `none` for a decode error. -/
def base64Decode : List Char → Option (List Nat)
  | [] => some []
  | a :: b :: c :: d :: rest =>
    match base64Index a, base64Index b with
    | some ia, some ib =>
      if c = '=' then
        if d = '=' ∧ rest.isEmpty then some [ia * 4 + ib / 16] else none
      else
        match base64Index c with
        | none => none
        | some ic =>
          if d = '=' then
            if rest.isEmpty then some [ia * 4 + ib / 16, ib % 16 * 16 + ic / 4] else none
          else
            match base64Index d with
            | none => none
            | some id =>
              (base64Decode rest).map
                (fun bytes => [ia * 4 + ib / 16, ib % 16 * 16 + ic / 4, ic % 4 * 64 + id] ++ bytes)
    | _, _ => none
  | _ => none

/-- `base64.StdEncoding.EncodeToString([]byte(s))`. -/
def base64EncodeToString (s : String) : String :=
  String.mk (base64Encode (utf8Encode s))

/-- `base64.StdEncoding.DecodeString(s)` followed by the conversion to a string; the decoder
skips carriage returns and line feeds. -/
def base64DecodeString (s : String) : Option String :=
  ((base64Decode (s.toList.filter (fun c => c ≠ '\r' ∧ c ≠ '\n'))).bind
    (fun bytes => utf8Decode bytes.length bytes)).map String.mk

/-- The loop of `strings.Cut` for a separator of one character: the text before the first
occurrence of the separator and the text after it. -/
def stringsCut.go (sep : Char) : List Char → Option (List Char × List Char)
  | [] => none
  | c :: cs =>
    if c = sep then some ([], cs)
    else (stringsCut.go sep cs).map (fun p => (c :: p.1, p.2))

/-- `strings.Cut(s, sep)` for a separator of one character; `none` when `sep` does not occur
(Go's `found == false`). -/
def stringsCut (s : String) (sep : Char) : Option (String × String) :=
  (stringsCut.go sep s.toList).map (fun p => (String.mk p.1, String.mk p.2))

/-- Function `parseBasicAuth` of net/http: the scheme `Basic ` compared without regard to
ASCII case, the rest decoded, and the result cut at the first colon.  `decodeString` stands
for `base64.StdEncoding.DecodeString` followed by the conversion to a string. -/
def parseBasicAuth (decodeString : String → Option String) (auth : String) :
    Option (String × String) :=
  if auth.toList.length < 6 ∨ (auth.toList.take 6).map Char.toLower ≠ "basic ".toList then
    none
  else
    match decodeString (String.mk (auth.toList.drop 6)) with
    | none => none
    | some cs => stringsCut cs ':'

/-- Method `Request.BasicAuth` of net/http: the user name and the password that the request
carries in its `Authorization` header, `none` for Go's `ok == false`. -/
def HttpRequest.BasicAuth (decodeString : String → Option String) (req : HttpRequest) :
    Option (String × String) :=
  match req.Header.Get "Authorization" with
  | none => none
  | some auth => if auth = "" then none else parseBasicAuth decodeString auth

/-- A stub of the library with the encoding of `encoding/base64` as it is: request creation
succeeds, every round trip fails and no body decodes. -/
def Lib.std : Lib :=
  { NewRequest := fun _ _ => none
    Do := fun _ _ => .error "connection refused"
    base64 := base64EncodeToString
    Unmarshal := fun _ => .error "invalid" }

/-- A stub of the library in the manner of the `httptest` servers of request_test.go: request
creation succeeds, every round trip gives the same outcome, every body decodes to the same
envelope outcome, and `base64` is left as the identity. -/
def Lib.canned (roundTrip : Except String HttpResponse) (envelope : Except String Response) : Lib :=
  { NewRequest := fun _ _ => none
    Do := fun _ _ => roundTrip
    base64 := fun s => s
    Unmarshal := fun _ => envelope }

/-- A stub of the library that answers by URL: the round trip to `url` succeeds with status
200 and the given envelope, every other round trip fails. -/
def Lib.only (url : String) (envelope : Response) : Lib :=
  { NewRequest := fun _ _ => none
    Do := fun _ req => if req.URL = url then .ok ⟨200, .ok "body"⟩ else .error "connection refused"
    base64 := fun s => s
    Unmarshal := fun _ => .ok envelope }

/-! ## Theorems -/

/-- The receiver and the error of `validateTimeout`, in closed form. -/
theorem validateTimeout_eq (t : Target) :
    t.validateTimeout =
      ({ t with Timeout := if t.Timeout = 0 then 30 else t.Timeout },
        if (if t.Timeout = 0 then 30 else t.Timeout) ≤ 5
            ∨ (if t.Timeout = 0 then 30 else t.Timeout) ≥ 360 then
          some ("Target 'timeout' must be between 5 and 360 seconds for host '" ++ t.Host ++ "'")
        else none) := by
  obtain ⟨h, p, sc, am, u, pw, k, vc, tm, cs, mc, mb⟩ := t
  by_cases h0 : tm = 0
  · subst h0; simp [Target.validateTimeout]
  · by_cases h : tm ≤ 5 ∨ tm ≥ 360
    · simp [Target.validateTimeout, h0, h]
    · simp [Target.validateTimeout, h0, h]

/-- C8: for every integer timeout, `validateTimeout` replaces 0 by 30 and then succeeds
exactly when the resulting timeout lies in 6..359; 5, 360 and every negative value are
rejected, and 0 is accepted and becomes 30. -/
theorem validateTimeout_spec (t : Target) :
    (t.validateTimeout.1 = { t with Timeout := if t.Timeout = 0 then 30 else t.Timeout }) ∧
    (t.validateTimeout.2 = none ↔
      6 ≤ t.validateTimeout.1.Timeout ∧ t.validateTimeout.1.Timeout ≤ 359) ∧
    ({ t with Timeout := 5 }.validateTimeout.2 ≠ none) ∧
    ({ t with Timeout := 360 }.validateTimeout.2 ≠ none) ∧
    (∀ n : Nat, { t with Timeout := -(n + 1 : Int) }.validateTimeout.2 ≠ none) ∧
    ({ t with Timeout := 0 }.validateTimeout.2 = none ∧
      { t with Timeout := 0 }.validateTimeout.1.Timeout = 30) := by
  simp only [validateTimeout_eq]
  refine ⟨trivial, ?_, by simp, by simp, ?_, by simp⟩
  · by_cases h0 : t.Timeout = 0
    · simp [h0]
    · simp [h0]; omega
  · intro n
    have h0 : ¬ (-(n + 1 : Int) = 0) := by omega
    have h1 : (-(n + 1 : Int) ≤ 5 ∨ -(n + 1 : Int) ≥ 360) := by omega
    simp only [h0, if_false, h1, if_true]
    simp

/-- The receiver and the error of `ValidateMaxCollectorConcurrency`, in closed form. -/
theorem ValidateMaxCollectorConcurrency_eq (t : Target) :
    t.ValidateMaxCollectorConcurrency =
      ({ t with MaxCollectorConcurrency :=
            if t.MaxCollectorConcurrency = 0 then 4 else t.MaxCollectorConcurrency },
        if (if t.MaxCollectorConcurrency = 0 then 4 else t.MaxCollectorConcurrency) < 1
            ∨ (if t.MaxCollectorConcurrency = 0 then 4 else t.MaxCollectorConcurrency) > 10 then
          some "global 'max_concurrent_collectors' must be between 1 and 10"
        else none) := by
  obtain ⟨h, p, sc, am, u, pw, k, vc, tm, cs, mc, mb⟩ := t
  by_cases h0 : mc = 0
  · subst h0; simp [Target.ValidateMaxCollectorConcurrency]
  · by_cases h : mc < 1 ∨ mc > 10
    · simp [Target.ValidateMaxCollectorConcurrency, h0, h]
    · simp [Target.ValidateMaxCollectorConcurrency, h0, h]

/-- The receiver and the error of `ValidateMaxCollectorBufferSize`, in closed form. -/
theorem ValidateMaxCollectorBufferSize_eq (t : Target) :
    t.ValidateMaxCollectorBufferSize =
      ({ t with MaxCollectorBufferSize :=
            if t.MaxCollectorBufferSize = 0 then 100 else t.MaxCollectorBufferSize },
        if (if t.MaxCollectorBufferSize = 0 then 100 else t.MaxCollectorBufferSize) < 10 then
          some "global 'max_collector_buffer_size' must be at least 10"
        else none) := by
  obtain ⟨h, p, sc, am, u, pw, k, vc, tm, cs, mc, mb⟩ := t
  by_cases h0 : mb = 0
  · subst h0; simp [Target.ValidateMaxCollectorBufferSize]
  · by_cases h : mb < 10
    · simp [Target.ValidateMaxCollectorBufferSize, h0, h]
    · simp [Target.ValidateMaxCollectorBufferSize, h0, h]

/-- C9: for every integer `MaxCollectorConcurrency`, `ValidateMaxCollectorConcurrency` replaces
0 by 4 and then succeeds exactly when the resulting value lies in 1..10; every negative value
and every value above 10 is rejected. -/
theorem ValidateMaxCollectorConcurrency_spec (t : Target) :
    (t.ValidateMaxCollectorConcurrency.1 = { t with MaxCollectorConcurrency :=
        if t.MaxCollectorConcurrency = 0 then 4 else t.MaxCollectorConcurrency }) ∧
    (t.ValidateMaxCollectorConcurrency.2 = none ↔
      1 ≤ t.ValidateMaxCollectorConcurrency.1.MaxCollectorConcurrency ∧
        t.ValidateMaxCollectorConcurrency.1.MaxCollectorConcurrency ≤ 10) ∧
    (∀ n : Nat, { t with MaxCollectorConcurrency := -(n + 1 : Int) }.ValidateMaxCollectorConcurrency.2
        ≠ none) ∧
    (∀ n : Nat, { t with MaxCollectorConcurrency := (n + 11 : Int) }.ValidateMaxCollectorConcurrency.2
        ≠ none) := by
  simp only [ValidateMaxCollectorConcurrency_eq]
  refine ⟨trivial, ?_, ?_, ?_⟩
  · by_cases h0 : t.MaxCollectorConcurrency = 0
    · simp [h0]
    · simp [h0]
  · intro n
    have h0 : ¬ (-(n + 1 : Int) = 0) := by omega
    have h1 : (-(n + 1 : Int) < 1 ∨ -(n + 1 : Int) > 10) := by omega
    simp only [h0, if_false, h1, if_true]
    simp
  · intro n
    have h0 : ¬ ((n + 11 : Int) = 0) := by omega
    have h1 : ((n + 11 : Int) < 1 ∨ (n + 11 : Int) > 10) := by omega
    simp only [h0, if_false, h1, if_true]
    simp

/-- C10: for every integer `MaxCollectorBufferSize`, `ValidateMaxCollectorBufferSize` replaces
0 by 100 and then succeeds exactly when the resulting value is at least 10; every value in
1..9 and every negative value is rejected. -/
theorem ValidateMaxCollectorBufferSize_spec (t : Target) :
    (t.ValidateMaxCollectorBufferSize.1 = { t with MaxCollectorBufferSize :=
        if t.MaxCollectorBufferSize = 0 then 100 else t.MaxCollectorBufferSize }) ∧
    (t.ValidateMaxCollectorBufferSize.2 = none ↔
      10 ≤ t.ValidateMaxCollectorBufferSize.1.MaxCollectorBufferSize) ∧
    (∀ n : Fin 9, { t with MaxCollectorBufferSize := (n.val + 1 : Int) }.ValidateMaxCollectorBufferSize.2
        ≠ none) ∧
    (∀ n : Nat, { t with MaxCollectorBufferSize := -(n + 1 : Int) }.ValidateMaxCollectorBufferSize.2
        ≠ none) := by
  simp only [ValidateMaxCollectorBufferSize_eq]
  refine ⟨trivial, ?_, ?_, ?_⟩
  · by_cases h0 : t.MaxCollectorBufferSize = 0
    · simp [h0]
    · simp [h0]
  · intro n
    have hn := n.isLt
    have h0 : ¬ ((n.val + 1 : Int) = 0) := by omega
    have h1 : ((n.val + 1 : Int) < 10) := by omega
    simp only [h0, if_false, h1, if_true]
    simp
  · intro n
    have h0 : ¬ (-(n + 1 : Int) = 0) := by omega
    have h1 : (-(n + 1 : Int) < 10) := by omega
    simp only [h0, if_false, h1, if_true]
    simp

/-- C6: when the round trip succeeds (whatever its transport-level status), the body is read
and it decodes as an envelope, `executeAndParse` returns that envelope with no error exactly
when the embedded `Code` is 200; for every other embedded code (0 for a missing field
included) it returns a nil response and the error
`received non-200 status code <code>: <message>`. -/
theorem executeAndParse_embedded_code (lib : Lib) (client : HttpClient) (req : HttpRequest)
    (resp : HttpResponse) (body : String) (response : Response)
    (hDo : lib.Do client req = .ok resp) (hBody : resp.Body = .ok body)
    (hJson : lib.Unmarshal body = .ok response) :
    (executeAndParse lib client req = (some response, none) ↔ response.Code = 200) ∧
    ((executeAndParse lib client req).2 = none ↔ response.Code = 200) ∧
    (response.Code ≠ 200 →
      executeAndParse lib client req =
        (none, some ("received non-200 status code " ++ toString response.Code ++ ": "
          ++ response.Message))) := by
  unfold executeAndParse
  rw [hDo]
  simp only [hBody, hJson]
  by_cases h : response.Code = 200
  · simp [h]
  · simp [h]

/-- Witness for C6: transport status 200 with embedded code 400 is a failure carrying the
embedded code and message; the premises hold for the canned library. -/
theorem executeAndParse_embedded_code_witness :
    executeAndParse
        (Lib.canned (.ok ⟨200, .ok "body"⟩) (.ok ⟨400, "error", "error123", "Bad request", none⟩))
        ⟨true, 10⟩ ⟨"GET", "http://test.com:80/api/v1/error", ⟨[]⟩⟩
      = (none, some "received non-200 status code 400: Bad request") :=
  (executeAndParse_embedded_code
      (Lib.canned (.ok ⟨200, .ok "body"⟩) (.ok ⟨400, "error", "error123", "Bad request", none⟩))
      ⟨true, 10⟩ ⟨"GET", "http://test.com:80/api/v1/error", ⟨[]⟩⟩
      ⟨200, .ok "body"⟩ "body" ⟨400, "error", "error123", "Bad request", none⟩
      rfl rfl rfl).2.2 (by decide)

/-- Reading back the key just set gives the value set. -/
theorem Header.Get_Set_same (h : Header) (key value : String) :
    (h.Set key value).Get key = some value := by
  simp [Header.Set, Header.Get]

/-- Dropping the entries of one key does not change what is found under another key. -/
theorem find?_filter_key (es : List (String × String)) (k o : String) (hne : k ≠ o) :
    (es.filter (fun e => e.1 ≠ k)).find? (fun e => e.1 = o) = es.find? (fun e => e.1 = o) := by
  induction es with
  | nil => rfl
  | cons e es ih =>
    by_cases hk : e.1 = k
    · have hk2 : ¬ e.1 = o := fun h2 => hne (hk.symm.trans h2)
      rw [List.filter_cons_of_neg (by simpa using hk), List.find?_cons_of_neg _ (by simpa using hk2)]
      exact ih
    · rw [List.filter_cons_of_pos (by simpa using hk)]
      by_cases hk2 : e.1 = o
      · rw [List.find?_cons_of_pos _ (by simpa using hk2),
          List.find?_cons_of_pos _ (by simpa using hk2)]
      · rw [List.find?_cons_of_neg _ (by simpa using hk2),
          List.find?_cons_of_neg _ (by simpa using hk2)]
        exact ih

/-- Setting one key leaves every other canonical key as it was. -/
theorem Header.Get_Set_other (h : Header) (key value other : String)
    (hne : CanonicalMIMEHeaderKey key ≠ CanonicalMIMEHeaderKey other) :
    (h.Set key value).Get other = h.Get other := by
  obtain ⟨es⟩ := h
  simp only [Header.Set, Header.Get]
  rw [List.find?_cons_of_neg _ (by simpa using hne), find?_filter_key _ _ _ hne]

/-- The header `setHeaders` leaves on the request, by authentication method. -/
theorem setHeaders_Header (lib : Lib) (req : HttpRequest) (target : Target) :
    (setHeaders lib req target).Header =
      if target.AuthMethod = "basic" then
        ((req.Header.Set "Accept" "application/json").Set "Content-Type"
          "application/x-www-form-urlencoded").Set "Authorization"
            ("Basic " ++ lib.base64 (target.Username ++ ":" ++ target.Password))
      else if target.AuthMethod = "key" then
        ((req.Header.Set "Accept" "application/json").Set "Content-Type"
          "application/x-www-form-urlencoded").Set "X-API-Key" target.Key
      else
        (req.Header.Set "Accept" "application/json").Set "Content-Type"
          "application/x-www-form-urlencoded" := by
  unfold setHeaders
  split_ifs <;> rfl

/-! ### Basic credentials read back -/

/-- Every 6-bit value is the value of its character. -/
theorem base64Index_Char : ∀ i : Fin 64, base64Index (base64Char i.val) = some i.val := by
  decide

/-- No character of the alphabet is the padding, a carriage return or a line feed. -/
theorem base64Char_ne : ∀ i : Fin 64,
    base64Char i.val ≠ '=' ∧ base64Char i.val ≠ '\r' ∧ base64Char i.val ≠ '\n' := by
  decide

/-- Every 6-bit value is the value of its character, for a number below 64. -/
theorem base64Index_Char' (i : Nat) (h : i < 64) : base64Index (base64Char i) = some i :=
  base64Index_Char ⟨i, h⟩

/-- No character of the alphabet is the padding, a carriage return or a line feed, for a
number below 64. -/
theorem base64Char_ne' (i : Nat) (h : i < 64) :
    base64Char i ≠ '=' ∧ base64Char i ≠ '\r' ∧ base64Char i ≠ '\n' :=
  base64Char_ne ⟨i, h⟩

/-- Decoding what was encoded gives the bytes back. -/
theorem base64Decode_Encode : ∀ bs : List Nat, (∀ b ∈ bs, b < 256) →
    base64Decode (base64Encode bs) = some bs := by
  intro bs
  induction bs using base64Encode.induct with
  | case1 a b c rest ih =>
    intro h
    have ha : a < 256 := h a (by simp)
    have hb : b < 256 := h b (by simp)
    have hc : c < 256 := h c (by simp)
    have hrest := ih (fun x hx => h x (by simp [hx]))
    have h1 : a / 4 < 64 := by omega
    have h2 : a % 4 * 16 + b / 16 < 64 := by omega
    have h3 : b % 16 * 4 + c / 64 < 64 := by omega
    have h4 : c % 64 < 64 := by omega
    simp only [base64Encode, base64Decode, base64Index_Char' _ h1, base64Index_Char' _ h2,
      base64Index_Char' _ h3, base64Index_Char' _ h4, (base64Char_ne' _ h3).1,
      (base64Char_ne' _ h4).1, if_false, hrest, Option.map_some']
    congr 1
    simp only [List.cons_append, List.nil_append, List.cons.injEq, and_true]
    omega
  | case2 a b =>
    intro h
    have ha : a < 256 := h a (by simp)
    have hb : b < 256 := h b (by simp)
    have h1 : a / 4 < 64 := by omega
    have h2 : a % 4 * 16 + b / 16 < 64 := by omega
    have h3 : b % 16 * 4 < 64 := by omega
    simp only [base64Encode, base64Decode, base64Index_Char' _ h1, base64Index_Char' _ h2,
      base64Index_Char' _ h3, (base64Char_ne' _ h3).1, if_false, if_true, List.isEmpty_nil]
    simp only [Option.some.injEq, List.cons.injEq, and_true]
    omega
  | case3 a =>
    intro h
    have ha : a < 256 := h a (by simp)
    have h1 : a / 4 < 64 := by omega
    have h2 : a % 4 * 16 < 64 := by omega
    simp only [base64Encode, base64Decode, base64Index_Char' _ h1, base64Index_Char' _ h2,
      if_true, List.isEmpty_nil, and_self]
    simp only [Option.some.injEq, List.cons.injEq, and_true]
    omega
  | case4 =>
    intro _
    simp [base64Encode, base64Decode]


/-- The character for any number is no carriage return and no line feed. -/
theorem base64Char_safe (i : Nat) : base64Char i ≠ '\r' ∧ base64Char i ≠ '\n' := by
  by_cases h : i < 64
  · exact (base64Char_ne' i h).2
  · have : base64Char i = 'A' := by
      unfold base64Char
      rw [List.getD_eq_default]
      simp only [base64Alphabet, not_lt] at h ⊢
      exact h
    rw [this]
    decide

/-- An encoding holds no carriage return and no line feed. -/
theorem base64Encode_safe : ∀ (bs : List Nat), ∀ c ∈ base64Encode bs, c ≠ '\r' ∧ c ≠ '\n' := by
  intro bs
  induction bs using base64Encode.induct with
  | case1 a b c rest ih =>
    intro x hx
    simp only [base64Encode, List.mem_cons] at hx
    rcases hx with rfl | rfl | rfl | rfl | hx
    · exact base64Char_safe _
    · exact base64Char_safe _
    · exact base64Char_safe _
    · exact base64Char_safe _
    · exact ih x hx
  | case2 a b =>
    intro x hx
    simp only [base64Encode, List.mem_cons, List.mem_singleton, List.not_mem_nil, or_false] at hx
    rcases hx with rfl | rfl | rfl | rfl
    · exact base64Char_safe _
    · exact base64Char_safe _
    · exact base64Char_safe _
    · decide
  | case3 a =>
    intro x hx
    simp only [base64Encode, List.mem_cons, List.mem_singleton, List.not_mem_nil, or_false] at hx
    rcases hx with rfl | rfl | rfl | rfl
    · exact base64Char_safe _
    · exact base64Char_safe _
    · decide
    · decide
  | case4 =>
    intro x hx
    simp [base64Encode] at hx

/-- The code point of a character is a Unicode scalar value. -/
theorem Char_toNat_valid (c : Char) : c.toNat < 55296 ∨ (57343 < c.toNat ∧ c.toNat < 1114112) :=
  c.valid

/-- The UTF-8 form of a character consists of bytes. -/
theorem utf8EncodeChar_lt (c : Char) : ∀ b ∈ utf8EncodeChar c, b < 256 := by
  have hv := Char_toNat_valid c
  intro b hb
  unfold utf8EncodeChar at hb
  simp only at hb
  split_ifs at hb <;>
    simp only [List.mem_cons, List.mem_singleton, List.not_mem_nil, or_false] at hb <;>
    omega

/-- Decoding the UTF-8 form of a character followed by more bytes gives the character and
what the other bytes decode to. -/
theorem utf8Decode_append (c : Char) (rest : List Nat) (fuel : Nat) :
    utf8Decode (fuel + 1) (utf8EncodeChar c ++ rest)
      = (utf8Decode fuel rest).map (fun cs => c :: cs) := by
  have hv := Char_toNat_valid c
  have hof : ∀ n, n = c.toNat → Char.ofNat n = c := by
    intro n hn
    rw [hn]
    exact Char.ofNat_toNat c
  by_cases h1 : c.toNat < 128
  · have he : utf8EncodeChar c = [c.toNat] := by simp [utf8EncodeChar, h1]
    rw [he]
    show utf8Decode (fuel + 1) (c.toNat :: rest) = _
    simp only [utf8Decode, h1, if_true, hof _ rfl, he, List.length_singleton,
      List.take_succ_cons, List.take_zero, List.drop_succ_cons, List.drop_zero]
  · by_cases h2 : c.toNat < 2048
    · have he : utf8EncodeChar c = [192 + c.toNat / 64, 128 + c.toNat % 64] := by
        simp [utf8EncodeChar, h1, h2]
      rw [he]
      have hb1 : ¬ 192 + c.toNat / 64 < 128 := by omega
      have hb2 : 192 + c.toNat / 64 < 224 := by omega
      have hn : (192 + c.toNat / 64 - 192) * 64 + (128 + c.toNat % 64 - 128) = c.toNat := by omega
      show utf8Decode (fuel + 1) ((192 + c.toNat / 64) :: (128 + c.toNat % 64) :: rest) = _
      simp only [utf8Decode, hb1, hb2, if_true, if_false,
        List.getD_cons_zero, hn, hof _ rfl, he, List.length_cons, List.length_nil,
        List.take_succ_cons, List.take_zero, List.drop_succ_cons, List.drop_zero]
    · by_cases h3 : c.toNat < 65536
      · have he : utf8EncodeChar c
            = [224 + c.toNat / 4096, 128 + c.toNat / 64 % 64, 128 + c.toNat % 64] := by
          simp [utf8EncodeChar, h1, h2, h3]
        rw [he]
        have hb1 : ¬ 224 + c.toNat / 4096 < 128 := by omega
        have hb2 : ¬ 224 + c.toNat / 4096 < 224 := by omega
        have hb3 : 224 + c.toNat / 4096 < 240 := by omega
        have hn : (224 + c.toNat / 4096 - 224) * 4096 + (128 + c.toNat / 64 % 64 - 128) * 64
            + (128 + c.toNat % 64 - 128) = c.toNat := by omega
        show utf8Decode (fuel + 1) ((224 + c.toNat / 4096) :: (128 + c.toNat / 64 % 64)
          :: (128 + c.toNat % 64) :: rest) = _
        simp only [utf8Decode, hb1, hb2, hb3, if_true, if_false,
          List.getD_cons_zero, List.getD_cons_succ, hn, hof _ rfl, he, List.length_cons,
          List.length_nil, List.take_succ_cons, List.take_zero, List.drop_succ_cons,
          List.drop_zero]
      · have he : utf8EncodeChar c
            = [240 + c.toNat / 262144, 128 + c.toNat / 4096 % 64, 128 + c.toNat / 64 % 64,
                128 + c.toNat % 64] := by
          simp [utf8EncodeChar, h1, h2, h3]
        rw [he]
        have hb1 : ¬ 240 + c.toNat / 262144 < 128 := by omega
        have hb2 : ¬ 240 + c.toNat / 262144 < 224 := by omega
        have hb3 : ¬ 240 + c.toNat / 262144 < 240 := by omega
        have hn : (240 + c.toNat / 262144 - 240) * 262144
            + (128 + c.toNat / 4096 % 64 - 128) * 4096 + (128 + c.toNat / 64 % 64 - 128) * 64
            + (128 + c.toNat % 64 - 128) = c.toNat := by omega
        show utf8Decode (fuel + 1) ((240 + c.toNat / 262144) :: (128 + c.toNat / 4096 % 64)
          :: (128 + c.toNat / 64 % 64) :: (128 + c.toNat % 64) :: rest) = _
        simp only [utf8Decode, hb1, hb2, hb3, if_true, if_false,
          List.getD_cons_zero, List.getD_cons_succ, hn, hof _ rfl, he, List.length_cons,
          List.length_nil, List.take_succ_cons, List.take_zero, List.drop_succ_cons,
          List.drop_zero]

/-- Decoding the UTF-8 form of a text gives the text back. -/
theorem utf8Decode_flatMap : ∀ (cs : List Char) (fuel : Nat), cs.length ≤ fuel →
    utf8Decode fuel (cs.flatMap utf8EncodeChar) = some cs := by
  intro cs
  induction cs with
  | nil => intro fuel _; cases fuel <;> rfl
  | cons c cs ih =>
    intro fuel hf
    cases fuel with
    | zero => simp at hf
    | succ fuel =>
      rw [List.flatMap_cons, utf8Decode_append, ih fuel (by simpa using hf)]
      rfl

/-- The UTF-8 form of a character has at least one byte. -/
theorem utf8EncodeChar_length (c : Char) : 1 ≤ (utf8EncodeChar c).length := by
  unfold utf8EncodeChar
  simp only
  split_ifs <;> simp

/-- A text has at most as many characters as its UTF-8 form has bytes. -/
theorem length_le_flatMap (cs : List Char) : cs.length ≤ (cs.flatMap utf8EncodeChar).length := by
  induction cs with
  | nil => simp
  | cons c cs ih =>
    have := utf8EncodeChar_length c
    simp only [List.flatMap_cons, List.length_append, List.length_cons]
    omega

/-- `DecodeString` gives back every string that `EncodeToString` encoded. -/
theorem base64DecodeString_EncodeToString (s : String) :
    base64DecodeString (base64EncodeToString s) = some s := by
  unfold base64DecodeString base64EncodeToString utf8Encode
  have hfilter : List.filter (fun c => decide (c ≠ '\r' ∧ c ≠ '\n'))
      (base64Encode (s.toList.flatMap utf8EncodeChar))
      = base64Encode (s.toList.flatMap utf8EncodeChar) := by
    rw [List.filter_eq_self]
    intro c hc
    simpa using base64Encode_safe _ c hc
  have hbytes : ∀ b ∈ s.toList.flatMap utf8EncodeChar, b < 256 := by
    intro b hb
    obtain ⟨c, _, hbc⟩ := List.mem_flatMap.1 hb
    exact utf8EncodeChar_lt c b hbc
  show Option.map String.mk
    ((base64Decode (List.filter (fun c => decide (c ≠ '\r' ∧ c ≠ '\n'))
      (base64Encode (s.toList.flatMap utf8EncodeChar)))).bind
        (fun bytes => utf8Decode bytes.length bytes)) = some s
  rw [hfilter, base64Decode_Encode _ hbytes]
  simp only [Option.some_bind]
  rw [utf8Decode_flatMap _ _ (length_le_flatMap _)]
  rfl

/-- The text before the first separator has no separator in it, and the text cut is the
two parts around that separator. -/
theorem stringsCut.go_spec (sep : Char) :
    ∀ (l a b : List Char), stringsCut.go sep l = some (a, b) → sep ∉ a ∧ l = a ++ sep :: b := by
  intro l
  induction l with
  | nil => intro a b h; simp [stringsCut.go] at h
  | cons c cs ih =>
    intro a b h
    unfold stringsCut.go at h
    by_cases hc : c = sep
    · rw [if_pos hc] at h
      simp only [Option.some.injEq, Prod.mk.injEq] at h
      obtain ⟨rfl, rfl⟩ := h
      exact ⟨by simp, by rw [hc]; rfl⟩
    · rw [if_neg hc] at h
      cases hcut : stringsCut.go sep cs with
      | none => rw [hcut] at h; simp at h
      | some p =>
        rw [hcut] at h
        simp only [Option.map_some', Option.some.injEq, Prod.mk.injEq] at h
        obtain ⟨rfl, rfl⟩ := h
        obtain ⟨h1, h2⟩ := ih p.1 p.2 (by rw [hcut])
        refine ⟨?_, by rw [h2]; rfl⟩
        simp only [List.mem_cons, not_or]
        exact ⟨fun h => hc h.symm, h1⟩

/-- A text with no separator in it, followed by the separator and more text, is cut after
that text. -/
theorem stringsCut.go_append (sep : Char) (p : List Char) :
    ∀ u : List Char, sep ∉ u → stringsCut.go sep (u ++ sep :: p) = some (u, p) := by
  intro u
  induction u with
  | nil => intro _; simp [stringsCut.go]
  | cons c cs ih =>
    intro h
    simp only [List.mem_cons, not_or] at h
    have hc : ¬ c = sep := fun hcs => h.1 hcs.symm
    show stringsCut.go sep (c :: (cs ++ sep :: p)) = some (c :: cs, p)
    rw [stringsCut.go, if_neg hc, ih h.2]
    rfl

/-- The credentials `username:password` are cut back into the user name and the password
exactly when the user name has no colon. -/
theorem stringsCut_credentials (username password : String) :
    (stringsCut (username ++ ":" ++ password) ':' = some (username, password)
      ↔ ':' ∉ username.toList) ∧
    ∀ u p, stringsCut (username ++ ":" ++ password) ':' = some (u, p) → ':' ∉ u.toList := by
  have hlist : (username ++ ":" ++ password).toList
      = username.toList ++ ':' :: password.toList := by
    simp only [String.toList, String.data_append, List.append_assoc]
    rfl
  constructor
  · constructor
    · intro h
      unfold stringsCut at h
      cases hcut : stringsCut.go ':' (username ++ ":" ++ password).toList with
      | none => rw [hcut] at h; simp at h
      | some q =>
        rw [hcut] at h
        simp only [Option.map_some', Option.some.injEq, Prod.mk.injEq] at h
        obtain ⟨h1, _⟩ := stringsCut.go_spec ':' _ q.1 q.2 (by rw [hcut])
        rw [← h.1]
        exact h1
    · intro h
      unfold stringsCut
      rw [hlist, stringsCut.go_append ':' _ _ h]
      rfl
  · intro u p h
    unfold stringsCut at h
    cases hcut : stringsCut.go ':' (username ++ ":" ++ password).toList with
    | none => rw [hcut] at h; simp at h
    | some q =>
      rw [hcut] at h
      simp only [Option.map_some', Option.some.injEq, Prod.mk.injEq] at h
      obtain ⟨h1, _⟩ := stringsCut.go_spec ':' _ q.1 q.2 (by rw [hcut])
      rw [← h.1]
      exact h1

/-- `parseBasicAuth` on a header value written by `SetBasicAuth`: the scheme is recognised
and the rest is decoded and cut at the first colon. -/
theorem parseBasicAuth_Basic (decodeString : String → Option String) (encoded : String) :
    parseBasicAuth decodeString ("Basic " ++ encoded)
      = (decodeString encoded).bind (fun cs => stringsCut cs ':') := by
  have hlist : ("Basic " ++ encoded).toList
      = 'B' :: 'a' :: 's' :: 'i' :: 'c' :: ' ' :: encoded.toList := by
    simp only [String.toList, String.data_append]
    rfl
  have hlower : List.map Char.toLower ['B', 'a', 's', 'i', 'c', ' '] = "basic ".toList := by
    decide
  unfold parseBasicAuth
  rw [hlist]
  have hcond : ¬ (('B' :: 'a' :: 's' :: 'i' :: 'c' :: ' ' :: encoded.toList).length < 6 ∨
      (('B' :: 'a' :: 's' :: 'i' :: 'c' :: ' ' :: encoded.toList).take 6).map Char.toLower
        ≠ "basic ".toList) := by
    simp only [List.length_cons, List.take_succ_cons, List.take_zero, hlower, ne_eq,
      not_true_eq_false, or_false, not_lt]
    omega
  rw [if_neg hcond]
  have hdrop : String.mk (('B' :: 'a' :: 's' :: 'i' :: 'c' :: ' ' :: encoded.toList).drop 6)
      = encoded := rfl
  rw [hdrop]
  cases decodeString encoded <;> rfl

/-- A header value written by `SetBasicAuth` is not the empty string. -/
theorem Basic_append_ne_empty (encoded : String) : "Basic " ++ encoded ≠ "" := by
  intro h
  have h2 := congrArg String.data h
  simp only [String.data_append] at h2
  exact absurd h2 (by simp)

/-- Counterexample to C7 as stated: the target with user name `a:b` and password `c`
validates, and the request that `setHeaders` builds for it carries the header
`Basic YTpiOmM=`, from which `BasicAuth` reads back the user name `a` and the password `b:c`,
not the credentials of the target. -/
theorem setHeaders_basic_colon :
    (Target.Validate { Target.zero with Host := "fw", Port := 443, AuthMethod := "basic",
                                        Username := "a:b", Password := "c" }).2 = none ∧
    (setHeaders Lib.std ⟨"GET", "http://example.com", ⟨[]⟩⟩
        { Target.zero with Host := "fw", Port := 443, AuthMethod := "basic",
                           Username := "a:b", Password := "c" }).Header.Get "Authorization"
      = some "Basic YTpiOmM=" ∧
    (setHeaders Lib.std ⟨"GET", "http://example.com", ⟨[]⟩⟩
        { Target.zero with Host := "fw", Port := 443, AuthMethod := "basic",
                           Username := "a:b", Password := "c" }).BasicAuth base64DecodeString
      = some ("a", "b:c") ∧
    (setHeaders Lib.std ⟨"GET", "http://example.com", ⟨[]⟩⟩
        { Target.zero with Host := "fw", Port := 443, AuthMethod := "basic",
                           Username := "a:b", Password := "c" }).BasicAuth base64DecodeString
      ≠ some ("a:b", "c") := by
  decide

/-- C7 (amended): `setHeaders` on a request that carries no authentication header.  With
`basic` the `Authorization` header is `Basic ` followed by the base64 form of
`Username:Password`, and there is no `X-API-Key`; where the decoder gives that text back, as
that of `encoding/base64` does, the credentials that `BasicAuth` reads are the text cut at
its first colon, a user name without a colon, and they are `(Username, Password)` exactly
when `Username` has no colon.  With `key` the `X-API-Key` header is `Key`, there is no
`Authorization` header and `BasicAuth` reads no credentials.  `Accept` is
`application/json`, and the two authentication headers are never both present. -/
theorem setHeaders_auth (lib : Lib) (decodeString : String → Option String)
    (req : HttpRequest) (target : Target)
    (hAuth : req.Header.Get "Authorization" = none)
    (hKey : req.Header.Get "X-API-Key" = none) :
    (target.AuthMethod = "basic" →
      (setHeaders lib req target).Header.Get "Authorization"
          = some ("Basic " ++ lib.base64 (target.Username ++ ":" ++ target.Password)) ∧
      (setHeaders lib req target).Header.Get "X-API-Key" = none ∧
      (decodeString (lib.base64 (target.Username ++ ":" ++ target.Password))
          = some (target.Username ++ ":" ++ target.Password) →
        (setHeaders lib req target).BasicAuth decodeString
          = stringsCut (target.Username ++ ":" ++ target.Password) ':' ∧
        (∀ u p, (setHeaders lib req target).BasicAuth decodeString = some (u, p) →
          ':' ∉ u.toList) ∧
        ((setHeaders lib req target).BasicAuth decodeString
            = some (target.Username, target.Password)
          ↔ ':' ∉ target.Username.toList)) ∧
      (lib.base64 = base64EncodeToString →
        ((setHeaders lib req target).BasicAuth base64DecodeString
            = some (target.Username, target.Password)
          ↔ ':' ∉ target.Username.toList))) ∧
    (target.AuthMethod = "key" →
      (setHeaders lib req target).Header.Get "X-API-Key" = some target.Key ∧
      (setHeaders lib req target).Header.Get "Authorization" = none ∧
      (setHeaders lib req target).BasicAuth decodeString = none) ∧
    (setHeaders lib req target).Header.Get "Accept" = some "application/json" ∧
    ¬ ((setHeaders lib req target).Header.Get "Authorization" ≠ none ∧
        (setHeaders lib req target).Header.Get "X-API-Key" ≠ none) := by
  have hAA : CanonicalMIMEHeaderKey "Accept" ≠ CanonicalMIMEHeaderKey "Authorization" := by decide
  have hAK : CanonicalMIMEHeaderKey "Accept" ≠ CanonicalMIMEHeaderKey "X-API-Key" := by decide
  have hCA : CanonicalMIMEHeaderKey "Content-Type" ≠ CanonicalMIMEHeaderKey "Authorization" := by
    decide
  have hCK : CanonicalMIMEHeaderKey "Content-Type" ≠ CanonicalMIMEHeaderKey "X-API-Key" := by
    decide
  have hCAc : CanonicalMIMEHeaderKey "Content-Type" ≠ CanonicalMIMEHeaderKey "Accept" := by decide
  have hAuK : CanonicalMIMEHeaderKey "Authorization" ≠ CanonicalMIMEHeaderKey "X-API-Key" := by
    decide
  have hAuAc : CanonicalMIMEHeaderKey "Authorization" ≠ CanonicalMIMEHeaderKey "Accept" := by
    decide
  have hKAu : CanonicalMIMEHeaderKey "X-API-Key" ≠ CanonicalMIMEHeaderKey "Authorization" := by
    decide
  have hKAc : CanonicalMIMEHeaderKey "X-API-Key" ≠ CanonicalMIMEHeaderKey "Accept" := by decide
  unfold HttpRequest.BasicAuth
  rw [setHeaders_Header]
  by_cases hb : target.AuthMethod = "basic"
  · have hk : ¬ target.AuthMethod = "key" := by rw [hb]; decide
    rw [if_pos hb]
    have hX : (((req.Header.Set "Accept" "application/json").Set "Content-Type"
        "application/x-www-form-urlencoded").Set "Authorization"
        ("Basic " ++ lib.base64 (target.Username ++ ":" ++ target.Password))).Get "X-API-Key"
        = none := by
      rw [Header.Get_Set_other _ _ _ _ hAuK, Header.Get_Set_other _ _ _ _ hCK,
        Header.Get_Set_other _ _ _ _ hAK, hKey]
    refine ⟨fun _ => ⟨Header.Get_Set_same _ _ _, hX, ?_, ?_⟩, fun h => absurd h hk, ?_,
      fun h => h.2 hX⟩
    · intro hdec
      rw [Header.Get_Set_same]
      simp only [if_neg (Basic_append_ne_empty _), parseBasicAuth_Basic, hdec, Option.some_bind]
      exact ⟨trivial, (stringsCut_credentials _ _).2, (stringsCut_credentials _ _).1⟩
    · intro hlib
      rw [Header.Get_Set_same, hlib]
      simp only [if_neg (Basic_append_ne_empty _), parseBasicAuth_Basic,
        base64DecodeString_EncodeToString, Option.some_bind]
      exact (stringsCut_credentials _ _).1
    · rw [Header.Get_Set_other _ _ _ _ hAuAc, Header.Get_Set_other _ _ _ _ hCAc,
        Header.Get_Set_same]
  · by_cases hk : target.AuthMethod = "key"
    · rw [if_neg hb, if_pos hk]
      have hX : (((req.Header.Set "Accept" "application/json").Set "Content-Type"
          "application/x-www-form-urlencoded").Set "X-API-Key" target.Key).Get "Authorization"
          = none := by
        rw [Header.Get_Set_other _ _ _ _ hKAu, Header.Get_Set_other _ _ _ _ hCA,
          Header.Get_Set_other _ _ _ _ hAA, hAuth]
      refine ⟨fun h => absurd h hb, fun _ => ⟨Header.Get_Set_same _ _ _, hX, by rw [hX]⟩, ?_,
        fun h => h.1 hX⟩
      rw [Header.Get_Set_other _ _ _ _ hKAc, Header.Get_Set_other _ _ _ _ hCAc,
        Header.Get_Set_same]
    · rw [if_neg hb, if_neg hk]
      have hX : ((req.Header.Set "Accept" "application/json").Set "Content-Type"
          "application/x-www-form-urlencoded").Get "Authorization" = none := by
        rw [Header.Get_Set_other _ _ _ _ hCA, Header.Get_Set_other _ _ _ _ hAA, hAuth]
      refine ⟨fun h => absurd h hb, fun h => absurd h hk, ?_, fun h => h.1 hX⟩
      rw [Header.Get_Set_other _ _ _ _ hCAc, Header.Get_Set_same]

/-- Witness for C7 (amended): the request and the target of the test; the credentials that
`BasicAuth` reads back are `testuser` and `testpass`. -/
theorem setHeaders_auth_witness :
    (setHeaders Lib.std ⟨"GET", "http://example.com", ⟨[]⟩⟩
        { Target.zero with AuthMethod := "basic", Username := "testuser", Password := "testpass" }
      ).BasicAuth base64DecodeString = some ("testuser", "testpass") :=
  ((((setHeaders_auth Lib.std base64DecodeString
      ⟨"GET", "http://example.com", ⟨[]⟩⟩
      { Target.zero with AuthMethod := "basic", Username := "testuser", Password := "testpass" }
      rfl rfl).1 rfl).2.2.1 (by decide)).2.2).2 (by decide)

/-- A failed fetch takes one of the early returns of the shared prologue. -/
theorem fetch_eq_none_of_FetchFails {α : Type} (lib : Lib) (target : Target) (endpoint : String)
    (unmarshal : RawMessage → Except String α) (h : FetchFails lib target endpoint unmarshal) :
    fetch lib target endpoint unmarshal = none := by
  unfold FetchFails at h
  unfold fetch
  rcases hreq : Request lib target "GET" endpoint with ⟨resp, err⟩
  rw [hreq] at h
  cases err with
  | some e => cases resp <;> rfl
  | none =>
    cases resp with
    | none => rfl
    | some r =>
      rcases h with h | h | ⟨r2, hr2, h⟩
      · exact absurd rfl h
      · cases h
      · simp only [Option.some.injEq] at hr2
        subst hr2
        rcases h with h | ⟨data, err, hd, hu⟩
        · simp only [h]
        · simp only [hd, hu]

/-- C5: for every concrete collector and every target, if a fetch of the collector fails
(`utils.Request` returns an error, or a nil response or nil `Data`, or the payload does not
decode; for CARP either of its two fetches), then `CollectWithTarget` returns having sent no
sample on its channel. -/
theorem CollectWithTarget_no_samples_of_FetchFails (lib : Lib) (dec : Decoders) (k : Collector)
    (target : Target) (h : k.FetchFails lib dec target) :
    (k.CollectWithTarget lib dec target).2 = [] := by
  cases k with
  | carp c =>
    simp only [Collector.CollectWithTarget, CARPCollector.CollectWithTarget]
    rcases h with h | h
    · rw [fetch_eq_none_of_FetchFails _ _ _ _ h]
    · rw [fetch_eq_none_of_FetchFails _ _ _ _ h]
      cases fetch lib target "/api/v2/status/carp" dec.CARPStats <;> rfl
  | firewallSchedule c =>
    simp only [Collector.CollectWithTarget, FirewallScheduleCollector.CollectWithTarget]
    rw [fetch_eq_none_of_FetchFails _ _ _ _ h]
  | firewallStates c =>
    simp only [Collector.CollectWithTarget, FirewallStatesCollector.CollectWithTarget]
    rw [fetch_eq_none_of_FetchFails _ _ _ _ h]
  | gateway c =>
    simp only [Collector.CollectWithTarget, GatewayCollector.CollectWithTarget]
    rw [fetch_eq_none_of_FetchFails _ _ _ _ h]
  | interface c =>
    simp only [Collector.CollectWithTarget, InterfaceCollector.CollectWithTarget]
    rw [fetch_eq_none_of_FetchFails _ _ _ _ h]
  | loginProtection c =>
    simp only [Collector.CollectWithTarget, LoginProtectionCollector.CollectWithTarget]
    rw [fetch_eq_none_of_FetchFails _ _ _ _ h]
  | package c =>
    simp only [Collector.CollectWithTarget, PackageCollector.CollectWithTarget]
    rw [fetch_eq_none_of_FetchFails _ _ _ _ h]
  | restapi c =>
    simp only [Collector.CollectWithTarget, RESTAPICollector.CollectWithTarget]
    rw [fetch_eq_none_of_FetchFails _ _ _ _ h]
  | service c =>
    simp only [Collector.CollectWithTarget, ServiceCollector.CollectWithTarget]
    rw [fetch_eq_none_of_FetchFails _ _ _ _ h]
  | system c =>
    simp only [Collector.CollectWithTarget, SystemCollector.CollectWithTarget]
    rw [fetch_eq_none_of_FetchFails _ _ _ _ h]

/-- Witness for C5: the CARP collector against an appliance whose status endpoint answers and
whose virtual-IP endpoint is unreachable sends no sample. -/
theorem CollectWithTarget_no_samples_of_FetchFails_witness :
    ((Collector.carp NewCARPCollector).CollectWithTarget
      (Lib.only "https://fw.example:443/api/v2/status/carp" ⟨200, "ok", "id", "", some "data"⟩)
      { Decoders.failing with CARPStats := fun _ => .ok ⟨true, false⟩ }
      { Target.zero with Host := "fw.example", Port := 443, Scheme := "https" }).2 = [] :=
  CollectWithTarget_no_samples_of_FetchFails
    (Lib.only "https://fw.example:443/api/v2/status/carp" ⟨200, "ok", "id", "", some "data"⟩)
    { Decoders.failing with CARPStats := fun _ => .ok ⟨true, false⟩ }
    (Collector.carp NewCARPCollector)
    { Target.zero with Host := "fw.example", Port := 443, Scheme := "https" }
    (Or.inr (Or.inl (by decide)))

/-! ### The run of `Collect`: invariant -/

/-- Replacing one element of a list changes the sum of a map over it by that element's share. -/
theorem sum_map_set {M : Type} [AddCommMonoid M] (f : Task → M) (l : List Task) (i : Nat)
    (t t' : Task) (h : l[i]? = some t) :
    ((l.set i t').map f).sum + f t = (l.map f).sum + f t' := by
  induction l generalizing i with
  | nil => simp at h
  | cons x xs ih =>
    cases i with
    | zero =>
      simp only [List.getElem?_cons_zero, Option.some.injEq] at h
      subst h
      simp only [List.set_cons_zero, List.map_cons, List.sum_cons]
      abel
    | succ i =>
      simp only [List.getElem?_cons_succ] at h
      have := ih i h
      simp only [List.set_cons_succ, List.map_cons, List.sum_cons]
      rw [add_assoc, this, add_assoc]

/-- Replacing a goroutine's state by one for the same collector keeps the list of collectors. -/
theorem map_collector_set (l : List Task) (i : Nat) (t t' : Task) (h : l[i]? = some t)
    (hc : t'.collector = t.collector) :
    (l.set i t').map (fun t => t.collector) = l.map (fun t => t.collector) := by
  induction l generalizing i with
  | nil => simp at h
  | cons x xs ih =>
    cases i with
    | zero =>
      simp only [List.getElem?_cons_zero, Option.some.injEq] at h
      subst h
      simp [hc]
    | succ i =>
      simp only [List.getElem?_cons_succ] at h
      simp [ih i h]

/-- The invariant holds when `Collect` enters its loop. -/
theorem Inv_init (mc : MasterCollector) (collectors : List TargetedCollector) :
    (mc.init collectors).Inv mc collectors := by
  refine ⟨?_, ?_, Or.inl rfl, ?_, ?_, ?_, ?_, ?_⟩
  · simp [MasterCollector.init, Function.comp_def]
  · simp [MasterCollector.init, Function.comp_def, Pc.holdsSlot]
  · simp [MasterCollector.init, Function.comp_def, Pc.active]
  · intro i t h
    simp only [MasterCollector.init, List.getElem?_map, Option.map_eq_some'] at h
    obtain ⟨c, _, hc⟩ := h
    subst hc
    simp [MasterCollector.init]
  · intro t ht
    simp only [MasterCollector.init, List.mem_map] at ht
    obtain ⟨c, _, hc⟩ := ht
    subst hc
    simp [Task.ok]
  · simp [MasterCollector.init, Function.comp_def, Task.forwarded]
  · intro h
    simp [MasterCollector.init] at h

/-- The invariant survives any change of one goroutine's state that accounts for the slot,
the WaitGroup counter and the samples sent. -/
theorem Inv_update {mc : MasterCollector} {collectors : List TargetedCollector}
    {s s' : CollectState} {i : Nat} {t t' : Task}
    (hinv : s.Inv mc collectors) (hi : s.tasks[i]? = some t)
    (htasks : s'.tasks = s.tasks.set i t') (hcol : t'.collector = t.collector)
    (hsem : s'.semaphore + (if t.pc.holdsSlot then 1 else 0)
      = s.semaphore + (if t'.pc.holdsSlot then 1 else 0))
    (hsemle : s'.semaphore = 0 ∨ (s'.semaphore : Int) ≤ mc.Target.MaxCollectorConcurrency)
    (hwg : s'.wg + (if t.pc.active then 1 else 0) = s.wg + (if t'.pc.active then 1 else 0))
    (hstart : (t'.pc = .notStarted ↔ s'.launched ≤ i)
      ∧ ∀ j, j ≠ i → (s.launched ≤ j ↔ s'.launched ≤ j))
    (hok : t'.ok mc)
    (hch : (s'.ch : Multiset Metric) + (t.forwarded mc : Multiset Metric)
      = (s.ch : Multiset Metric) + (t'.forwarded mc : Multiset Metric))
    (hret : s'.returned = false) : s'.Inv mc collectors := by
  have hlen : i < s.tasks.length := by
    by_contra hcon
    rw [List.getElem?_eq_none (by omega)] at hi
    cases hi
  refine ⟨?_, ?_, hsemle, ?_, ?_, ?_, ?_, ?_⟩
  · rw [htasks, map_collector_set _ _ _ _ hi hcol]
    exact hinv.collectors_eq
  · have h1 := sum_map_set (fun t => if t.pc.holdsSlot then 1 else 0) s.tasks i t t' hi
    have h2 := hinv.sem_eq
    beta_reduce at h1
    rw [htasks]
    omega
  · have h1 := sum_map_set (fun t => if t.pc.active then 1 else 0) s.tasks i t t' hi
    have h2 := hinv.wg_eq
    beta_reduce at h1
    rw [htasks]
    omega
  · intro j u hj
    rw [htasks, List.getElem?_set] at hj
    by_cases hij : i = j
    · subst hij
      simp only [if_true, hlen, Option.some.injEq] at hj
      subst hj
      exact hstart.1
    · simp only [hij, if_false] at hj
      rw [hinv.started j u hj]
      exact hstart.2 j (fun h => hij h.symm)
  · intro u hu
    rw [htasks] at hu
    rcases List.mem_or_eq_of_mem_set hu with h | h
    · exact hinv.task_ok u h
    · rw [h]
      exact hok
  · have h1 := sum_map_set (fun t => (t.forwarded mc : Multiset Metric)) s.tasks i t t' hi
    have h2 := hinv.ch_eq
    rw [htasks]
    apply add_right_cancel (b := (t.forwarded mc : Multiset Metric))
    rw [h1, hch, h2]
  · intro h
    rw [hret] at h
    cases h

/-- A panic leaves everything the invariant speaks of as it was. -/
theorem Inv_panicked {mc : MasterCollector} {collectors : List TargetedCollector}
    {s : CollectState} (hinv : s.Inv mc collectors) :
    CollectState.Inv mc collectors { s with panicked := true } :=
  ⟨hinv.collectors_eq, hinv.sem_eq, hinv.sem_le, hinv.wg_eq, hinv.started, hinv.task_ok,
    hinv.ch_eq, hinv.returned_imp⟩

/-- Every step of a goroutine preserves the invariant. -/
theorem Inv_stepTask {mc : MasterCollector} {collectors : List TargetedCollector}
    {s s' : CollectState} {i : Nat} {t : Task}
    (hinv : s.Inv mc collectors) (hret : s.returned = false) (hi : s.tasks[i]? = some t)
    (h : mc.stepTask s i t = some s') : s'.Inv mc collectors := by
  have hmem : t ∈ s.tasks := List.getElem?_mem hi
  have hok := hinv.task_ok t hmem
  have hst := hinv.started i t hi
  unfold MasterCollector.stepTask at h
  cases hpc : t.pc with
  | notStarted => simp [hpc] at h
  | finished => simp [hpc] at h
  | acquire =>
    simp only [hpc] at h
    split at h
    · rename_i hlt
      cases h
      simp only [Task.ok, hpc] at hok
      simp only [hpc, false_iff, reduceCtorEq] at hst
      refine Inv_update hinv hi rfl rfl ?_ ?_ ?_ ⟨?_, fun _ _ => Iff.rfl⟩ ?_ ?_ hret
      · simp [hpc, Pc.holdsSlot]
      · right; push_cast; omega
      · simp [hpc, Pc.active]
      · simpa using hst
      · simpa [Task.ok] using hok
      · simp [Task.forwarded, hpc]
    · cases h
  | check =>
    simp only [hpc] at h
    simp only [Task.ok, hpc] at hok
    simp only [hpc, false_iff, reduceCtorEq] at hst
    split at h
    · rename_i hskip
      cases h
      refine Inv_update hinv hi rfl rfl ?_ hinv.sem_le ?_ ⟨?_, fun _ _ => Iff.rfl⟩ ?_ ?_ hret
      · simp [hpc, Pc.holdsSlot]
      · simp [hpc, Pc.active]
      · simpa using hst
      · simpa [Task.ok, hskip] using hok
      · simp [Task.forwarded, hpc, hskip]
    · rename_i hskip
      split at h
      · cases h
        exact Inv_panicked hinv
      · cases h
        refine Inv_update hinv hi rfl rfl ?_ hinv.sem_le ?_ ⟨?_, fun _ _ => Iff.rfl⟩ ?_ ?_ hret
        · simp [hpc, Pc.holdsSlot]
        · simp [hpc, Pc.active]
        · simpa using hst
        · simp only [Task.ok]
          simp [hok.1, hok.2, hskip]
        · simp [Task.forwarded, hpc]
  | collect n =>
    simp only [hpc] at h
    simp only [Task.ok, hpc] at hok
    simp only [hpc, false_iff, reduceCtorEq] at hst
    split at h
    · split at h
      · cases h
        refine Inv_update hinv hi rfl rfl ?_ hinv.sem_le ?_ ⟨?_, fun _ _ => Iff.rfl⟩ ?_ ?_ hret
        · simp [hpc, Pc.holdsSlot]
        · simp [hpc, Pc.active]
        · simpa using hst
        · simpa [Task.ok] using hok
        · simp [Task.forwarded, hpc]
      · cases h
    · cases h
      refine Inv_update hinv hi rfl rfl ?_ hinv.sem_le ?_ ⟨?_, fun _ _ => Iff.rfl⟩ ?_ ?_ hret
      · simp [hpc, Pc.holdsSlot]
      · simp [hpc, Pc.active]
      · simpa using hst
      · simp only [Task.ok]
        simp [hok.1, hok.2.1, hok.2.2]
      · simp [Task.forwarded, hpc]
  | forward n =>
    simp only [hpc] at h
    simp only [Task.ok, hpc] at hok
    simp only [hpc, false_iff, reduceCtorEq] at hst
    split at h
    · rename_i metric hget
      cases h
      refine Inv_update hinv hi rfl rfl ?_ hinv.sem_le ?_ ⟨?_, fun _ _ => Iff.rfl⟩ ?_ ?_ hret
      · simp [hpc, Pc.holdsSlot]
      · simp [hpc, Pc.active]
      · simpa using hst
      · simpa [Task.ok] using hok
      · simp only [Task.forwarded, hpc, List.take_succ, hget, Option.toList]
        simp only [← Multiset.coe_add]
        abel
    · rename_i hget
      cases h
      refine Inv_update hinv hi rfl rfl ?_ hinv.sem_le ?_ ⟨?_, fun _ _ => Iff.rfl⟩ ?_ ?_ hret
      · simp [hpc, Pc.holdsSlot]
      · simp [hpc, Pc.active]
      · simpa using hst
      · simp only [Task.ok]
        simp [hok.1, hok.2.1, hok.2.2]
      · have hle : (t.collector.CollectWithTarget mc.Target).length ≤ n := by
          simpa using hget
        simp [Task.forwarded, hpc, hok.1, List.take_of_length_le hle]
  | release =>
    simp only [hpc] at h
    simp only [Task.ok, hpc] at hok
    simp only [hpc, false_iff, reduceCtorEq] at hst
    split at h
    · cases h
    · rename_i hne
      cases h
      refine Inv_update hinv hi rfl rfl ?_ ?_ ?_ ⟨?_, fun _ _ => Iff.rfl⟩ ?_ ?_ hret
      · simp [hpc, Pc.holdsSlot]
        omega
      · rcases hinv.sem_le with h0 | hle
        · exact absurd h0 hne
        · right
          show ((s.semaphore - 1 : Nat) : Int) ≤ _
          omega
      · simp [hpc, Pc.active]
      · simpa using hst
      · simpa [Task.ok] using hok
      · simp [Task.forwarded, hpc]
  | wgDone =>
    simp only [hpc] at h
    simp only [Task.ok, hpc] at hok
    simp only [hpc, false_iff, reduceCtorEq] at hst
    split at h
    · cases h
      exact Inv_panicked hinv
    · rename_i hne
      cases h
      refine Inv_update hinv hi rfl rfl ?_ hinv.sem_le ?_ ⟨?_, fun _ _ => Iff.rfl⟩ ?_ ?_ hret
      · simp [hpc, Pc.holdsSlot]
      · simp [hpc, Pc.active]
        omega
      · simpa using hst
      · simpa [Task.ok] using hok
      · simp [Task.forwarded, hpc]

/-- Every scheduled step preserves the invariant. -/
theorem Inv_step {mc : MasterCollector} {collectors : List TargetedCollector}
    {s s' : CollectState} {a : Action}
    (hinv : s.Inv mc collectors) (h : mc.step s a = some s') : s'.Inv mc collectors := by
  unfold MasterCollector.step at h
  split at h
  · cases h
  · rename_i hrun
    have hret : s.returned = false := by
      cases hr : s.returned
      · rfl
      · exact absurd (Or.inl hr) hrun
    cases a with
    | launch =>
      simp only at h
      split at h
      · rename_i t hi
        cases h
        have hpc : t.pc = .notStarted := (hinv.started _ t hi).2 (Nat.le_refl _)
        have hok := hinv.task_ok t (List.getElem?_mem hi)
        simp only [Task.ok, hpc] at hok
        refine Inv_update hinv hi rfl rfl ?_ hinv.sem_le ?_ ⟨?_, ?_⟩ ?_ ?_ hret
        · simp [hpc, Pc.holdsSlot]
        · simp [hpc, Pc.active]
        · simp
        · intro j hj
          show s.launched ≤ j ↔ s.launched + 1 ≤ j
          omega
        · simpa [Task.ok] using hok
        · simp [Task.forwarded, hpc]
      · cases h
    | run i =>
      simp only at h
      split at h
      · rename_i t hi
        exact Inv_stepTask hinv hret hi h
      · cases h
    | wait =>
      simp only at h
      split at h
      · rename_i hw
        cases h
        exact ⟨hinv.collectors_eq, hinv.sem_eq, hinv.sem_le, hinv.wg_eq, hinv.started,
          hinv.task_ok, hinv.ch_eq, fun _ => hw⟩
      · cases h

/-- Every schedule preserves the invariant. -/
theorem Inv_exec {mc : MasterCollector} {collectors : List TargetedCollector}
    (schedule : List Action) {s s' : CollectState}
    (hinv : s.Inv mc collectors) (h : mc.exec s schedule = some s') : s'.Inv mc collectors := by
  induction schedule generalizing s with
  | nil =>
    simp only [MasterCollector.exec, Option.some.injEq] at h
    subst h
    exact hinv
  | cons a rest ih =>
    simp only [MasterCollector.exec] at h
    split at h
    · rename_i s1 hstep
      exact ih (Inv_step hinv hstep) h
    · cases h

/-- Every state of every run of `Collect` satisfies the invariant. -/
theorem Inv_Collect {mc : MasterCollector} {collectors : List TargetedCollector}
    {schedule : List Action} {s : CollectState}
    (h : mc.Collect collectors schedule = some s) : s.Inv mc collectors :=
  Inv_exec schedule (Inv_init mc collectors) h

/-- The number of elements that satisfy a test is the sum of its indicator. -/
theorem countP_eq_sum_indicator (p : Task → Bool) (l : List Task) :
    l.countP p = (l.map (fun t => if p t then 1 else 0)).sum := by
  induction l with
  | nil => rfl
  | cons x xs ih =>
    by_cases hx : p x
    · simp [List.countP_cons, hx, ih]; omega
    · simp [List.countP_cons, hx, ih]

/-- When `wg.Wait()` has returned, every goroutine has ended. -/
theorem finished_of_returned {mc : MasterCollector} {collectors : List TargetedCollector}
    {s : CollectState} (hinv : s.Inv mc collectors) (hret : s.returned = true) :
    ∀ t ∈ s.tasks, t.pc = .finished := by
  obtain ⟨hl, hw⟩ := hinv.returned_imp hret
  intro t ht
  obtain ⟨i, hlt, hget⟩ := List.mem_iff_getElem.1 ht
  have hi : s.tasks[i]? = some t := by
    rw [List.getElem?_eq_getElem hlt, hget]
  have hns : t.pc ≠ .notStarted := by
    intro hpc
    have := (hinv.started i t hi).1 hpc
    omega
  have hsum := hinv.wg_eq
  rw [hw] at hsum
  have hzero := (List.sum_eq_zero_iff.1 hsum.symm) (if t.pc.active then 1 else 0)
    (List.mem_map.2 ⟨t, ht, rfl⟩)
  cases hpc : t.pc <;> simp [hpc, Pc.active] at hzero hns ⊢

/-! ### The run of `Collect`: what holds of its states -/

/-- In every state, `CollectWithTarget` has only been called on collectors the allow-list
test lets through. -/
theorem not_skips_of_called {mc : MasterCollector} {collectors : List TargetedCollector}
    {s : CollectState} (hinv : s.Inv mc collectors) :
    ∀ t ∈ s.tasks, 0 < t.calls → mc.skips t.collector = false := by
  intro t ht hcalls
  have hok := hinv.task_ok t ht
  unfold Task.ok at hok
  cases hpc : t.pc <;> simp only [hpc] at hok
  · omega
  · omega
  · omega
  · exact hok.1
  · exact hok.1
  all_goals
    by_cases hs : mc.skips t.collector = true
    · simp only [hs, if_true] at hok
      omega
    · simpa using hs

/-- When `wg.Wait()` has returned, a goroutine's collector has been called and has returned
once if the allow-list test lets it through, and not at all otherwise. -/
theorem calls_of_returned {mc : MasterCollector} {collectors : List TargetedCollector}
    {s : CollectState} (hinv : s.Inv mc collectors) (hret : s.returned = true) :
    ∀ t ∈ s.tasks, (mc.skips t.collector = false → t.calls = 1 ∧ t.returns = 1)
      ∧ (mc.skips t.collector = true → t.calls = 0 ∧ t.returns = 0) := by
  intro t ht
  have hok := hinv.task_ok t ht
  have hpc := finished_of_returned hinv hret t ht
  simp only [Task.ok, hpc] at hok
  constructor
  · intro hs
    simpa [hs] using hok
  · intro hs
    simpa [hs] using hok

/-- Filtering goroutines by a test that agrees with a test on their collectors. -/
theorem map_collector_filter (p : Task → Bool) (q : TargetedCollector → Bool) (l : List Task)
    (h : ∀ t ∈ l, p t = q t.collector) :
    (l.filter p).map (fun t => t.collector) = (l.map (fun t => t.collector)).filter q := by
  induction l with
  | nil => rfl
  | cons x xs ih =>
    have hx := h x (List.mem_cons_self _ _)
    have ih' := ih (fun t ht => h t (List.mem_cons_of_mem _ ht))
    by_cases hq : q x.collector = true
    · simp [List.filter_cons, hx, hq, ih']
    · simp [List.filter_cons, hx, hq, ih']

/-- When `wg.Wait()` has returned, the collectors called are those of the registry that the
allow-list test lets through, in registry order. -/
theorem invoked_of_returned {mc : MasterCollector} {collectors : List TargetedCollector}
    {s : CollectState} (hinv : s.Inv mc collectors) (hret : s.returned = true) :
    s.invoked = collectors.filter (fun c => !mc.skips c) := by
  unfold CollectState.invoked
  rw [map_collector_filter _ (fun c => !mc.skips c), hinv.collectors_eq]
  intro t ht
  obtain ⟨h1, h2⟩ := calls_of_returned hinv hret t ht
  by_cases hs : mc.skips t.collector = true
  · simp [hs, (h2 hs).1]
  · have hs' : mc.skips t.collector = false := by simpa using hs
    simp [hs', (h1 hs').1]

/-- The samples of the goroutines, summed as multisets, are the samples listed in order. -/
theorem sum_coe_eq_coe_flatMap (f : Task → List Metric) (l : List Task) :
    (l.map (fun t => (f t : Multiset Metric))).sum = ((l.flatMap f : List Metric) : Multiset Metric) := by
  induction l with
  | nil => rfl
  | cons x xs ih =>
    simp only [List.map_cons, List.sum_cons, List.flatMap_cons, ih, Multiset.coe_add]

/-- When all goroutines have ended, what they forwarded is what the collectors let through
by the allow-list test produced. -/
theorem flatMap_forwarded_of_finished (mc : MasterCollector) (l : List Task)
    (h : ∀ t ∈ l, t.pc = .finished) :
    l.flatMap (fun t => t.forwarded mc)
      = ((l.map (fun t => t.collector)).filter (fun c => !mc.skips c)).flatMap
          (fun c => c.CollectWithTarget mc.Target) := by
  induction l with
  | nil => rfl
  | cons x xs ih =>
    have hx := h x (List.mem_cons_self _ _)
    have ih' := ih (fun t ht => h t (List.mem_cons_of_mem _ ht))
    have hfx : x.forwarded mc
        = if mc.skips x.collector then [] else x.collector.CollectWithTarget mc.Target := by
      simp [Task.forwarded, hx]
    by_cases hs : mc.skips x.collector = true
    · simp [List.filter_cons, hs, ih', hfx]
    · simp [List.filter_cons, hs, ih', hfx]

/-- When `wg.Wait()` has returned, the samples sent on `ch` are, up to order, the samples of
the collectors that the allow-list test lets through. -/
theorem ch_of_returned {mc : MasterCollector} {collectors : List TargetedCollector}
    {s : CollectState} (hinv : s.Inv mc collectors) (hret : s.returned = true) :
    s.ch.Perm ((collectors.filter (fun c => !mc.skips c)).flatMap
      (fun c => c.CollectWithTarget mc.Target)) := by
  have h := hinv.ch_eq
  rw [sum_coe_eq_coe_flatMap, flatMap_forwarded_of_finished mc s.tasks
    (finished_of_returned hinv hret), hinv.collectors_eq] at h
  exact Multiset.coe_eq_coe.1 h

/-! ### The run of `Collect`: the claims -/

/-- C1 (amended): for every registry and every target whose allow-list is nil, when `Collect`
returns the collectors on which it called `CollectWithTarget` are the full registry; for an
allow-list that is non-nil and of length zero it calls `CollectWithTarget` on no collector. -/
theorem Collect_invokes_all_of_nil (mc : MasterCollector) (collectors : List TargetedCollector)
    (schedule : List Action) (s : CollectState)
    (h : mc.Collect collectors schedule = some s) :
    (mc.Target.Collectors = none → s.returned = true → s.invoked = collectors) ∧
    (mc.Target.Collectors = some [] → s.invoked = []) := by
  have hinv := Inv_Collect h
  constructor
  · intro hnil hret
    rw [invoked_of_returned hinv hret]
    apply List.filter_eq_self.2
    intro c _
    simp [MasterCollector.skips, hnil]
  · intro hempty
    unfold CollectState.invoked
    rw [List.map_eq_nil_iff, List.filter_eq_nil_iff]
    intro t ht hcalls
    have := not_skips_of_called hinv t ht (by simpa using hcalls)
    simp [MasterCollector.skips, hempty] at this

/-- Witness for C1 (amended): two mock collectors, no allow-list, one slot; the run that
starts both goroutines and lets them finish in turn ends with both collectors called. -/
theorem Collect_invokes_all_of_nil_witness :
    (CollectState.invoked
      { tasks := [⟨MockCollector "collector1" [], .finished, 1, 1⟩,
                  ⟨MockCollector "collector2" [], .finished, 1, 1⟩]
        launched := 2, semaphore := 0, wg := 0, ch := [], returned := true, panicked := false })
      = [MockCollector "collector1" [], MockCollector "collector2" []] :=
  (Collect_invokes_all_of_nil
    ⟨{ Target.zero with Host := "test.com", MaxCollectorConcurrency := 1,
                        MaxCollectorBufferSize := 5 }⟩
    [MockCollector "collector1" [], MockCollector "collector2" []]
    (sequentialSchedule [6, 6])
    { tasks := [⟨MockCollector "collector1" [], .finished, 1, 1⟩,
                ⟨MockCollector "collector2" [], .finished, 1, 1⟩]
      launched := 2, semaphore := 0, wg := 0, ch := [], returned := true, panicked := false }
    rfl).1 rfl rfl

/-- Counterexample to C1 as stated: with a non-nil allow-list of length zero and one
registered collector, the run below returns and `CollectWithTarget` was called on no
collector, while the registry is not empty. -/
theorem Collect_empty_allow_list_invokes_none :
    (MasterCollector.Collect
        ⟨{ Target.zero with Host := "test.com", Collectors := some [],
                            MaxCollectorConcurrency := 2, MaxCollectorBufferSize := 10 }⟩
        [MockCollector "collector1" []]
        [.launch, .run 0, .run 0, .run 0, .run 0, .wait]
      = some { tasks := [⟨MockCollector "collector1" [], .finished, 0, 0⟩]
               launched := 1, semaphore := 0, wg := 0, ch := [], returned := true,
               panicked := false }) ∧
    (CollectState.invoked
      { tasks := [⟨MockCollector "collector1" [], .finished, 0, 0⟩]
        launched := 1, semaphore := 0, wg := 0, ch := [], returned := true,
        panicked := false }) = [] ∧
    [MockCollector "collector1" []] ≠ ([] : List TargetedCollector) :=
  ⟨rfl, rfl, by simp⟩

/-- C2: for every registry and every target with a non-nil allow-list `names` (non-empty or
not), `Collect` never calls `CollectWithTarget` on a collector whose name is not in `names`,
and when it returns the collectors it called are exactly the registered ones whose `Name()`
is in `names`. -/
theorem Collect_invokes_allow_list (mc : MasterCollector) (collectors : List TargetedCollector)
    (schedule : List Action) (s : CollectState) (names : List String)
    (hnames : mc.Target.Collectors = some names)
    (h : mc.Collect collectors schedule = some s) :
    (∀ c ∈ s.invoked, c.Name ∈ names) ∧
    (s.returned = true →
      s.invoked = collectors.filter (fun c => names.contains c.Name) ∧
      ∀ c, c ∈ s.invoked ↔ c ∈ collectors ∧ c.Name ∈ names) := by
  have hinv := Inv_Collect h
  have hskip : ∀ c : TargetedCollector, (!mc.skips c) = names.contains c.Name := by
    intro c
    simp [MasterCollector.skips, hnames]
  constructor
  · intro c hc
    unfold CollectState.invoked at hc
    obtain ⟨t, ht, rfl⟩ := List.mem_map.1 hc
    obtain ⟨ht1, ht2⟩ := List.mem_filter.1 ht
    have h1 := not_skips_of_called hinv t ht1 (by simpa using ht2)
    have h2 := hskip t.collector
    rw [h1] at h2
    simpa using h2.symm
  · intro hret
    have heq : s.invoked = collectors.filter (fun c => names.contains c.Name) := by
      rw [invoked_of_returned hinv hret]
      exact List.filter_congr (fun c _ => hskip c)
    refine ⟨heq, fun c => ?_⟩
    rw [heq, List.mem_filter]
    simp

/-- Witness for C2: three mock collectors and the allow-list `collector1, collector3`; the
run that lets the three goroutines finish in turn has called the first and the third. -/
theorem Collect_invokes_allow_list_witness :
    (CollectState.invoked
      { tasks := [⟨MockCollector "collector1" [], .finished, 1, 1⟩,
                  ⟨MockCollector "collector2" [], .finished, 0, 0⟩,
                  ⟨MockCollector "collector3" [], .finished, 1, 1⟩]
        launched := 3, semaphore := 0, wg := 0, ch := [], returned := true, panicked := false })
      = [MockCollector "collector1" [], MockCollector "collector2" [],
          MockCollector "collector3" []].filter
            (fun c => ["collector1", "collector3"].contains c.Name) :=
  ((Collect_invokes_allow_list
    ⟨{ Target.zero with Host := "test.com", Collectors := some ["collector1", "collector3"],
                        MaxCollectorConcurrency := 2, MaxCollectorBufferSize := 10 }⟩
    [MockCollector "collector1" [], MockCollector "collector2" [], MockCollector "collector3" []]
    (sequentialSchedule [6, 4, 6])
    { tasks := [⟨MockCollector "collector1" [], .finished, 1, 1⟩,
                ⟨MockCollector "collector2" [], .finished, 0, 0⟩,
                ⟨MockCollector "collector3" [], .finished, 1, 1⟩]
      launched := 3, semaphore := 0, wg := 0, ch := [], returned := true, panicked := false }
    ["collector1", "collector3"] rfl rfl).2 rfl).1

/-- C3: for every target (whatever its `MaxCollectorConcurrency`, so for every bound `>= 1`
and for 1 itself) and every registry, when `Collect` has returned every goroutine has ended,
every collector the allow-list test lets through has had `CollectWithTarget` called exactly
once and returned exactly once (and the others not at all), and the samples sent on the output
channel are, as a multiset, the samples those collectors produced. -/
theorem Collect_returned_spec (mc : MasterCollector) (collectors : List TargetedCollector)
    (schedule : List Action) (s : CollectState)
    (h : mc.Collect collectors schedule = some s) (hret : s.returned = true) :
    s.tasks.map (fun t => t.collector) = collectors ∧
    (∀ t ∈ s.tasks, t.pc = .finished ∧
      (mc.skips t.collector = false → t.calls = 1 ∧ t.returns = 1) ∧
      (mc.skips t.collector = true → t.calls = 0 ∧ t.returns = 0)) ∧
    s.ch.Perm ((collectors.filter (fun c => !mc.skips c)).flatMap
      (fun c => c.CollectWithTarget mc.Target)) := by
  have hinv := Inv_Collect h
  exact ⟨hinv.collectors_eq,
    fun t ht => ⟨finished_of_returned hinv hret t ht, calls_of_returned hinv hret t ht⟩,
    ch_of_returned hinv hret⟩

/-- Witness for C3: two mock collectors with two and one samples, one slot, buffer 5; the run
that lets the two goroutines finish in turn returns with the three samples on the channel. -/
theorem Collect_returned_spec_witness :
    List.Perm
      [(⟨"a", ["test.com"], 1⟩ : Metric), ⟨"b", ["test.com"], 2⟩, ⟨"c", ["test.com"], 3⟩]
      (([MockCollector "collector1" [⟨"a", ["test.com"], 1⟩, ⟨"b", ["test.com"], 2⟩],
         MockCollector "collector2" [⟨"c", ["test.com"], 3⟩]].filter
          (fun c => !(MasterCollector.skips
            ⟨{ Target.zero with Host := "test.com", MaxCollectorConcurrency := 1,
                                MaxCollectorBufferSize := 5 }⟩ c))).flatMap
        (fun c => c.CollectWithTarget
          { Target.zero with Host := "test.com", MaxCollectorConcurrency := 1,
                             MaxCollectorBufferSize := 5 })) :=
  (Collect_returned_spec
    ⟨{ Target.zero with Host := "test.com", MaxCollectorConcurrency := 1,
                        MaxCollectorBufferSize := 5 }⟩
    [MockCollector "collector1" [⟨"a", ["test.com"], 1⟩, ⟨"b", ["test.com"], 2⟩],
     MockCollector "collector2" [⟨"c", ["test.com"], 3⟩]]
    (sequentialSchedule [10, 8])
    { tasks := [⟨MockCollector "collector1" [⟨"a", ["test.com"], 1⟩, ⟨"b", ["test.com"], 2⟩],
                  .finished, 1, 1⟩,
                ⟨MockCollector "collector2" [⟨"c", ["test.com"], 3⟩], .finished, 1, 1⟩]
      launched := 2, semaphore := 0, wg := 0
      ch := [⟨"a", ["test.com"], 1⟩, ⟨"b", ["test.com"], 2⟩, ⟨"c", ["test.com"], 3⟩]
      returned := true, panicked := false }
    rfl rfl).2.2

/-- C4: for every bound `K = MaxCollectorConcurrency >= 1` and every registry, in every
reachable state of `Collect` the goroutines that hold a semaphore slot are as many as the
tokens in the semaphore channel and at most `K`, so at most `K` goroutines are inside
`CollectWithTarget`. -/
theorem Collect_semaphore_bound (mc : MasterCollector) (collectors : List TargetedCollector)
    (schedule : List Action) (s : CollectState)
    (hK : 1 ≤ mc.Target.MaxCollectorConcurrency)
    (h : mc.Collect collectors schedule = some s) :
    s.tasks.countP (fun t => t.pc.holdsSlot) = s.semaphore ∧
    (s.tasks.countP (fun t => t.pc.holdsSlot) : Int) ≤ mc.Target.MaxCollectorConcurrency ∧
    (s.tasks.countP (fun t => t.pc.inCollect) : Int) ≤ mc.Target.MaxCollectorConcurrency := by
  have hinv := Inv_Collect h
  have hcount : s.tasks.countP (fun t => t.pc.holdsSlot) = s.semaphore := by
    rw [countP_eq_sum_indicator, hinv.sem_eq]
  have hle : (s.semaphore : Int) ≤ mc.Target.MaxCollectorConcurrency := by
    rcases hinv.sem_le with h0 | hle
    · rw [h0]; omega
    · exact hle
  have hsub : s.tasks.countP (fun t => t.pc.inCollect)
      ≤ s.tasks.countP (fun t => t.pc.holdsSlot) := by
    apply List.countP_mono_left
    intro t _ ht
    cases hpc : t.pc <;> simp [hpc, Pc.inCollect, Pc.holdsSlot] at ht ⊢
  refine ⟨hcount, ?_, ?_⟩
  · rw [hcount]; exact hle
  · omega

/-- Witness for C4: four mock collectors and one slot; with all four goroutines started and
the first inside `CollectWithTarget`, one goroutine holds the slot and the others wait. -/
theorem Collect_semaphore_bound_witness :
    List.countP (fun t => t.pc.holdsSlot)
      [(⟨MockCollector "collector1" [⟨"a", ["test.com"], 1⟩], .collect 1, 1, 0⟩ : Task),
       ⟨MockCollector "collector2" [], .acquire, 0, 0⟩,
       ⟨MockCollector "collector3" [], .acquire, 0, 0⟩,
       ⟨MockCollector "collector4" [], .acquire, 0, 0⟩] = 1 :=
  (Collect_semaphore_bound
    ⟨{ Target.zero with Host := "test.com", MaxCollectorConcurrency := 1,
                        MaxCollectorBufferSize := 5 }⟩
    [MockCollector "collector1" [⟨"a", ["test.com"], 1⟩], MockCollector "collector2" [],
     MockCollector "collector3" [], MockCollector "collector4" []]
    [.launch, .launch, .launch, .launch, .run 0, .run 0, .run 0]
    { tasks := [⟨MockCollector "collector1" [⟨"a", ["test.com"], 1⟩], .collect 1, 1, 0⟩,
                ⟨MockCollector "collector2" [], .acquire, 0, 0⟩,
                ⟨MockCollector "collector3" [], .acquire, 0, 0⟩,
                ⟨MockCollector "collector4" [], .acquire, 0, 0⟩]
      launched := 4, semaphore := 1, wg := 4, ch := [], returned := false, panicked := false }
    (by decide) rfl).1

/-! ### The run of `Collect`: a schedule under which it returns -/

/-- Running a schedule in two parts. -/
theorem exec_append (mc : MasterCollector) (s : CollectState) (a b : List Action) :
    mc.exec s (a ++ b) = (mc.exec s a).bind (fun s' => mc.exec s' b) := by
  induction a generalizing s with
  | nil => rfl
  | cons x xs ih =>
    simp only [List.cons_append, MasterCollector.exec]
    cases mc.step s x with
    | none => rfl
    | some s1 => exact ih s1

/-- Scheduling goroutine `i` in a live state runs its next atomic step. -/
theorem step_run (mc : MasterCollector) (s : CollectState) (i : Nat) (t : Task)
    (hret : s.returned = false) (hpan : s.panicked = false) (hi : s.tasks[i]? = some t) :
    mc.step s (.run i) = mc.stepTask s i t := by
  simp [MasterCollector.step, hret, hpan, hi]

/-- The sends of `CollectWithTarget` into a buffer that has room for them all. -/
theorem exec_sends (mc : MasterCollector) (i : Nat) (c : TargetedCollector) (a b m : Nat) :
    ∀ (s : CollectState) (k : Nat), s.returned = false → s.panicked = false →
      s.tasks[i]? = some ⟨c, .collect k, a, b⟩ →
      k + m ≤ (c.CollectWithTarget mc.Target).length →
      ((c.CollectWithTarget mc.Target).length : Int) ≤ mc.Target.MaxCollectorBufferSize →
      mc.exec s (List.replicate m (.run i))
        = some { s with tasks := s.tasks.set i ⟨c, .collect (k + m), a, b⟩ } := by
  induction m with
  | zero =>
    intro s k _ _ hi _ _
    have hlen : i < s.tasks.length := by
      by_contra hcon
      rw [List.getElem?_eq_none (by omega)] at hi
      cases hi
    have : s.tasks.set i ⟨c, .collect k, a, b⟩ = s.tasks := by
      apply List.ext_getElem? 
      intro j
      rw [List.getElem?_set]
      by_cases hij : i = j
      · subst hij; simp [hlen, hi]
      · simp [hij]
    simp [MasterCollector.exec, this]
  | succ m ih =>
    intro s k hret hpan hi hk hB
    have hlen : i < s.tasks.length := by
      by_contra hcon
      rw [List.getElem?_eq_none (by omega)] at hi
      cases hi
    have h1 : k < (c.CollectWithTarget mc.Target).length := by omega
    have h2 : (k : Int) < mc.Target.MaxCollectorBufferSize := by omega
    simp only [List.replicate_succ, MasterCollector.exec]
    rw [step_run mc s i _ hret hpan hi]
    simp only [MasterCollector.stepTask, h1, h2, if_true]
    have hih := ih { s with tasks := s.tasks.set i ⟨c, .collect (k + 1), a, b⟩ } (k + 1) hret hpan
      (by simp [List.getElem?_set_self hlen]) (by omega) hB
    rw [hih]
    simp [List.set_set, Nat.add_assoc, Nat.add_comm 1 m]

/-- The forwards of the closed `collectorCh` to `ch`. -/
theorem exec_forwards (mc : MasterCollector) (i : Nat) (c : TargetedCollector) (a b m : Nat) :
    ∀ (s : CollectState) (k : Nat), s.returned = false → s.panicked = false →
      s.tasks[i]? = some ⟨c, .forward k, a, b⟩ →
      k + m ≤ (c.CollectWithTarget mc.Target).length →
      mc.exec s (List.replicate m (.run i))
        = some { s with tasks := s.tasks.set i ⟨c, .forward (k + m), a, b⟩,
                        ch := s.ch ++ ((c.CollectWithTarget mc.Target).drop k).take m } := by
  induction m with
  | zero =>
    intro s k _ _ hi _
    have hlen : i < s.tasks.length := by
      by_contra hcon
      rw [List.getElem?_eq_none (by omega)] at hi
      cases hi
    have : s.tasks.set i ⟨c, .forward k, a, b⟩ = s.tasks := by
      apply List.ext_getElem?
      intro j
      rw [List.getElem?_set]
      by_cases hij : i = j
      · subst hij; simp [hlen, hi]
      · simp [hij]
    simp [MasterCollector.exec, this]
  | succ m ih =>
    intro s k hret hpan hi hk
    have hlen : i < s.tasks.length := by
      by_contra hcon
      rw [List.getElem?_eq_none (by omega)] at hi
      cases hi
    have h1 : k < (c.CollectWithTarget mc.Target).length := by omega
    simp only [List.replicate_succ, MasterCollector.exec]
    rw [step_run mc s i _ hret hpan hi]
    simp only [MasterCollector.stepTask, List.getElem?_eq_getElem h1]
    have hih := ih { s with ch := s.ch ++ [(c.CollectWithTarget mc.Target)[k]],
                            tasks := s.tasks.set i ⟨c, .forward (k + 1), a, b⟩ } (k + 1) hret hpan
      (by simp [List.getElem?_set_self hlen]) (by omega)
    rw [hih]
    have e1 : k + 1 + m = k + (m + 1) := by omega
    have e2 : ((c.CollectWithTarget mc.Target).drop k).take (m + 1)
        = (c.CollectWithTarget mc.Target)[k]
          :: ((c.CollectWithTarget mc.Target).drop (k + 1)).take m := by
      rw [List.drop_eq_getElem_cons h1, List.take_succ_cons]
    simp only [List.set_set, e1, e2, List.append_assoc, List.singleton_append]

/-- One goroutine run from its start to its end while no other goroutine holds a slot. -/
theorem exec_goroutine (mc : MasterCollector) (i : Nat) (c : TargetedCollector)
    (s : CollectState) (hret : s.returned = false) (hpan : s.panicked = false)
    (hi : s.tasks[i]? = some ⟨c, .acquire, 0, 0⟩) (hsem : s.semaphore = 0) (hwg : s.wg ≠ 0)
    (hK : 1 ≤ mc.Target.MaxCollectorConcurrency) (hB : 0 ≤ mc.Target.MaxCollectorBufferSize)
    (hfit : mc.skips c = false →
      ((c.CollectWithTarget mc.Target).length : Int) ≤ mc.Target.MaxCollectorBufferSize) :
    mc.exec s (List.replicate (mc.stepsOf c) (.run i))
      = some { s with
          tasks := s.tasks.set i ⟨c, .finished, if mc.skips c then 0 else 1,
            if mc.skips c then 0 else 1⟩,
          wg := s.wg - 1,
          ch := s.ch ++ (if mc.skips c then [] else c.CollectWithTarget mc.Target) } := by
  have hlen : i < s.tasks.length := by
    by_contra hcon
    rw [List.getElem?_eq_none (by omega)] at hi
    cases hi
  have hK0 : (0 : Int) < mc.Target.MaxCollectorConcurrency := by omega
  have hB0 : ¬ mc.Target.MaxCollectorBufferSize < 0 := by omega
  by_cases hskip : mc.skips c = true
  · simp only [MasterCollector.stepsOf, hskip, if_true]
    simp [List.replicate, MasterCollector.exec, MasterCollector.step, MasterCollector.stepTask,
      hret, hpan, hi, hsem, hK0, hskip, List.getElem?_set_self hlen, List.set_set, hwg]
  · have hskip' : mc.skips c = false := by simpa using hskip
    have hfit' := hfit hskip'
    have hsteps : mc.stepsOf c = 2 + ((c.CollectWithTarget mc.Target).length
        + (1 + ((c.CollectWithTarget mc.Target).length + 3))) := by
      simp only [MasterCollector.stepsOf, hskip']
      simp only [Bool.false_eq_true, if_false]
      omega
    rw [hsteps]
    simp only [List.replicate_add, exec_append]
    -- acquire and the allow-list test
    have h2 : mc.exec s (List.replicate 2 (.run i))
        = some { s with semaphore := 1, tasks := s.tasks.set i ⟨c, .collect 0, 1, 0⟩ } := by
      simp [List.replicate, MasterCollector.exec, MasterCollector.step, MasterCollector.stepTask,
        hret, hpan, hi, hsem, hK0, hskip', hB0, List.getElem?_set_self hlen, List.set_set]
    rw [h2]
    simp only [Option.some_bind]
    -- the sends into the buffer
    have h3 := exec_sends mc i c 1 0 (c.CollectWithTarget mc.Target).length
      { s with semaphore := 1, tasks := s.tasks.set i ⟨c, .collect 0, 1, 0⟩ } 0 hret hpan
      (by simp [List.getElem?_set_self hlen]) (by omega) hfit'
    rw [h3]
    simp only [Option.some_bind, List.set_set, Nat.zero_add]
    -- the return of `CollectWithTarget`
    have h4 : mc.exec
          { s with
            semaphore := 1,
            tasks := s.tasks.set i ⟨c, .collect (c.CollectWithTarget mc.Target).length, 1, 0⟩ }
          (List.replicate 1 (.run i))
        = some { s with semaphore := 1, tasks := s.tasks.set i ⟨c, .forward 0, 1, 1⟩ } := by
      simp [List.replicate, MasterCollector.exec, MasterCollector.step, MasterCollector.stepTask,
        hret, hpan, List.getElem?_set_self hlen, List.set_set]
    rw [h4]
    simp only [Option.some_bind]
    -- the forwards to the output channel
    have h5 := exec_forwards mc i c 1 1 (c.CollectWithTarget mc.Target).length
      { s with semaphore := 1, tasks := s.tasks.set i ⟨c, .forward 0, 1, 1⟩ } 0 hret hpan
      (by simp [List.getElem?_set_self hlen]) (by omega)
    rw [h5]
    simp only [Option.some_bind, List.set_set, Nat.zero_add, List.drop_zero, List.take_length]
    -- the end of the loop and the two deferred calls
    simp [List.replicate, MasterCollector.exec, MasterCollector.step, MasterCollector.stepTask,
      hret, hpan, hskip', List.getElem?_set_self hlen, List.set_set, hwg]
    exact hsem.symm

/-- The loop of `Collect` run to its end before any goroutine moves. -/
theorem exec_launches (mc : MasterCollector) (post : List TargetedCollector) :
    ∀ pre : List TargetedCollector,
      mc.exec (launchedState pre post) (List.replicate post.length .launch)
        = some (launchedState (pre ++ post) []) := by
  induction post with
  | nil =>
    intro pre
    simp [MasterCollector.exec]
  | cons c post ih =>
    intro pre
    have hstep : mc.step (launchedState pre (c :: post)) .launch
        = some (launchedState (pre ++ [c]) post) := by
      have hget : (launchedState pre (c :: post)).tasks[(launchedState pre (c :: post)).launched]?
          = some ⟨c, .notStarted, 0, 0⟩ := by
        simp only [launchedState]
        rw [List.getElem?_append_right (by simp)]
        simp
      simp only [MasterCollector.step, hget]
      simp [launchedState, List.set_append]
    simp only [List.length_cons, List.replicate_succ, MasterCollector.exec, hstep]
    rw [ih (pre ++ [c])]
    simp

/-- Every goroutine run to its end, one after the other. -/
theorem exec_run_all (mc : MasterCollector)
    (hK : 1 ≤ mc.Target.MaxCollectorConcurrency) (hB : 0 ≤ mc.Target.MaxCollectorBufferSize) :
    ∀ (todo : List TargetedCollector) (off : Nat) (s : CollectState),
      s.returned = false → s.panicked = false → s.semaphore = 0 → s.wg = todo.length →
      (∀ j c, todo[j]? = some c → s.tasks[off + j]? = some ⟨c, .acquire, 0, 0⟩) →
      (∀ c ∈ todo, mc.skips c = false →
        ((c.CollectWithTarget mc.Target).length : Int) ≤ mc.Target.MaxCollectorBufferSize) →
      ∃ s', mc.exec s ((List.enumFrom off (todo.map mc.stepsOf)).flatMap
            (fun p => List.replicate p.2 (Action.run p.1))) = some s'
        ∧ s'.returned = false ∧ s'.panicked = false ∧ s'.wg = 0
        ∧ s'.launched = s.launched ∧ s'.tasks.length = s.tasks.length := by
  intro todo
  induction todo with
  | nil =>
    intro off s hret hpan _ hwg _ _
    exact ⟨s, by simp [MasterCollector.exec], hret, hpan, by simpa using hwg, rfl, rfl⟩
  | cons c rest ih =>
    intro off s hret hpan hsem hwg htasks hfit
    have hi : s.tasks[off]? = some ⟨c, .acquire, 0, 0⟩ := by
      simpa using htasks 0 c (by simp)
    have hwg' : s.wg ≠ 0 := by
      rw [hwg]; simp
    have hrun := exec_goroutine mc off c s hret hpan hi hsem hwg' hK hB
      (hfit c (List.mem_cons_self _ _))
    simp only [List.map_cons, List.enumFrom_cons, List.flatMap_cons, exec_append, hrun,
      Option.some_bind]
    obtain ⟨s', hs', h1, h2, h3, h4, h5⟩ := ih (off + 1)
      { s with
        tasks := s.tasks.set off ⟨c, .finished, if mc.skips c then 0 else 1,
          if mc.skips c then 0 else 1⟩,
        wg := s.wg - 1,
        ch := s.ch ++ (if mc.skips c then [] else c.CollectWithTarget mc.Target) }
      hret hpan hsem (by simp [hwg])
      (by
        intro j c' hj
        have := htasks (j + 1) c' (by simpa using hj)
        rw [List.getElem?_set_ne (by omega)]
        rw [← this]
        congr 1
        omega)
      (fun c' hc' => hfit c' (List.mem_cons_of_mem _ hc'))
    exact ⟨s', hs', h1, h2, h3, h4, by simpa using h5⟩

/-- `Collect` can return: with a concurrency bound of at least 1 and a buffer that holds the
samples of every collector the allow-list test lets through, the schedule that starts every
goroutine and then runs them one after the other reaches the return of `wg.Wait()`.  The
buffers are taken to be made whatever their capacity, as in `MasterCollector.stepTask`. -/
theorem Collect_can_return (mc : MasterCollector) (collectors : List TargetedCollector)
    (hK : 1 ≤ mc.Target.MaxCollectorConcurrency) (hB : 0 ≤ mc.Target.MaxCollectorBufferSize)
    (hfit : ∀ c ∈ collectors, mc.skips c = false →
      ((c.CollectWithTarget mc.Target).length : Int) ≤ mc.Target.MaxCollectorBufferSize) :
    ∃ s, mc.Collect collectors (sequentialSchedule (collectors.map mc.stepsOf)) = some s
      ∧ s.returned = true := by
  have hinit : mc.init collectors = launchedState [] collectors := by
    have : ¬ mc.Target.MaxCollectorConcurrency < 0 := by omega
    simp [MasterCollector.init, launchedState, this]
  have hlaunch := exec_launches mc collectors []
  obtain ⟨s', hs', h1, h2, h3, h4, h5⟩ := exec_run_all mc hK hB collectors 0
    (launchedState ([] ++ collectors) []) rfl rfl rfl (by simp [launchedState])
    (by
      intro j c hj
      simp [launchedState, hj])
    hfit
  refine ⟨{ s' with returned := true }, ?_, rfl⟩
  unfold MasterCollector.Collect sequentialSchedule
  rw [hinit, exec_append, exec_append]
  simp only [List.length_map, hlaunch, Option.some_bind, List.enum_eq_enumFrom, hs']
  have hlen : s'.launched = s'.tasks.length := by
    rw [h4, h5]
    simp [launchedState]
  simp [MasterCollector.exec, MasterCollector.step, h1, h2, h3, hlen]

/-! ### `Target.Validate` -/

/-- The receiver and the error of `validateScheme`, in closed form. -/
theorem validateScheme_eq (t : Target) :
    t.validateScheme =
      ({ t with Scheme := if t.Scheme = "" then "https" else t.Scheme },
        if (if t.Scheme = "" then "https" else t.Scheme) ≠ "http"
            ∧ (if t.Scheme = "" then "https" else t.Scheme) ≠ "https" then
          some ("Target 'scheme' must be 'http' or 'https' for host '" ++ t.Host ++ "'")
        else none) := by
  obtain ⟨h, p, sc, am, u, pw, k, vc, tm, cs, mc, mb⟩ := t
  by_cases h0 : sc = ""
  · subst h0; simp [Target.validateScheme]
  · by_cases h1 : sc ≠ "http" ∧ sc ≠ "https"
    · simp [Target.validateScheme, h0, h1]
    · simp [Target.validateScheme, h0, h1]

/-- The target with the four defaults of validation applied. -/
theorem Validate_of_success (t : Target) (h : t.Validate.2 = none) :
    t.Validate.1 =
      { t with
        Scheme := if t.Scheme = "" then "https" else t.Scheme
        Timeout := if t.Timeout = 0 then 30 else t.Timeout
        MaxCollectorConcurrency :=
          if t.MaxCollectorConcurrency = 0 then 4 else t.MaxCollectorConcurrency
        MaxCollectorBufferSize :=
          if t.MaxCollectorBufferSize = 0 then 100 else t.MaxCollectorBufferSize } ∧
    t.validateHostAndPort = none ∧
    t.validateScheme.2 = none ∧
    t.validateAuth = none ∧
    t.validateTimeout.2 = none ∧
    t.ValidateMaxCollectorConcurrency.2 = none ∧
    t.ValidateMaxCollectorBufferSize.2 = none := by
  obtain ⟨ho, p, sc, am, u, pw, k, vc, tm, cs, mc, mb⟩ := t
  unfold Target.Validate at h ⊢
  cases hhp : Target.validateHostAndPort ⟨ho, p, sc, am, u, pw, k, vc, tm, cs, mc, mb⟩ with
  | some e => simp [hhp] at h
  | none =>
    simp only [hhp] at h ⊢
    rw [validateScheme_eq] at h ⊢
    by_cases hsc : (if sc = "" then "https" else sc) ≠ "http"
        ∧ (if sc = "" then "https" else sc) ≠ "https"
    · simp [hsc] at h
    · simp only [hsc, if_false] at h ⊢
      have hau' : Target.validateAuth
            ⟨ho, p, if sc = "" then "https" else sc, am, u, pw, k, vc, tm, cs, mc, mb⟩
          = Target.validateAuth ⟨ho, p, sc, am, u, pw, k, vc, tm, cs, mc, mb⟩ := rfl
      cases hau : Target.validateAuth ⟨ho, p, sc, am, u, pw, k, vc, tm, cs, mc, mb⟩ with
      | some e => simp [hau', hau] at h
      | none =>
        simp only [hau', hau] at h ⊢
        rw [validateTimeout_eq] at h ⊢
        by_cases htm : (if tm = 0 then 30 else tm) ≤ 5 ∨ (if tm = 0 then 30 else tm) ≥ 360
        · simp [htm] at h
        · simp only [htm, if_false, Target.validateValidateCert] at h ⊢
          rw [ValidateMaxCollectorConcurrency_eq] at h ⊢
          by_cases hmc : (if mc = 0 then 4 else mc) < 1 ∨ (if mc = 0 then 4 else mc) > 10
          · simp [hmc] at h
          · simp only [hmc, if_false] at h ⊢
            rw [ValidateMaxCollectorBufferSize_eq] at h ⊢
            by_cases hmb : (if mb = 0 then 100 else mb) < 10
            · simp [hmb] at h
            · simp only [hmb, if_false] at h ⊢
              rw [validateTimeout_eq, ValidateMaxCollectorConcurrency_eq,
                ValidateMaxCollectorBufferSize_eq]
              simp only [htm, hmc, hmb, if_false]
              exact ⟨trivial, trivial, trivial, trivial, trivial, trivial, trivial⟩

/-- `validateHostAndPort` succeeds exactly on a non-empty host and a port in 1..65535. -/
theorem validateHostAndPort_eq_none_iff (t : Target) :
    t.validateHostAndPort = none ↔ t.Host ≠ "" ∧ 1 ≤ t.Port ∧ t.Port ≤ 65535 := by
  unfold Target.validateHostAndPort
  by_cases h0 : t.Host = ""
  · simp [h0]
  · by_cases h1 : t.Port < 1 ∨ t.Port > 65535
    · simp [h0, h1]; omega
    · simp [h0, h1]; omega

/-- `validateAuth` succeeds exactly on `basic` with a user name and a password, or `key` with
a key. -/
theorem validateAuth_eq_none_iff (t : Target) :
    t.validateAuth = none ↔
      (t.AuthMethod = "basic" ∧ t.Username ≠ "" ∧ t.Password ≠ "")
        ∨ (t.AuthMethod = "key" ∧ t.Key ≠ "") := by
  unfold Target.validateAuth
  by_cases hb : t.AuthMethod = "basic"
  · have hk : ¬ t.AuthMethod = "key" := by rw [hb]; decide
    by_cases hu : t.Username = ""
    · simp [hb, hu]
    · by_cases hp : t.Password = ""
      · simp [hb, hu, hp]
      · simp [hb, hu, hp]
  · by_cases hk : t.AuthMethod = "key"
    · by_cases hkey : t.Key = ""
      · simp [hk, hkey]
      · simp [hk, hkey]
    · simp [hb, hk]

/-- C11: on every target on which `Validate` succeeds, the returned target is the input with
`Scheme` '' replaced by 'https', `Timeout` 0 by 30, `MaxCollectorConcurrency` 0 by 4 and
`MaxCollectorBufferSize` 0 by 100; every other field, and each of these four when it was
already set, is unchanged. -/
theorem Validate_frame (t : Target) (h : t.Validate.2 = none) :
    t.Validate.1 =
      { Host := t.Host
        Port := t.Port
        Scheme := if t.Scheme = "" then "https" else t.Scheme
        AuthMethod := t.AuthMethod
        Username := t.Username
        Password := t.Password
        Key := t.Key
        ValidateCert := t.ValidateCert
        Timeout := if t.Timeout = 0 then 30 else t.Timeout
        Collectors := t.Collectors
        MaxCollectorConcurrency :=
          if t.MaxCollectorConcurrency = 0 then 4 else t.MaxCollectorConcurrency
        MaxCollectorBufferSize :=
          if t.MaxCollectorBufferSize = 0 then 100 else t.MaxCollectorBufferSize } :=
  (Validate_of_success t h).1

/-- Witness for C11: a target with only host, port and basic credentials set validates and
comes back with the four defaults. -/
theorem Validate_frame_witness :
    (Target.Validate { Target.zero with Host := "test.com", Port := 443, AuthMethod := "basic",
                                        Username := "admin", Password := "secret" }).1
      = { Target.zero with Host := "test.com", Port := 443, AuthMethod := "basic",
                           Username := "admin", Password := "secret", Scheme := "https",
                           Timeout := 30, MaxCollectorConcurrency := 4,
                           MaxCollectorBufferSize := 100 } :=
  Validate_frame { Target.zero with Host := "test.com", Port := 443, AuthMethod := "basic",
                                    Username := "admin", Password := "secret" } (by decide)

/-- C12: every target on which `Validate` succeeds comes back within all bounds at once:
non-empty host, port in 1..65535, scheme http or https, `basic` with user name and password or
`key` with a key, timeout in 6..359, concurrency in 1..10 and buffer size at least 10; so the
capacities of the semaphore and of the per-collector buffer of `Collect` are positive. -/
theorem Validate_bounds (t : Target) (h : t.Validate.2 = none) :
    t.Validate.1.Host ≠ "" ∧
    1 ≤ t.Validate.1.Port ∧ t.Validate.1.Port ≤ 65535 ∧
    (t.Validate.1.Scheme = "http" ∨ t.Validate.1.Scheme = "https") ∧
    ((t.Validate.1.AuthMethod = "basic" ∧ t.Validate.1.Username ≠ ""
        ∧ t.Validate.1.Password ≠ "")
      ∨ (t.Validate.1.AuthMethod = "key" ∧ t.Validate.1.Key ≠ "")) ∧
    6 ≤ t.Validate.1.Timeout ∧ t.Validate.1.Timeout ≤ 359 ∧
    1 ≤ t.Validate.1.MaxCollectorConcurrency ∧ t.Validate.1.MaxCollectorConcurrency ≤ 10 ∧
    10 ≤ t.Validate.1.MaxCollectorBufferSize ∧
    0 < t.Validate.1.MaxCollectorConcurrency ∧ 0 < t.Validate.1.MaxCollectorBufferSize := by
  obtain ⟨hfst, hhp, hsc, hau, htm, hmc, hmb⟩ := Validate_of_success t h
  rw [hfst]
  rw [validateHostAndPort_eq_none_iff] at hhp
  rw [validateAuth_eq_none_iff] at hau
  rw [validateScheme_eq] at hsc
  rw [validateTimeout_eq] at htm
  rw [ValidateMaxCollectorConcurrency_eq] at hmc
  rw [ValidateMaxCollectorBufferSize_eq] at hmb
  simp only [ite_eq_right_iff, reduceCtorEq, imp_false, not_and, not_or, not_lt, not_le,
    Decidable.not_not] at hsc htm hmc hmb
  refine ⟨hhp.1, hhp.2.1, hhp.2.2, ?_, hau, ?_, ?_, ?_, ?_, ?_, ?_, ?_⟩
  · by_cases h1 : (if t.Scheme = "" then "https" else t.Scheme) = "http"
    · exact Or.inl h1
    · exact Or.inr (hsc h1)
  all_goals
    simp only
    omega

/-- Witness for C12: a target with only host, port and a key validates, and its timeout
comes back within 6..359. -/
theorem Validate_bounds_witness :
    6 ≤ (Target.Validate
          { Target.zero with Host := "test.com", Port := 443, AuthMethod := "key", Key := "k" }
        ).1.Timeout ∧
    (Target.Validate
          { Target.zero with Host := "test.com", Port := 443, AuthMethod := "key", Key := "k" }
        ).1.Timeout ≤ 359 :=
  ⟨(Validate_bounds
      { Target.zero with Host := "test.com", Port := 443, AuthMethod := "key", Key := "k" }
      (by decide)).2.2.2.2.2.1,
   (Validate_bounds
      { Target.zero with Host := "test.com", Port := 443, AuthMethod := "key", Key := "k" }
      (by decide)).2.2.2.2.2.2.1⟩

/-! ### Registry and target lookup -/

/-- C13: `Register(c)` appends `c` at the end of the registry: the registry afterwards is the
one before followed by `c`, one longer, with the earlier entries at their places; nothing is
de-duplicated, so registering the same collector (hence the same `Name()`) twice keeps both. -/
theorem Register_appends (collectors : List TargetedCollector) (c : TargetedCollector) :
    Register collectors c = collectors ++ [c] ∧
    (Register collectors c).length = collectors.length + 1 ∧
    (∀ i, i < collectors.length → (Register collectors c)[i]? = collectors[i]?) ∧
    (Register collectors c)[collectors.length]? = some c ∧
    (Register (Register collectors c) c).length = collectors.length + 2 ∧
    (Register (Register collectors c) c)[collectors.length + 1]? = some c := by
  unfold Register
  refine ⟨rfl, by simp, ?_, by simp, by simp, ?_⟩
  · intro i hi
    exact List.getElem?_append_left hi
  · rw [List.getElem?_append_right (by simp)]
    simp

/-- The loop of `GetTarget` finds `t` exactly when `t` is the first target with that host. -/
theorem GetTarget_loop_eq_some (host : String) (targets : List Target) (t : Target) :
    GetTarget.loop host targets = some t ↔
      ∃ pre post, targets = pre ++ t :: post ∧ t.Host = host ∧ ∀ u ∈ pre, u.Host ≠ host := by
  induction targets with
  | nil => simp [GetTarget.loop]
  | cons x xs ih =>
    by_cases hx : x.Host = host
    · simp only [GetTarget.loop, hx, if_true, Option.some.injEq]
      constructor
      · intro h
        subst h
        exact ⟨[], xs, rfl, hx, by simp⟩
      · rintro ⟨pre, post, heq, _, hpre⟩
        cases pre with
        | nil =>
          simp only [List.nil_append, List.cons.injEq] at heq
          exact heq.1
        | cons p ps =>
          simp only [List.cons_append, List.cons.injEq] at heq
          exact absurd (heq.1 ▸ hx) (hpre p (List.mem_cons_self _ _))
    · simp only [GetTarget.loop, hx, if_false, ih]
      constructor
      · rintro ⟨pre, post, heq, ht, hpre⟩
        refine ⟨x :: pre, post, by simp [heq], ht, ?_⟩
        intro u hu
        rcases List.mem_cons.1 hu with h | h
        · rw [h]; exact hx
        · exact hpre u h
      · rintro ⟨pre, post, heq, ht, hpre⟩
        cases pre with
        | nil =>
          simp only [List.nil_append, List.cons.injEq] at heq
          exact absurd (heq.1 ▸ ht) hx
        | cons p ps =>
          simp only [List.cons_append, List.cons.injEq] at heq
          exact ⟨ps, post, heq.2, ht, fun u hu => hpre u (List.mem_cons_of_mem _ hu)⟩

/-- The loop of `GetTarget` finds nothing exactly when no target has that host. -/
theorem GetTarget_loop_eq_none (host : String) (targets : List Target) :
    GetTarget.loop host targets = none ↔ ∀ t ∈ targets, t.Host ≠ host := by
  induction targets with
  | nil => simp [GetTarget.loop]
  | cons x xs ih =>
    by_cases hx : x.Host = host
    · simp [GetTarget.loop, hx]
    · simp [GetTarget.loop, hx, ih]

/-- C14: for every configured target list and every host string `h`, `GetTarget(h)` returns
without error exactly when some configured target has `Host` equal to `h`, the target it then
returns being the first such one; otherwise it returns nil and the error
`target not configured: h`.  The `/metrics` handler answers 400 in that error case, and only
then, the rest of the handler (promhttp) never answering 400 itself. -/
theorem GetTarget_spec (Cfg : Config) (h : String) (serve : Option Target → HandlerResponse)
    (hserve : ∀ target, (serve target).StatusCode ≠ 400) :
    ((GetTarget Cfg h).2 = none ↔ ∃ t ∈ Cfg.Targets, t.Host = h) ∧
    (∀ t, GetTarget Cfg h = (some t, none) ↔
      ∃ pre post, Cfg.Targets = pre ++ t :: post ∧ t.Host = h ∧ ∀ u ∈ pre, u.Host ≠ h) ∧
    (GetTarget Cfg h = (none, some ("target not configured: " ++ h)) ↔
      ∀ t ∈ Cfg.Targets, t.Host ≠ h) ∧
    ((GetTarget Cfg h).2 ≠ none ↔ ∀ t ∈ Cfg.Targets, t.Host ≠ h) ∧
    ((metricsHandler serve Cfg h).StatusCode = 400 ↔ (GetTarget Cfg h).2 ≠ none) ∧
    ((GetTarget Cfg h).2 ≠ none → metricsHandler serve Cfg h = ⟨400, "Bad target\n"⟩) := by
  have hnone := GetTarget_loop_eq_none h Cfg.Targets
  unfold metricsHandler GetTarget
  cases hl : GetTarget.loop h Cfg.Targets with
  | none =>
    have hall := hnone.1 hl
    refine ⟨?_, ?_, ?_, ?_, ?_, ?_⟩
    · simp only [reduceCtorEq, false_iff, not_exists, not_and]
      exact fun t ht => hall t ht
    · intro t
      simp only [Prod.mk.injEq, reduceCtorEq, false_and, and_false, false_iff, not_exists,
        not_and]
      intro pre post heq ht
      exact absurd ht (hall t (by simp [heq]))
    · simp only [true_iff]
      exact hall
    · simp only [ne_eq, reduceCtorEq, not_false_eq_true, true_iff]
      exact hall
    · simp
    · simp
  | some t =>
    have hex := (GetTarget_loop_eq_some h Cfg.Targets t).1 hl
    obtain ⟨pre, post, heq, ht, hpre⟩ := hex
    have hmem : t ∈ Cfg.Targets := by simp [heq]
    refine ⟨?_, ?_, ?_, ?_, ?_, ?_⟩
    · simp only [true_iff]
      exact ⟨t, hmem, ht⟩
    · intro t'
      simp only [Prod.mk.injEq, Option.some.injEq, and_true]
      rw [← GetTarget_loop_eq_some, hl, Option.some.injEq]
    · simp only [Prod.mk.injEq, reduceCtorEq, false_and, false_iff, not_forall]
      exact ⟨t, hmem, fun hne => hne ht⟩
    · simp only [ne_eq, not_true_eq_false, false_iff, not_forall]
      exact ⟨t, hmem, fun hne => hne ht⟩
    · simp only [ne_eq, not_true_eq_false, iff_false]
      exact hserve (some t)
    · simp

/-- Witness for C14: with the configured hosts `fw1` and `fw2`, asking for `fw3` under a
handler whose promhttp part answers 200 gives the 400 response. -/
theorem GetTarget_spec_witness :
    metricsHandler (fun _ => ⟨200, ""⟩)
        ⟨"localhost", 9945, [{ Target.zero with Host := "fw1" }, { Target.zero with Host := "fw2" }]⟩
        "fw3"
      = ⟨400, "Bad target\n"⟩ :=
  (GetTarget_spec
    ⟨"localhost", 9945, [{ Target.zero with Host := "fw1" }, { Target.zero with Host := "fw2" }]⟩
    "fw3" (fun _ => ⟨200, ""⟩) (fun _ => show (200 : Int) ≠ 400 by decide)).2.2.2.2.2
    (by decide)

/-! ### Status strings -/

/-- C15: for every string `s`, `CARPStatusToFloat64(s)` is 1 exactly when `s` is `master`, 0
exactly when `s` is `backup`, and -1 for every other string, the empty string and
differently-cased variants included; the function is total. -/
theorem CARPStatusToFloat64_spec (s : String) :
    (CARPStatusToFloat64 s = 1 ↔ s = "master") ∧
    (CARPStatusToFloat64 s = 0 ↔ s = "backup") ∧
    (CARPStatusToFloat64 s = -1 ↔ s ≠ "master" ∧ s ≠ "backup") ∧
    CARPStatusToFloat64 "" = -1 ∧
    CARPStatusToFloat64 "MASTER" = -1 ∧
    CARPStatusToFloat64 "Backup" = -1 ∧
    CARPStatusToFloat64 "anything-else" = -1 := by
  have h10 : (1 : Float64) ≠ 0 := by decide
  have h1m : (1 : Float64) ≠ -1 := by decide
  have h0m : (0 : Float64) ≠ -1 := by decide
  refine ⟨?_, ?_, ?_, by decide, by decide, by decide, by decide⟩
  · unfold CARPStatusToFloat64
    by_cases hm : s = "master"
    · simp [hm]
    · by_cases hb : s = "backup"
      · simp [hb, h10.symm]
      · simp [hm, hb, h1m.symm]
  · unfold CARPStatusToFloat64
    by_cases hm : s = "master"
    · simp [hm, h10]
    · by_cases hb : s = "backup"
      · simp [hb]
      · simp [hm, hb, h0m.symm]
  · unfold CARPStatusToFloat64
    by_cases hm : s = "master"
    · simp [hm, h1m]
    · by_cases hb : s = "backup"
      · simp [hb, h0m]
      · simp [hm, hb]

/-- Counterexample to C17 as stated: for the status `up` the value is 0 and not 1. -/
theorem gatewayUpToFloat64_up :
    gatewayUpToFloat64 "up" = 0 ∧ gatewayUpToFloat64 "up" ≠ 1 := by
  decide

/-- C17 (amended): for every gateway status string `s`, `gatewayUpToFloat64(s)` is 1 exactly
when `s` is `online` and 0 for anything else, the status `up` included; the function is total,
so an unrecognised string gives 0 and never an error. -/
theorem gatewayUpToFloat64_spec (s : String) :
    (gatewayUpToFloat64 s = 1 ↔ s = "online") ∧
    (gatewayUpToFloat64 s = 0 ↔ s ≠ "online") ∧
    gatewayUpToFloat64 "up" = 0 ∧
    gatewayUpToFloat64 "offline" = 0 ∧
    gatewayUpToFloat64 "" = 0 := by
  have h10 : (1.0 : Float64) ≠ 0 := by decide
  have h01 : (0.0 : Float64) ≠ 1 := by decide
  have h11 : (1.0 : Float64) = 1 := by decide
  have h00 : (0.0 : Float64) = 0 := by decide
  refine ⟨?_, ?_, by decide, by decide, by decide⟩
  · unfold gatewayUpToFloat64
    by_cases ho : s = "online"
    · simp [ho, h11]
    · simp [ho, h01]
  · unfold gatewayUpToFloat64
    by_cases ho : s = "online"
    · simp [ho, h10]
    · simp [ho, h00]

/-! ### Gauges -/

/-- The children of a gauge after `WithLabelValues(lvs...).Set(v)`: the child for `lvs` with
value `v`, and the children the gauge had under other label values. -/
theorem GaugeVec.mem_children_Set (g : GaugeVec) (lvs : List String) (v : Float64)
    (p : List String × Float64) :
    p ∈ (g.Set lvs v).children ↔ p = (lvs, v) ∨ (p ∈ g.children ∧ p.1 ≠ lvs) := by
  unfold GaugeVec.Set
  split
  · rename_i hany
    simp only [List.any_eq_true, decide_eq_true_eq] at hany
    obtain ⟨q0, hq0, hq0l⟩ := hany
    simp only [List.mem_map]
    constructor
    · rintro ⟨q, hq, rfl⟩
      by_cases hql : q.1 = lvs
      · left
        simp [hql]
      · right
        simp [hql, hq]
    · rintro (rfl | ⟨hp, hpl⟩)
      · exact ⟨q0, hq0, by simp [hq0l]⟩
      · exact ⟨p, hp, by simp [hpl]⟩
  · rename_i hany
    simp only [List.any_eq_true, decide_eq_true_eq, not_exists, not_and] at hany
    simp only [List.mem_append, List.mem_singleton]
    constructor
    · rintro (hp | rfl)
      · exact Or.inr ⟨hp, hany p hp⟩
      · exact Or.inl rfl
    · rintro (rfl | ⟨hp, _⟩)
      · exact Or.inr rfl
      · exact Or.inl hp

/-- `Set` keeps the name of a gauge. -/
theorem GaugeVec.Name_Set (g : GaugeVec) (lvs : List String) (v : Float64) :
    (g.Set lvs v).Name = g.Name := by
  unfold GaugeVec.Set
  split <;> rfl

/-- `Set` keeps the label names of a gauge. -/
theorem GaugeVec.LabelNames_Set (g : GaugeVec) (lvs : List String) (v : Float64) :
    (g.Set lvs v).LabelNames = g.LabelNames := by
  unfold GaugeVec.Set
  split <;> rfl

/-- A reset gauge is the same whatever was set before the reset. -/
theorem GaugeVec.Reset_Set (g : GaugeVec) (lvs : List String) (v : Float64) :
    (g.Set lvs v).Reset = g.Reset := by
  unfold GaugeVec.Set
  split <;> rfl

/-- `Set` changes nothing on a gauge all of whose children under these label values hold the
value already, if there is such a child. -/
theorem GaugeVec.Set_eq_self (h : GaugeVec) (lvs : List String) (v : Float64)
    (hany : h.children.any (fun p => p.1 = lvs) = true)
    (hmap : h.children.map (fun p => if p.1 = lvs then (p.1, v) else p) = h.children) :
    h.Set lvs v = h := by
  unfold GaugeVec.Set
  rw [if_pos hany, hmap]

/-- Setting the same value under the same label values a second time changes nothing. -/
theorem GaugeVec.Set_Set_same (g : GaugeVec) (lvs : List String) (v : Float64) :
    (g.Set lvs v).Set lvs v = g.Set lvs v := by
  apply GaugeVec.Set_eq_self
  · simp only [List.any_eq_true, decide_eq_true_eq]
    exact ⟨(lvs, v), (GaugeVec.mem_children_Set g lvs v _).2 (Or.inl rfl), rfl⟩
  · conv_rhs => rw [← List.map_id (g.Set lvs v).children]
    apply List.map_congr_left
    intro p hp
    rcases (GaugeVec.mem_children_Set g lvs v p).1 hp with h | ⟨_, h⟩
    · subst h; simp
    · simp [h]

/-- One field of the state after a loop, when each round changes that field by a function of
the field alone. -/
theorem foldl_proj {σ τ α : Type} (proj : σ → τ) (step : σ → α → σ) (g : τ → α → τ)
    (h : ∀ s a, proj (step s a) = g (proj s) a) (l : List α) (s : σ) :
    proj (l.foldl step s) = l.foldl g (proj s) := by
  induction l generalizing s with
  | nil => rfl
  | cons x xs ih => simp only [List.foldl_cons, ih, h]

/-- The gauge after a loop of `Set`s, reset, is the gauge before the loop, reset. -/
theorem GaugeVec.Reset_foldl_Set {α : Type} (key : α → List String) (val : α → Float64)
    (rs : List α) (g : GaugeVec) :
    (rs.foldl (fun g r => g.Set (key r) (val r)) g).Reset = g.Reset := by
  induction rs generalizing g with
  | nil => rfl
  | cons r rs ih => simp only [List.foldl_cons, ih, GaugeVec.Reset_Set]

/-- The name of a gauge after a loop of `Set`s. -/
theorem GaugeVec.Name_foldl_Set {α : Type} (key : α → List String) (val : α → Float64)
    (rs : List α) (g : GaugeVec) :
    (rs.foldl (fun g r => g.Set (key r) (val r)) g).Name = g.Name := by
  induction rs generalizing g with
  | nil => rfl
  | cons r rs ih => simp only [List.foldl_cons, ih, GaugeVec.Name_Set]

/-- Every record of a payload has a last record with its label values. -/
theorem exists_last_with_key {α : Type} (key : α → List String) (rs : List α) :
    ∀ r ∈ rs, ∃ pre r' post, rs = pre ++ r' :: post ∧ key r' = key r
      ∧ ∀ r'' ∈ post, key r'' ≠ key r' := by
  induction rs with
  | nil => intro r hr; cases hr
  | cons x xs ih =>
    intro r hr
    by_cases hex : ∃ y ∈ xs, key y = key r
    · obtain ⟨y, hy, hky⟩ := hex
      obtain ⟨pre, r', post, heq, hk, hpost⟩ := ih y hy
      exact ⟨x :: pre, r', post, by simp [heq], hk.trans hky, hpost⟩
    · have hx : key x = key r := by
        rcases List.mem_cons.1 hr with h | h
        · rw [h]
        · exact absurd ⟨r, h, rfl⟩ hex
      refine ⟨[], x, xs, rfl, hx, ?_⟩
      intro r'' hr'' hk
      exact hex ⟨r'', hr'', hk.trans hx⟩

/-- The children of a gauge after a loop of `Set`s over a payload: for each label-value tuple
of the payload the child set by the last record with that tuple, and the children the gauge
had under tuples that the payload does not have. -/
theorem GaugeVec.mem_children_foldl_Set {α : Type} (key : α → List String)
    (val : α → Float64) (rs : List α) (g : GaugeVec) (p : List String × Float64) :
    p ∈ (rs.foldl (fun g r => g.Set (key r) (val r)) g).children ↔
      (∃ pre r post, rs = pre ++ r :: post ∧ p = (key r, val r)
        ∧ ∀ r' ∈ post, key r' ≠ key r)
      ∨ (p ∈ g.children ∧ ∀ r ∈ rs, key r ≠ p.1) := by
  induction rs generalizing g with
  | nil => simp
  | cons x xs ih =>
    simp only [List.foldl_cons]
    rw [ih, GaugeVec.mem_children_Set]
    constructor
    · rintro (⟨pre, r, post, heq, hp, hpost⟩ | ⟨hp | ⟨hp, hpk⟩, hall⟩)
      · exact Or.inl ⟨x :: pre, r, post, by simp [heq], hp, hpost⟩
      · refine Or.inl ⟨[], x, xs, rfl, hp, ?_⟩
        intro r' hr' hk
        exact hall r' hr' (by rw [hp]; exact hk)
      · refine Or.inr ⟨hp, ?_⟩
        intro r hr
        rcases List.mem_cons.1 hr with h | h
        · rw [h]; exact fun hk => hpk hk.symm
        · exact hall r h
    · rintro (⟨pre, r, post, heq, hp, hpost⟩ | ⟨hp, hall⟩)
      · cases pre with
        | nil =>
          simp only [List.nil_append, List.cons.injEq] at heq
          obtain ⟨hx, hxs⟩ := heq
          subst hx hxs
          exact Or.inr ⟨Or.inl hp, fun r' hr' => by rw [hp]; exact hpost r' hr'⟩
        | cons q qs =>
          simp only [List.cons_append, List.cons.injEq] at heq
          exact Or.inl ⟨qs, r, post, heq.2, hp, hpost⟩
      · refine Or.inr ⟨Or.inr ⟨hp, ?_⟩, fun r hr => hall r (List.mem_cons_of_mem _ hr)⟩
        exact fun hk => hall x (List.mem_cons_self _ _) hk.symm

/-! ### The interface collector -/

/-- The `interface_up` gauge after a successful `CollectWithTarget`: reset, then set once per
record of the payload; and the samples sent start with those of this gauge. -/
theorem InterfaceCollector.interfaceUp_after (lib : Lib) (dec : Decoders)
    (c : InterfaceCollector) (target : Target) (interfaces : List InterfaceStats)
    (hfetch : fetch lib target "/api/v2/status/interfaces" dec.Interfaces = some interfaces) :
    (c.CollectWithTarget lib dec target).1.interfaceUp
      = interfaces.foldl (fun g iface =>
          g.Set [target.Host, iface.Name, iface.Descr, iface.Hwif, iface.Status]
            (interfaceStatusToFloat64 iface.Status)) c.interfaceUp.Reset
    ∧ ∃ rest, (c.CollectWithTarget lib dec target).2
      = (c.CollectWithTarget lib dec target).1.interfaceUp.Collect ++ rest := by
  unfold InterfaceCollector.CollectWithTarget
  rw [hfetch]
  refine ⟨?_, ⟨_, by simp only [List.append_assoc]; rfl⟩⟩
  exact foldl_proj InterfaceCollector.interfaceUp _ _ (fun _ _ => rfl) _ _

/-- C16: for every string `s`, `interfaceStatusToFloat64(s)` is 1 exactly when `s` is `up` and
0 for every other string; and after a successful fetch the `interface_up` sample emitted for
each interface record (labels host, name, descr, hwif, status) carries exactly this value of
the record's status, the `interface_up` gauge emitting nothing but such samples. -/
theorem interfaceStatusToFloat64_spec (s : String) (lib : Lib) (dec : Decoders)
    (c : InterfaceCollector) (target : Target) (interfaces : List InterfaceStats)
    (hfetch : fetch lib target "/api/v2/status/interfaces" dec.Interfaces = some interfaces) :
    (interfaceStatusToFloat64 s = 1 ↔ s = "up") ∧
    (interfaceStatusToFloat64 s = 0 ↔ s ≠ "up") ∧
    (∀ iface ∈ interfaces,
      (⟨c.interfaceUp.Name,
        [target.Host, iface.Name, iface.Descr, iface.Hwif, iface.Status],
        interfaceStatusToFloat64 iface.Status⟩ : Metric)
        ∈ (c.CollectWithTarget lib dec target).2) ∧
    (∀ m ∈ (c.CollectWithTarget lib dec target).1.interfaceUp.Collect,
      ∃ iface ∈ interfaces,
        m = ⟨c.interfaceUp.Name,
          [target.Host, iface.Name, iface.Descr, iface.Hwif, iface.Status],
          interfaceStatusToFloat64 iface.Status⟩) ∧
    (∃ rest, (c.CollectWithTarget lib dec target).2
      = (c.CollectWithTarget lib dec target).1.interfaceUp.Collect ++ rest) := by
  have h10 : (1.0 : Float64) ≠ 0 := by decide
  have h01 : (0.0 : Float64) ≠ 1 := by decide
  have h11 : (1.0 : Float64) = 1 := by decide
  have h00 : (0.0 : Float64) = 0 := by decide
  obtain ⟨hup, rest, hrest⟩ := InterfaceCollector.interfaceUp_after lib dec c target interfaces hfetch
  have hname : (c.CollectWithTarget lib dec target).1.interfaceUp.Name = c.interfaceUp.Name := by
    rw [hup, GaugeVec.Name_foldl_Set]
    rfl
  have hmem := fun p => GaugeVec.mem_children_foldl_Set
    (fun iface : InterfaceStats =>
      [target.Host, iface.Name, iface.Descr, iface.Hwif, iface.Status])
    (fun iface => interfaceStatusToFloat64 iface.Status) interfaces c.interfaceUp.Reset p
  refine ⟨?_, ?_, ?_, ?_, ⟨rest, hrest⟩⟩
  · unfold interfaceStatusToFloat64
    by_cases hu : s = "up"
    · simp [hu, h11]
    · simp [hu, h01]
  · unfold interfaceStatusToFloat64
    by_cases hu : s = "up"
    · simp [hu, h10]
    · simp [hu, h00]
  · intro iface hiface
    rw [hrest]
    apply List.mem_append_left
    obtain ⟨pre, r', post, heq, hk, hpost⟩ := exists_last_with_key
      (fun iface : InterfaceStats =>
        [target.Host, iface.Name, iface.Descr, iface.Hwif, iface.Status]) interfaces iface hiface
    have hstatus : r'.Status = iface.Status := by
      simp only [List.cons.injEq, and_true, true_and] at hk
      exact hk.2.2.2
    have hchild := (hmem (_, _)).2 (Or.inl ⟨pre, r', post, heq, rfl, hpost⟩)
    rw [← hup] at hchild
    simp only [GaugeVec.Collect, List.mem_map]
    refine ⟨_, hchild, ?_⟩
    rw [hname, hk, hstatus]
  · intro m hm
    simp only [GaugeVec.Collect, List.mem_map] at hm
    obtain ⟨p, hp, rfl⟩ := hm
    rw [hup] at hp
    rcases (hmem p).1 hp with ⟨pre, r, post, heq, hpr, _⟩ | ⟨hp', _⟩
    · refine ⟨r, by simp [heq], ?_⟩
      rw [hname, hpr]
    · simp [GaugeVec.Reset] at hp'

/-- Witness for C16: an appliance answering with one interface that is up and one that is
down; the sample of the first carries 1. -/
theorem interfaceStatusToFloat64_spec_witness :
    (⟨"pfsense_interface_up", ["fw", "wan", "WAN", "em0", "up"], 1.0⟩ : Metric)
      ∈ (InterfaceCollector.CollectWithTarget
          (Lib.only "https://fw:443/api/v2/status/interfaces" ⟨200, "ok", "", "", some "[]"⟩)
          (Decoders.interfaces
            [⟨"wan", "WAN", "em0", "up", 0, 0, 0, 0, 0, 0, 0, 0, 0, 0, 0⟩,
             ⟨"lan", "LAN", "em1", "down", 0, 0, 0, 0, 0, 0, 0, 0, 0, 0, 0⟩])
          NewInterfaceCollector
          { Target.zero with Host := "fw", Port := 443, Scheme := "https" }).2 :=
  (interfaceStatusToFloat64_spec "up"
    (Lib.only "https://fw:443/api/v2/status/interfaces" ⟨200, "ok", "", "", some "[]"⟩)
    (Decoders.interfaces
      [⟨"wan", "WAN", "em0", "up", 0, 0, 0, 0, 0, 0, 0, 0, 0, 0, 0⟩,
       ⟨"lan", "LAN", "em1", "down", 0, 0, 0, 0, 0, 0, 0, 0, 0, 0, 0⟩])
    NewInterfaceCollector
    { Target.zero with Host := "fw", Port := 443, Scheme := "https" }
    [⟨"wan", "WAN", "em0", "up", 0, 0, 0, 0, 0, 0, 0, 0, 0, 0, 0⟩,
     ⟨"lan", "LAN", "em1", "down", 0, 0, 0, 0, 0, 0, 0, 0, 0, 0, 0⟩]
    (by decide)).2.2.1 ⟨"wan", "WAN", "em0", "up", 0, 0, 0, 0, 0, 0, 0, 0, 0, 0, 0⟩
      (by decide)

/-! ### The gateway collector -/

/-- Two records that are both the last of a payload with the same label values are the same
record. -/
theorem last_with_key_unique {α : Type} (key : α → List String) :
    ∀ (pre : List α) (gw : α) (post pre' : List α) (r : α) (post' : List α),
      pre ++ gw :: post = pre' ++ r :: post' → key r = key gw →
      (∀ x ∈ post, key x ≠ key gw) → (∀ x ∈ post', key x ≠ key r) → r = gw := by
  intro pre
  induction pre with
  | nil =>
    intro gw post pre' r post' h hk hpost _
    cases pre' with
    | nil =>
      simp only [List.nil_append, List.cons.injEq] at h
      exact h.1.symm
    | cons q qs =>
      simp only [List.nil_append, List.cons_append, List.cons.injEq] at h
      exact absurd hk (hpost r (by rw [h.2]; simp))
  | cons a as ih =>
    intro gw post pre' r post' h hk hpost hpost'
    cases pre' with
    | nil =>
      simp only [List.nil_append, List.cons_append, List.cons.injEq] at h
      exact absurd hk.symm (hpost' gw (by rw [← h.2]; simp))
    | cons q qs =>
      simp only [List.cons_append, List.cons.injEq] at h
      exact ih gw post qs r post' h.2 hk hpost hpost'

/-- After a reset and a loop of `Set`s over a payload, the child under the label values of a
record that is the last one with these label values holds the value of that record, and no
child under these label values holds anything else. -/
theorem GaugeVec.child_of_last {α : Type} (key : α → List String) (val : α → Float64)
    (g : GaugeVec) (pre : List α) (gw : α) (post : List α)
    (hlast : ∀ x ∈ post, key x ≠ key gw) :
    (key gw, val gw)
        ∈ ((pre ++ gw :: post).foldl (fun g r => g.Set (key r) (val r)) g.Reset).children ∧
    ∀ p ∈ ((pre ++ gw :: post).foldl (fun g r => g.Set (key r) (val r)) g.Reset).children,
      p.1 = key gw → p.2 = val gw := by
  constructor
  · exact (GaugeVec.mem_children_foldl_Set key val _ _ _).2
      (Or.inl ⟨pre, gw, post, rfl, rfl, hlast⟩)
  · intro p hp hpk
    rcases (GaugeVec.mem_children_foldl_Set key val _ _ _).1 hp with
      ⟨pre', r, post', heq, hpr, hpost'⟩ | ⟨hp', _⟩
    · have hk : key r = key gw := by
        rw [← hpk, hpr]
      have hr := last_with_key_unique key pre gw post pre' r post' heq hk hlast hpost'
      rw [hpr, hr]
    · simp [GaugeVec.Reset] at hp'

/-- The three converted gauges after a successful `CollectWithTarget` of the gateway
collector: each is reset and then set once per record of the payload; and the samples sent
are those of the four gauges in turn. -/
theorem GatewayCollector.gauges_after (lib : Lib) (dec : Decoders) (c : GatewayCollector)
    (target : Target) (gateways : List GatewayStats)
    (hfetch : fetch lib target "/api/v2/status/gateways" dec.Gateways = some gateways) :
    (c.CollectWithTarget lib dec target).1.gatewayLossRatio
      = gateways.foldl (fun g gw =>
          g.Set [target.Host, gw.Name, gw.SourceIP, gw.MonitorIP] (gw.Loss / 100.0))
          c.gatewayLossRatio.Reset ∧
    (c.CollectWithTarget lib dec target).1.gatewayDelaySeconds
      = gateways.foldl (fun g gw =>
          g.Set [target.Host, gw.Name, gw.SourceIP, gw.MonitorIP] (gw.Delay / 1000.0))
          c.gatewayDelaySeconds.Reset ∧
    (c.CollectWithTarget lib dec target).1.gatewayStdDevSeconds
      = gateways.foldl (fun g gw =>
          g.Set [target.Host, gw.Name, gw.SourceIP, gw.MonitorIP] (gw.StdDev / 1000.0))
          c.gatewayStdDevSeconds.Reset ∧
    (c.CollectWithTarget lib dec target).2
      = (c.CollectWithTarget lib dec target).1.gatewayLossRatio.Collect
        ++ (c.CollectWithTarget lib dec target).1.gatewayDelaySeconds.Collect
        ++ (c.CollectWithTarget lib dec target).1.gatewayStdDevSeconds.Collect
        ++ (c.CollectWithTarget lib dec target).1.gatewayUp.Collect := by
  unfold GatewayCollector.CollectWithTarget
  rw [hfetch]
  refine ⟨?_, ?_, ?_, rfl⟩
  · exact foldl_proj GatewayCollector.gatewayLossRatio _ _ (fun _ _ => rfl) _ _
  · exact foldl_proj GatewayCollector.gatewayDelaySeconds _ _ (fun _ _ => rfl) _ _
  · exact foldl_proj GatewayCollector.gatewayStdDevSeconds _ _ (fun _ _ => rfl) _ _

/-- Counterexample to C18 as stated, on the record of gateway_test.go (loss 2.5, delay 15.3,
stddev 3.2): the emitted delay is 15.3 / 1000 in `float64`, which is 0.015300000000000001 and
not 0.0153; and of two records that share name, srcip and monitorip only the second has its
loss emitted, the sample under their labels carrying 3 / 100 and not 1 / 100. -/
theorem GatewayCollector_conversion_counterexample :
    (GatewayCollector.CollectWithTarget
        (Lib.only "https://fw:443/api/v2/status/gateways" ⟨200, "ok", "", "", some "[]"⟩)
        (Decoders.gateways
          [⟨"WAN_DHCP", 2.5, 15.3, 3.2, "online", "none", "192.168.1.1", "8.8.8.8"⟩])
        NewGatewayCollector
        { Target.zero with Host := "fw", Port := 443, Scheme := "https" }).2
      = [⟨"pfsense_gateway_loss_ratio", ["fw", "WAN_DHCP", "192.168.1.1", "8.8.8.8"], 0.025⟩,
         ⟨"pfsense_gateway_delay_seconds", ["fw", "WAN_DHCP", "192.168.1.1", "8.8.8.8"],
           0.015300000000000001⟩,
         ⟨"pfsense_gateway_stddev_seconds", ["fw", "WAN_DHCP", "192.168.1.1", "8.8.8.8"],
           0.0032⟩,
         ⟨"pfsense_gateway_up", ["fw", "WAN_DHCP", "192.168.1.1", "8.8.8.8", "none"], 1⟩] ∧
    (0.015300000000000001 : Float64) ≠ 0.0153 ∧
    (15.3 : Float64) / 1000.0 ≠ 0.0153 ∧
    ((GatewayCollector.CollectWithTarget
        (Lib.only "https://fw:443/api/v2/status/gateways" ⟨200, "ok", "", "", some "[]"⟩)
        (Decoders.gateways
          [⟨"WAN", 1, 0, 0, "online", "none", "10.0.0.1", "8.8.8.8"⟩,
           ⟨"WAN", 3, 0, 0, "online", "none", "10.0.0.1", "8.8.8.8"⟩])
        NewGatewayCollector
        { Target.zero with Host := "fw", Port := 443, Scheme := "https" }).2.filter
          (fun m => m.Name = "pfsense_gateway_loss_ratio"))
      = [⟨"pfsense_gateway_loss_ratio", ["fw", "WAN", "10.0.0.1", "8.8.8.8"], 0.03⟩] ∧
    (0.03 : Float64) ≠ (1 : Float64) / 100.0 := by
  decide

/-- C18 (amended): for every gateway record that is the last of the payload with its (name,
srcip, monitorip), the samples emitted under (target host, name, srcip, monitorip) carry
`Loss / 100` for gateway_loss_ratio, `Delay / 1000` for gateway_delay_seconds and
`StdDev / 1000` for gateway_stddev_seconds, the division being that of `float64`, and no
other value is emitted under these labels; loss 2.5 gives 0.025 and delay 15.3 gives
0.015300000000000001. -/
theorem GatewayCollector_conversions (lib : Lib) (dec : Decoders) (c : GatewayCollector)
    (target : Target) (pre : List GatewayStats) (gw : GatewayStats) (post : List GatewayStats)
    (hfetch : fetch lib target "/api/v2/status/gateways" dec.Gateways
      = some (pre ++ gw :: post))
    (hlast : ∀ x ∈ post,
      ¬ (x.Name = gw.Name ∧ x.SourceIP = gw.SourceIP ∧ x.MonitorIP = gw.MonitorIP)) :
    ((⟨c.gatewayLossRatio.Name, [target.Host, gw.Name, gw.SourceIP, gw.MonitorIP],
        gw.Loss / 100.0⟩ : Metric) ∈ (c.CollectWithTarget lib dec target).2) ∧
    ((⟨c.gatewayDelaySeconds.Name, [target.Host, gw.Name, gw.SourceIP, gw.MonitorIP],
        gw.Delay / 1000.0⟩ : Metric) ∈ (c.CollectWithTarget lib dec target).2) ∧
    ((⟨c.gatewayStdDevSeconds.Name, [target.Host, gw.Name, gw.SourceIP, gw.MonitorIP],
        gw.StdDev / 1000.0⟩ : Metric) ∈ (c.CollectWithTarget lib dec target).2) ∧
    (∀ m ∈ (c.CollectWithTarget lib dec target).1.gatewayLossRatio.Collect,
      m.LabelValues = [target.Host, gw.Name, gw.SourceIP, gw.MonitorIP] →
        m.Value = gw.Loss / 100.0) ∧
    (∀ m ∈ (c.CollectWithTarget lib dec target).1.gatewayDelaySeconds.Collect,
      m.LabelValues = [target.Host, gw.Name, gw.SourceIP, gw.MonitorIP] →
        m.Value = gw.Delay / 1000.0) ∧
    (∀ m ∈ (c.CollectWithTarget lib dec target).1.gatewayStdDevSeconds.Collect,
      m.LabelValues = [target.Host, gw.Name, gw.SourceIP, gw.MonitorIP] →
        m.Value = gw.StdDev / 1000.0) ∧
    (2.5 : Float64) / 100.0 = 0.025 ∧
    (15.3 : Float64) / 1000.0 = 0.015300000000000001 := by
  obtain ⟨hloss, hdelay, hstd, hout⟩ :=
    GatewayCollector.gauges_after lib dec c target (pre ++ gw :: post) hfetch
  have hlast' : ∀ x ∈ post,
      (fun g : GatewayStats => [target.Host, g.Name, g.SourceIP, g.MonitorIP]) x
        ≠ (fun g : GatewayStats => [target.Host, g.Name, g.SourceIP, g.MonitorIP]) gw := by
    intro x hx hk
    simp only [List.cons.injEq, and_true, true_and] at hk
    exact hlast x hx hk
  have hL := GaugeVec.child_of_last
    (fun g : GatewayStats => [target.Host, g.Name, g.SourceIP, g.MonitorIP])
    (fun g => g.Loss / 100.0) c.gatewayLossRatio pre gw post hlast'
  have hD := GaugeVec.child_of_last
    (fun g : GatewayStats => [target.Host, g.Name, g.SourceIP, g.MonitorIP])
    (fun g => g.Delay / 1000.0) c.gatewayDelaySeconds pre gw post hlast'
  have hS := GaugeVec.child_of_last
    (fun g : GatewayStats => [target.Host, g.Name, g.SourceIP, g.MonitorIP])
    (fun g => g.StdDev / 1000.0) c.gatewayStdDevSeconds pre gw post hlast'
  rw [← hloss] at hL
  rw [← hdelay] at hD
  rw [← hstd] at hS
  have hnL : (c.CollectWithTarget lib dec target).1.gatewayLossRatio.Name
      = c.gatewayLossRatio.Name := by
    rw [hloss, GaugeVec.Name_foldl_Set]; rfl
  have hnD : (c.CollectWithTarget lib dec target).1.gatewayDelaySeconds.Name
      = c.gatewayDelaySeconds.Name := by
    rw [hdelay, GaugeVec.Name_foldl_Set]; rfl
  have hnS : (c.CollectWithTarget lib dec target).1.gatewayStdDevSeconds.Name
      = c.gatewayStdDevSeconds.Name := by
    rw [hstd, GaugeVec.Name_foldl_Set]; rfl
  refine ⟨?_, ?_, ?_, ?_, ?_, ?_, by decide, by decide⟩
  · rw [hout]
    apply List.mem_append_left
    apply List.mem_append_left
    apply List.mem_append_left
    simp only [GaugeVec.Collect, List.mem_map]
    exact ⟨_, hL.1, by rw [hnL]⟩
  · rw [hout]
    apply List.mem_append_left
    apply List.mem_append_left
    apply List.mem_append_right
    simp only [GaugeVec.Collect, List.mem_map]
    exact ⟨_, hD.1, by rw [hnD]⟩
  · rw [hout]
    apply List.mem_append_left
    apply List.mem_append_right
    simp only [GaugeVec.Collect, List.mem_map]
    exact ⟨_, hS.1, by rw [hnS]⟩
  · intro m hm hlv
    simp only [GaugeVec.Collect, List.mem_map] at hm
    obtain ⟨p, hp, rfl⟩ := hm
    exact hL.2 p hp hlv
  · intro m hm hlv
    simp only [GaugeVec.Collect, List.mem_map] at hm
    obtain ⟨p, hp, rfl⟩ := hm
    exact hD.2 p hp hlv
  · intro m hm hlv
    simp only [GaugeVec.Collect, List.mem_map] at hm
    obtain ⟨p, hp, rfl⟩ := hm
    exact hS.2 p hp hlv

/-- Witness for C18 (amended): the two gateways of gateway_test.go; the loss of the first,
2.5, is emitted as 0.025 under its labels. -/
theorem GatewayCollector_conversions_witness :
    (⟨"pfsense_gateway_loss_ratio", ["fw", "WAN_DHCP", "192.168.1.1", "8.8.8.8"], 0.025⟩ : Metric)
      ∈ (GatewayCollector.CollectWithTarget
          (Lib.only "https://fw:443/api/v2/status/gateways" ⟨200, "ok", "", "", some "[]"⟩)
          (Decoders.gateways
            [⟨"WAN_DHCP", 2.5, 15.3, 3.2, "online", "none", "192.168.1.1", "8.8.8.8"⟩,
             ⟨"WAN2", 0.0, 12.8, 1.5, "offline", "down", "192.168.2.1", "8.8.4.4"⟩])
          NewGatewayCollector
          { Target.zero with Host := "fw", Port := 443, Scheme := "https" }).2 :=
  (GatewayCollector_conversions
    (Lib.only "https://fw:443/api/v2/status/gateways" ⟨200, "ok", "", "", some "[]"⟩)
    (Decoders.gateways
      [⟨"WAN_DHCP", 2.5, 15.3, 3.2, "online", "none", "192.168.1.1", "8.8.8.8"⟩,
       ⟨"WAN2", 0.0, 12.8, 1.5, "offline", "down", "192.168.2.1", "8.8.4.4"⟩])
    NewGatewayCollector
    { Target.zero with Host := "fw", Port := 443, Scheme := "https" }
    []
    ⟨"WAN_DHCP", 2.5, 15.3, 3.2, "online", "none", "192.168.1.1", "8.8.8.8"⟩
    [⟨"WAN2", 0.0, 12.8, 1.5, "offline", "down", "192.168.2.1", "8.8.4.4"⟩]
    (by decide) (by decide)).1

/-! ### The firewall-states collector -/

/-- After `Set`, the child under the label values set holds the value set, and no child under
these label values holds anything else. -/
theorem GaugeVec.child_of_Set (g : GaugeVec) (lvs : List String) (v : Float64) :
    (⟨g.Name, lvs, v⟩ : Metric) ∈ (g.Set lvs v).Collect ∧
    ∀ m ∈ (g.Set lvs v).Collect, m.LabelValues = lvs → m.Value = v := by
  constructor
  · simp only [GaugeVec.Collect, List.mem_map]
    exact ⟨(lvs, v), (GaugeVec.mem_children_Set g lvs v _).2 (Or.inl rfl),
      by rw [GaugeVec.Name_Set]⟩
  · intro m hm hlv
    simp only [GaugeVec.Collect, List.mem_map] at hm
    obtain ⟨p, hp, rfl⟩ := hm
    rcases (GaugeVec.mem_children_Set g lvs v p).1 hp with h | ⟨_, h⟩
    · rw [h]
    · exact absurd hlv h

/-- C19: for every decoded firewall-states payload the collector reports, under the target
host, as maximum `M` the `maximumStates` when that is non-zero and the `defaultMaximumStates`
when it is zero, the `currentStates` unchanged, and the usage ratio `currentStates / M`; no
other value is emitted under the host; for (0, 75000, 30000) the maximum is 75000 and the
ratio 0.4. -/
theorem FirewallStatesCollector_reports (lib : Lib) (dec : Decoders)
    (c : FirewallStatesCollector) (target : Target) (stats : FirewallStatesStats)
    (hfetch : fetch lib target "/api/v2/firewall/states/size" dec.FirewallStatesStats
      = some stats) :
    ((⟨c.firewallStatesMaximumCount.Name, [target.Host],
        if Float64.eq stats.MaximumStates 0 then stats.DefaultMaximumStates
        else stats.MaximumStates⟩ : Metric) ∈ (c.CollectWithTarget lib dec target).2) ∧
    ((⟨c.firewallStatesCurrentCount.Name, [target.Host], stats.CurrentStates⟩ : Metric)
        ∈ (c.CollectWithTarget lib dec target).2) ∧
    ((⟨c.firewallStatesUsageRatio.Name, [target.Host],
        stats.CurrentStates / (if Float64.eq stats.MaximumStates 0 then
          stats.DefaultMaximumStates else stats.MaximumStates)⟩ : Metric)
        ∈ (c.CollectWithTarget lib dec target).2) ∧
    (∀ m ∈ (c.CollectWithTarget lib dec target).1.firewallStatesMaximumCount.Collect,
      m.LabelValues = [target.Host] →
        m.Value = if Float64.eq stats.MaximumStates 0 then stats.DefaultMaximumStates
          else stats.MaximumStates) ∧
    (∀ m ∈ (c.CollectWithTarget lib dec target).1.firewallStatesCurrentCount.Collect,
      m.LabelValues = [target.Host] → m.Value = stats.CurrentStates) ∧
    (∀ m ∈ (c.CollectWithTarget lib dec target).1.firewallStatesUsageRatio.Collect,
      m.LabelValues = [target.Host] →
        m.Value = stats.CurrentStates / (if Float64.eq stats.MaximumStates 0 then
          stats.DefaultMaximumStates else stats.MaximumStates)) ∧
    (c.CollectWithTarget lib dec target).2
      = (c.CollectWithTarget lib dec target).1.firewallStatesCurrentCount.Collect
        ++ (c.CollectWithTarget lib dec target).1.firewallStatesMaximumCount.Collect
        ++ (c.CollectWithTarget lib dec target).1.firewallStatesUsageRatio.Collect ∧
    (FirewallStatesCollector.CollectWithTarget
        (Lib.only "https://fw:443/api/v2/firewall/states/size" ⟨200, "ok", "", "", some "x"⟩)
        (Decoders.firewallStates ⟨0, 75000, 30000⟩)
        NewFirewallStatesCollector
        { Target.zero with Host := "fw", Port := 443, Scheme := "https" }).2
      = [⟨"pfsense_firewall_states_current_count", ["fw"], 30000⟩,
         ⟨"pfsense_firewall_states_maximum_count", ["fw"], 75000⟩,
         ⟨"pfsense_firewall_states_usage_ratio", ["fw"], 0.4⟩] := by
  have hex : (FirewallStatesCollector.CollectWithTarget
        (Lib.only "https://fw:443/api/v2/firewall/states/size" ⟨200, "ok", "", "", some "x"⟩)
        (Decoders.firewallStates ⟨0, 75000, 30000⟩)
        NewFirewallStatesCollector
        { Target.zero with Host := "fw", Port := 443, Scheme := "https" }).2
      = [⟨"pfsense_firewall_states_current_count", ["fw"], 30000⟩,
         ⟨"pfsense_firewall_states_maximum_count", ["fw"], 75000⟩,
         ⟨"pfsense_firewall_states_usage_ratio", ["fw"], 0.4⟩] := by decide
  unfold FirewallStatesCollector.CollectWithTarget
  rw [hfetch]
  by_cases hz : Float64.eq stats.MaximumStates 0 = true
  · simp only [hz, if_true]
    have hM := GaugeVec.child_of_Set c.firewallStatesMaximumCount [target.Host]
      stats.DefaultMaximumStates
    have hC := GaugeVec.child_of_Set c.firewallStatesCurrentCount [target.Host]
      stats.CurrentStates
    have hR := GaugeVec.child_of_Set c.firewallStatesUsageRatio [target.Host]
      (stats.CurrentStates / stats.DefaultMaximumStates)
    refine ⟨?_, ?_, ?_, hM.2, hC.2, hR.2, trivial, hex⟩
    · exact List.mem_append_left _ (List.mem_append_right _ hM.1)
    · exact List.mem_append_left _ (List.mem_append_left _ hC.1)
    · exact List.mem_append_right _ hR.1
  · simp only [hz, if_false]
    have hM := GaugeVec.child_of_Set c.firewallStatesMaximumCount [target.Host]
      stats.MaximumStates
    have hC := GaugeVec.child_of_Set c.firewallStatesCurrentCount [target.Host]
      stats.CurrentStates
    have hR := GaugeVec.child_of_Set c.firewallStatesUsageRatio [target.Host]
      (stats.CurrentStates / stats.MaximumStates)
    refine ⟨?_, ?_, ?_, hM.2, hC.2, hR.2, trivial, hex⟩
    · exact List.mem_append_left _ (List.mem_append_right _ hM.1)
    · exact List.mem_append_left _ (List.mem_append_left _ hC.1)
    · exact List.mem_append_right _ hR.1

/-- Witness for C19: the payload of firewall_state_test.go with a maximum of its own,
(100000, 100000, 12345); the maximum reported is 100000. -/
theorem FirewallStatesCollector_reports_witness :
    (⟨"pfsense_firewall_states_maximum_count", ["fw"], 100000⟩ : Metric)
      ∈ (FirewallStatesCollector.CollectWithTarget
          (Lib.only "https://fw:443/api/v2/firewall/states/size" ⟨200, "ok", "", "", some "x"⟩)
          (Decoders.firewallStates ⟨100000, 100000, 12345⟩)
          NewFirewallStatesCollector
          { Target.zero with Host := "fw", Port := 443, Scheme := "https" }).2 :=
  (FirewallStatesCollector_reports
    (Lib.only "https://fw:443/api/v2/firewall/states/size" ⟨200, "ok", "", "", some "x"⟩)
    (Decoders.firewallStates ⟨100000, 100000, 12345⟩)
    NewFirewallStatesCollector
    { Target.zero with Host := "fw", Port := 443, Scheme := "https" }
    ⟨100000, 100000, 12345⟩ (by decide)).1

/-! ### Two calls in succession -/

/-- A quantity that no round of a loop changes is the same after the loop. -/
theorem foldl_inv {σ α τ : Type} (P : σ → τ) (step : σ → α → σ)
    (h : ∀ s a, P (step s a) = P s) (l : List α) (s : σ) :
    P (l.foldl step s) = P s := by
  induction l generalizing s with
  | nil => rfl
  | cons x xs ih => simp only [List.foldl_cons, ih, h]

/-- The samples of the gateway collector depend on its state through the reset state only. -/
theorem GatewayCollector_samples_congr (lib : Lib) (dec : Decoders) (c c' : GatewayCollector)
    (target : Target) (h : c.resetMetrics = c'.resetMetrics) :
    (c.CollectWithTarget lib dec target).2 = (c'.CollectWithTarget lib dec target).2 := by
  unfold GatewayCollector.CollectWithTarget
  cases fetch lib target "/api/v2/status/gateways" dec.Gateways with
  | none => rfl
  | some gateways => simp only [h]

/-- The reset state of the gateway collector is the same after a call as before. -/
theorem GatewayCollector_resetMetrics_after (lib : Lib) (dec : Decoders) (c : GatewayCollector)
    (target : Target) :
    (c.CollectWithTarget lib dec target).1.resetMetrics = c.resetMetrics := by
  unfold GatewayCollector.CollectWithTarget
  cases fetch lib target "/api/v2/status/gateways" dec.Gateways with
  | none => rfl
  | some gateways =>
    exact (foldl_inv GatewayCollector.resetMetrics _
      (fun _ _ => by simp only [GatewayCollector.resetMetrics, GaugeVec.Reset_Set]) _ _).trans rfl

/-- The samples of a call depend on the state before it through the reset state only. -/
theorem PackageCollector_samples_congr (lib : Lib) (dec : Decoders) (c c' : PackageCollector)
    (target : Target) (h : c.resetMetrics = c'.resetMetrics) :
    (c.CollectWithTarget lib dec target).2 = (c'.CollectWithTarget lib dec target).2 := by
  unfold PackageCollector.CollectWithTarget
  cases fetch lib target "/api/v2/system/packages" dec.Packages with
  | none => rfl
  | some payload => simp only [h]

/-- The reset state is the same after a call as before it. -/
theorem PackageCollector_resetMetrics_after (lib : Lib) (dec : Decoders) (c : PackageCollector)
    (target : Target) :
    (c.CollectWithTarget lib dec target).1.resetMetrics = c.resetMetrics := by
  unfold PackageCollector.CollectWithTarget
  cases fetch lib target "/api/v2/system/packages" dec.Packages with
  | none => rfl
  | some payload =>
    exact (foldl_inv PackageCollector.resetMetrics _
      (fun _ _ => by simp only [PackageCollector.resetMetrics, GaugeVec.Reset_Set]) _ _).trans rfl

/-- The samples of a call depend on the state before it through the reset gauges only. -/
theorem ServiceCollector_samples_congr (lib : Lib) (dec : Decoders) (c c' : ServiceCollector)
    (target : Target)
    (h0 : c.serviceUp.Reset = c'.serviceUp.Reset)
    (h1 : c.serviceEnabled.Reset = c'.serviceEnabled.Reset) :
    (c.CollectWithTarget lib dec target).2 = (c'.CollectWithTarget lib dec target).2 := by
  unfold ServiceCollector.CollectWithTarget
  cases fetch lib target "/api/v2/status/services" dec.Services with
  | none => rfl
  | some payload => simp only [h0, h1]

/-- Each gauge, once reset, is the same after a call as before it. -/
theorem ServiceCollector_Reset_after (lib : Lib) (dec : Decoders) (c : ServiceCollector)
    (target : Target) :
    (c.CollectWithTarget lib dec target).1.serviceUp.Reset = c.serviceUp.Reset ∧
    (c.CollectWithTarget lib dec target).1.serviceEnabled.Reset = c.serviceEnabled.Reset := by
  unfold ServiceCollector.CollectWithTarget
  cases fetch lib target "/api/v2/status/services" dec.Services with
  | none => exact ⟨rfl, rfl⟩
  | some payload =>
    exact ⟨(foldl_inv (fun s : ServiceCollector => s.serviceUp.Reset) _
        (fun _ _ => GaugeVec.Reset_Set _ _ _) _ _).trans rfl,
      (foldl_inv (fun s : ServiceCollector => s.serviceEnabled.Reset) _
        (fun _ _ => GaugeVec.Reset_Set _ _ _) _ _).trans rfl⟩

/-- The samples of a call depend on the state before it through the reset gauges only. -/
theorem FirewallScheduleCollector_samples_congr (lib : Lib) (dec : Decoders) (c c' : FirewallScheduleCollector)
    (target : Target)
    (h0 : c.firewallScheduleActive.Reset = c'.firewallScheduleActive.Reset) :
    (c.CollectWithTarget lib dec target).2 = (c'.CollectWithTarget lib dec target).2 := by
  unfold FirewallScheduleCollector.CollectWithTarget
  cases fetch lib target "/api/v2/firewall/schedules" dec.FirewallSchedules with
  | none => rfl
  | some payload => simp only [h0]

/-- Each gauge, once reset, is the same after a call as before it. -/
theorem FirewallScheduleCollector_Reset_after (lib : Lib) (dec : Decoders) (c : FirewallScheduleCollector)
    (target : Target) :
    (c.CollectWithTarget lib dec target).1.firewallScheduleActive.Reset = c.firewallScheduleActive.Reset := by
  unfold FirewallScheduleCollector.CollectWithTarget
  cases fetch lib target "/api/v2/firewall/schedules" dec.FirewallSchedules with
  | none => rfl
  | some payload =>
    exact (foldl_inv (fun s : FirewallScheduleCollector => s.firewallScheduleActive.Reset) _
      (fun _ _ => GaugeVec.Reset_Set _ _ _) _ _).trans rfl

/-- The samples of a call depend on the state before it through the reset gauges only. -/
theorem InterfaceCollector_samples_congr (lib : Lib) (dec : Decoders) (c c' : InterfaceCollector)
    (target : Target)
    (h0 : c.interfaceUp.Reset = c'.interfaceUp.Reset)
    (h1 : c.interfaceInErrsCount.Reset = c'.interfaceInErrsCount.Reset)
    (h2 : c.interfaceOutErrsCount.Reset = c'.interfaceOutErrsCount.Reset)
    (h3 : c.interfaceCollisionsCount.Reset = c'.interfaceCollisionsCount.Reset)
    (h4 : c.interfaceInBytesCount.Reset = c'.interfaceInBytesCount.Reset)
    (h5 : c.interfaceInBytesPassCount.Reset = c'.interfaceInBytesPassCount.Reset)
    (h6 : c.interfaceOutBytesCount.Reset = c'.interfaceOutBytesCount.Reset)
    (h7 : c.interfaceOutBytesPassCount.Reset = c'.interfaceOutBytesPassCount.Reset)
    (h8 : c.interfaceInPktsCount.Reset = c'.interfaceInPktsCount.Reset)
    (h9 : c.interfaceInPktsPassCount.Reset = c'.interfaceInPktsPassCount.Reset)
    (h10 : c.interfaceOutPktsCount.Reset = c'.interfaceOutPktsCount.Reset)
    (h11 : c.interfaceOutPktsPassCount.Reset = c'.interfaceOutPktsPassCount.Reset) :
    (c.CollectWithTarget lib dec target).2 = (c'.CollectWithTarget lib dec target).2 := by
  unfold InterfaceCollector.CollectWithTarget
  cases fetch lib target "/api/v2/status/interfaces" dec.Interfaces with
  | none => rfl
  | some payload => simp only [h0, h1, h2, h3, h4, h5, h6, h7, h8, h9, h10, h11]

/-- Each gauge, once reset, is the same after a call as before it. -/
theorem InterfaceCollector_Reset_after (lib : Lib) (dec : Decoders) (c : InterfaceCollector)
    (target : Target) :
    (c.CollectWithTarget lib dec target).1.interfaceUp.Reset = c.interfaceUp.Reset ∧
    (c.CollectWithTarget lib dec target).1.interfaceInErrsCount.Reset = c.interfaceInErrsCount.Reset ∧
    (c.CollectWithTarget lib dec target).1.interfaceOutErrsCount.Reset = c.interfaceOutErrsCount.Reset ∧
    (c.CollectWithTarget lib dec target).1.interfaceCollisionsCount.Reset = c.interfaceCollisionsCount.Reset ∧
    (c.CollectWithTarget lib dec target).1.interfaceInBytesCount.Reset = c.interfaceInBytesCount.Reset ∧
    (c.CollectWithTarget lib dec target).1.interfaceInBytesPassCount.Reset = c.interfaceInBytesPassCount.Reset ∧
    (c.CollectWithTarget lib dec target).1.interfaceOutBytesCount.Reset = c.interfaceOutBytesCount.Reset ∧
    (c.CollectWithTarget lib dec target).1.interfaceOutBytesPassCount.Reset = c.interfaceOutBytesPassCount.Reset ∧
    (c.CollectWithTarget lib dec target).1.interfaceInPktsCount.Reset = c.interfaceInPktsCount.Reset ∧
    (c.CollectWithTarget lib dec target).1.interfaceInPktsPassCount.Reset = c.interfaceInPktsPassCount.Reset ∧
    (c.CollectWithTarget lib dec target).1.interfaceOutPktsCount.Reset = c.interfaceOutPktsCount.Reset ∧
    (c.CollectWithTarget lib dec target).1.interfaceOutPktsPassCount.Reset = c.interfaceOutPktsPassCount.Reset := by
  unfold InterfaceCollector.CollectWithTarget
  cases fetch lib target "/api/v2/status/interfaces" dec.Interfaces with
  | none => exact ⟨rfl, rfl, rfl, rfl, rfl, rfl, rfl, rfl, rfl, rfl, rfl, rfl⟩
  | some payload =>
    exact ⟨(foldl_inv (fun s : InterfaceCollector => s.interfaceUp.Reset) _
        (fun _ _ => GaugeVec.Reset_Set _ _ _) _ _).trans rfl,
      (foldl_inv (fun s : InterfaceCollector => s.interfaceInErrsCount.Reset) _
        (fun _ _ => GaugeVec.Reset_Set _ _ _) _ _).trans rfl,
      (foldl_inv (fun s : InterfaceCollector => s.interfaceOutErrsCount.Reset) _
        (fun _ _ => GaugeVec.Reset_Set _ _ _) _ _).trans rfl,
      (foldl_inv (fun s : InterfaceCollector => s.interfaceCollisionsCount.Reset) _
        (fun _ _ => GaugeVec.Reset_Set _ _ _) _ _).trans rfl,
      (foldl_inv (fun s : InterfaceCollector => s.interfaceInBytesCount.Reset) _
        (fun _ _ => GaugeVec.Reset_Set _ _ _) _ _).trans rfl,
      (foldl_inv (fun s : InterfaceCollector => s.interfaceInBytesPassCount.Reset) _
        (fun _ _ => GaugeVec.Reset_Set _ _ _) _ _).trans rfl,
      (foldl_inv (fun s : InterfaceCollector => s.interfaceOutBytesCount.Reset) _
        (fun _ _ => GaugeVec.Reset_Set _ _ _) _ _).trans rfl,
      (foldl_inv (fun s : InterfaceCollector => s.interfaceOutBytesPassCount.Reset) _
        (fun _ _ => GaugeVec.Reset_Set _ _ _) _ _).trans rfl,
      (foldl_inv (fun s : InterfaceCollector => s.interfaceInPktsCount.Reset) _
        (fun _ _ => GaugeVec.Reset_Set _ _ _) _ _).trans rfl,
      (foldl_inv (fun s : InterfaceCollector => s.interfaceInPktsPassCount.Reset) _
        (fun _ _ => GaugeVec.Reset_Set _ _ _) _ _).trans rfl,
      (foldl_inv (fun s : InterfaceCollector => s.interfaceOutPktsCount.Reset) _
        (fun _ _ => GaugeVec.Reset_Set _ _ _) _ _).trans rfl,
      (foldl_inv (fun s : InterfaceCollector => s.interfaceOutPktsPassCount.Reset) _
        (fun _ _ => GaugeVec.Reset_Set _ _ _) _ _).trans rfl⟩

/-- The samples of a call depend on the state before it through the reset state only. -/
theorem RESTAPICollector_samples_congr (lib : Lib) (dec : Decoders) (c c' : RESTAPICollector)
    (target : Target) (h : c.resetMetrics = c'.resetMetrics) :
    (c.CollectWithTarget lib dec target).2 = (c'.CollectWithTarget lib dec target).2 := by
  unfold RESTAPICollector.CollectWithTarget
  cases fetch lib target "/api/v2/system/restapi/version" dec.RESTAPIStats with
  | none => rfl
  | some payload => simp only [h]

/-- The reset state is the same after a call as before it. -/
theorem RESTAPICollector_resetMetrics_after (lib : Lib) (dec : Decoders) (c : RESTAPICollector)
    (target : Target) :
    (c.CollectWithTarget lib dec target).1.resetMetrics = c.resetMetrics := by
  unfold RESTAPICollector.CollectWithTarget
  cases fetch lib target "/api/v2/system/restapi/version" dec.RESTAPIStats with
  | none => rfl
  | some payload => simp only [RESTAPICollector.resetMetrics, GaugeVec.Reset_Set]; rfl

/-- The samples of a call depend on the state before it through the reset state only. -/
theorem CARPCollector_samples_congr (lib : Lib) (dec : Decoders) (c c' : CARPCollector)
    (target : Target) (h : c.resetMetrics = c'.resetMetrics) :
    (c.CollectWithTarget lib dec target).2 = (c'.CollectWithTarget lib dec target).2 := by
  unfold CARPCollector.CollectWithTarget
  cases fetch lib target "/api/v2/status/carp" dec.CARPStats with
  | none => rfl
  | some payload => simp only [h]

/-- The reset state is the same after a call as before it, also when the second fetch fails. -/
theorem CARPCollector_resetMetrics_after (lib : Lib) (dec : Decoders) (c : CARPCollector)
    (target : Target) :
    (c.CollectWithTarget lib dec target).1.resetMetrics = c.resetMetrics := by
  unfold CARPCollector.CollectWithTarget
  cases fetch lib target "/api/v2/status/carp" dec.CARPStats with
  | none => rfl
  | some payload =>
    cases fetch lib target "/api/v2/firewall/virtual_ips?mode=carp" dec.CARPVirtualIPs with
    | none => simp only [CARPCollector.resetMetrics, GaugeVec.Reset_Set]; rfl
    | some virtualIPs =>
      refine (foldl_inv CARPCollector.resetMetrics _ (fun _ _ => ?_) _ _).trans ?_
      · simp only [CARPCollector.resetMetrics, GaugeVec.Reset_Set]
      · simp only [CARPCollector.resetMetrics, GaugeVec.Reset_Set]; rfl

/-- The system collector sends the same samples the second time. -/
theorem SystemCollector_Collect_twice (lib : Lib) (dec : Decoders) (c : SystemCollector)
    (target : Target) :
    ((c.CollectWithTarget lib dec target).1.CollectWithTarget lib dec target).2
      = (c.CollectWithTarget lib dec target).2 := by
  unfold SystemCollector.CollectWithTarget
  cases fetch lib target "/api/v2/status/system" dec.SystemStats with
  | none => rfl
  | some stats => simp only [GaugeVec.Set_Set_same]

/-- The firewall-states collector sends the same samples the second time. -/
theorem FirewallStatesCollector_Collect_twice (lib : Lib) (dec : Decoders)
    (c : FirewallStatesCollector) (target : Target) :
    ((c.CollectWithTarget lib dec target).1.CollectWithTarget lib dec target).2
      = (c.CollectWithTarget lib dec target).2 := by
  unfold FirewallStatesCollector.CollectWithTarget
  cases fetch lib target "/api/v2/firewall/states/size" dec.FirewallStatesStats with
  | none => rfl
  | some stats => simp only [GaugeVec.Set_Set_same]

/-- The login-protection collector sends the same samples the second time. -/
theorem LoginProtectionCollector_Collect_twice (lib : Lib) (dec : Decoders)
    (c : LoginProtectionCollector) (target : Target) :
    ((c.CollectWithTarget lib dec target).1.CollectWithTarget lib dec target).2
      = (c.CollectWithTarget lib dec target).2 := by
  unfold LoginProtectionCollector.CollectWithTarget
  cases fetch lib target "/api/v2/diagnostics/table?id=sshguard" dec.LoginProtectionStats with
  | none => rfl
  | some stats =>
    have hip : ∀ (l : List String) (s : LoginProtectionCollector),
        (l.foldl (fun (c : LoginProtectionCollector) entry =>
          { c with loginProtectionBlockedIP := c.loginProtectionBlockedIP.Set [target.Host, entry] 1 })
          s).loginProtectionBlockedIP
        = l.foldl (fun g entry => g.Set [target.Host, entry] 1) s.loginProtectionBlockedIP :=
      fun l s => foldl_proj _ _ _ (fun _ _ => rfl) l s
    have hcount : ∀ (l : List String) (s : LoginProtectionCollector),
        (l.foldl (fun (c : LoginProtectionCollector) entry =>
          { c with loginProtectionBlockedIP := c.loginProtectionBlockedIP.Set [target.Host, entry] 1 })
          s).loginProtectionBlockedIPCount
        = s.loginProtectionBlockedIPCount := by
      intro l s
      refine foldl_inv (fun s : LoginProtectionCollector => s.loginProtectionBlockedIPCount) _
        ?_ l s
      intro _ _
      rfl
    simp only [hip, hcount, GaugeVec.Reset_foldl_Set, GaugeVec.Set_Set_same]
    rfl

/-- Claim C20.  Idempotence: for every concrete collector, in whatever state, every target and
every upstream behaviour (the library and the decoders, the same at both calls), the call of
`CollectWithTarget` that follows a call of `CollectWithTarget` with the same target sends the
same samples, name, label values and value, as the first one did: nothing accumulates. -/
theorem CollectWithTarget_idempotent (lib : Lib) (dec : Decoders) (k : Collector)
    (target : Target) :
    ((k.CollectWithTarget lib dec target).1.CollectWithTarget lib dec target).2
      = (k.CollectWithTarget lib dec target).2 := by
  cases k with
  | carp c =>
    exact CARPCollector_samples_congr lib dec _ c target
      (CARPCollector_resetMetrics_after lib dec c target)
  | firewallSchedule c =>
    exact FirewallScheduleCollector_samples_congr lib dec _ c target
      (FirewallScheduleCollector_Reset_after lib dec c target)
  | firewallStates c => exact FirewallStatesCollector_Collect_twice lib dec c target
  | gateway c =>
    exact GatewayCollector_samples_congr lib dec _ c target
      (GatewayCollector_resetMetrics_after lib dec c target)
  | interface c =>
    obtain ⟨h0, h1, h2, h3, h4, h5, h6, h7, h8, h9, h10, h11⟩ :=
      InterfaceCollector_Reset_after lib dec c target
    exact InterfaceCollector_samples_congr lib dec _ c target h0 h1 h2 h3 h4 h5 h6 h7 h8 h9 h10 h11
  | loginProtection c => exact LoginProtectionCollector_Collect_twice lib dec c target
  | package c =>
    exact PackageCollector_samples_congr lib dec _ c target
      (PackageCollector_resetMetrics_after lib dec c target)
  | restapi c =>
    exact RESTAPICollector_samples_congr lib dec _ c target
      (RESTAPICollector_resetMetrics_after lib dec c target)
  | service c =>
    obtain ⟨h0, h1⟩ := ServiceCollector_Reset_after lib dec c target
    exact ServiceCollector_samples_congr lib dec _ c target h0 h1
  | system c => exact SystemCollector_Collect_twice lib dec c target

/-! ### The failures of `executeAndParse` -/

/-- Claim C23.  `executeAndParse` ends in exactly one of five ways, tried in this order: the
transport fails (`error making request`), the body cannot be read (`error reading response
body`), the envelope does not decode (`error unmarshalling response body`), the embedded code
is not 200 (`received non-200 status code`), or the envelope is returned.  At most one of the
four failures holds; the envelope is non-nil exactly when none holds and the error is non-nil
exactly when one holds; with an error the envelope is nil; and no two of the four messages
can be the same text. -/
theorem executeAndParse_failures (lib : Lib) (client : HttpClient) (req : HttpRequest) :
    ((∃ err, lib.Do client req = .error err ∧
        executeAndParse lib client req = (none, some ("error making request: " ++ err))) ∨
     (∃ resp err, lib.Do client req = .ok resp ∧ resp.Body = .error err ∧
        executeAndParse lib client req
          = (none, some ("error reading response body: " ++ err))) ∨
     (∃ resp body err, lib.Do client req = .ok resp ∧ resp.Body = .ok body ∧
        lib.Unmarshal body = .error err ∧
        executeAndParse lib client req
          = (none, some ("error unmarshalling response body: " ++ err))) ∨
     (∃ resp body response, lib.Do client req = .ok resp ∧ resp.Body = .ok body ∧
        lib.Unmarshal body = .ok response ∧ response.Code ≠ 200 ∧
        executeAndParse lib client req
          = (none, some ("received non-200 status code " ++ toString response.Code ++ ": "
              ++ response.Message))) ∨
     (∃ resp body response, lib.Do client req = .ok resp ∧ resp.Body = .ok body ∧
        lib.Unmarshal body = .ok response ∧ response.Code = 200 ∧
        executeAndParse lib client req = (some response, none))) ∧
    ([transportFails lib client req, bodyReadFails lib client req,
        envelopeDecodeFails lib client req, embeddedCodeFails lib client req].count true ≤ 1) ∧
    ((executeAndParse lib client req).1 ≠ none ↔
      [transportFails lib client req, bodyReadFails lib client req,
        envelopeDecodeFails lib client req, embeddedCodeFails lib client req].count true = 0) ∧
    ((executeAndParse lib client req).2 ≠ none ↔
      [transportFails lib client req, bodyReadFails lib client req,
        envelopeDecodeFails lib client req, embeddedCodeFails lib client req].count true = 1) ∧
    ((executeAndParse lib client req).1 = none ∨ (executeAndParse lib client req).2 = none) ∧
    (∀ a b : String, "error making request" ++ a ≠ "error reading response body" ++ b) ∧
    (∀ a b : String, "error making request" ++ a ≠ "error unmarshalling response body" ++ b) ∧
    (∀ a b : String, "error making request" ++ a ≠ "received non-200 status code" ++ b) ∧
    (∀ a b : String,
      "error reading response body" ++ a ≠ "error unmarshalling response body" ++ b) ∧
    (∀ a b : String, "error reading response body" ++ a ≠ "received non-200 status code" ++ b) ∧
    (∀ a b : String,
      "error unmarshalling response body" ++ a ≠ "received non-200 status code" ++ b) := by
  have hne : ∀ (p q a b : String), (∀ x y : List Char, p.data ++ x ≠ q.data ++ y) →
      p ++ a ≠ q ++ b := by
    intro p q a b hpq h
    have h2 := congrArg String.data h
    simp only [String.data_append] at h2
    exact hpq _ _ h2
  refine ⟨?_, ?_, ?_, ?_, ?_, ?_, ?_, ?_, ?_, ?_, ?_⟩
  case refine_6 => exact fun a b => hne _ _ a b (by simp)
  case refine_7 => exact fun a b => hne _ _ a b (by simp)
  case refine_8 => exact fun a b => hne _ _ a b (by simp)
  case refine_9 => exact fun a b => hne _ _ a b (by simp)
  case refine_10 => exact fun a b => hne _ _ a b (by simp)
  case refine_11 => exact fun a b => hne _ _ a b (by simp)
  all_goals
    cases hDo : lib.Do client req with
    | error err =>
      simp [executeAndParse, transportFails, bodyReadFails, envelopeDecodeFails,
        embeddedCodeFails, hDo]
    | ok resp =>
      cases hBody : resp.Body with
      | error err =>
        simp [executeAndParse, transportFails, bodyReadFails, envelopeDecodeFails,
          embeddedCodeFails, hDo, hBody]
      | ok body =>
        cases hJson : lib.Unmarshal body with
        | error err =>
          simp [executeAndParse, transportFails, bodyReadFails, envelopeDecodeFails,
            embeddedCodeFails, hDo, hBody, hJson]
        | ok response =>
          by_cases hcode : response.Code = 200
          · simp [executeAndParse, transportFails, bodyReadFails, envelopeDecodeFails,
              embeddedCodeFails, hDo, hBody, hJson, hcode]
          · simp [executeAndParse, transportFails, bodyReadFails, envelopeDecodeFails,
              embeddedCodeFails, hDo, hBody, hJson, hcode]

/-! ### The errors of `Target.Validate` -/

/-- The error of `Validate` is the first error among its checks, each made on the receiver as
it was given. -/
theorem Validate_error_eq (t : Target) :
    t.Validate.2 =
      [t.validateHostAndPort, t.validateScheme.2, t.validateAuth, t.validateTimeout.2,
        t.validateValidateCert, t.ValidateMaxCollectorConcurrency.2,
        t.ValidateMaxCollectorBufferSize.2].findSome? id := by
  obtain ⟨ho, p, sc, am, u, pw, k, vc, tm, cs, mc, mb⟩ := t
  unfold Target.Validate
  cases hhp : Target.validateHostAndPort ⟨ho, p, sc, am, u, pw, k, vc, tm, cs, mc, mb⟩ with
  | some e => simp [List.findSome?]
  | none =>
    simp only [List.findSome?, id]
    rw [validateScheme_eq]
    by_cases hsc : (if sc = "" then "https" else sc) ≠ "http"
        ∧ (if sc = "" then "https" else sc) ≠ "https"
    · simp [hsc]
    · simp only [hsc, if_false]
      have hau' : Target.validateAuth
            ⟨ho, p, if sc = "" then "https" else sc, am, u, pw, k, vc, tm, cs, mc, mb⟩
          = Target.validateAuth ⟨ho, p, sc, am, u, pw, k, vc, tm, cs, mc, mb⟩ := rfl
      cases hau : Target.validateAuth ⟨ho, p, sc, am, u, pw, k, vc, tm, cs, mc, mb⟩ with
      | some e => simp [hau', hau]
      | none =>
        simp only [hau', hau]
        rw [validateTimeout_eq, validateTimeout_eq]
        by_cases htm : (if tm = 0 then 30 else tm) ≤ 5 ∨ (if tm = 0 then 30 else tm) ≥ 360
        · simp [htm]
        · simp only [htm, if_false, Target.validateValidateCert]
          rw [ValidateMaxCollectorConcurrency_eq, ValidateMaxCollectorConcurrency_eq]
          by_cases hmc : (if mc = 0 then 4 else mc) < 1 ∨ (if mc = 0 then 4 else mc) > 10
          · simp [hmc]
          · simp only [hmc, if_false]
            rw [ValidateMaxCollectorBufferSize_eq, ValidateMaxCollectorBufferSize_eq]
            by_cases hmb : (if mb = 0 then 100 else mb) < 10
            · simp [hmb]
            · simp [hmb]

/-- Claim C24.  `Target.Validate` returns an error exactly when one of its checks fails, and
the error is that of the first failing check in the order host and port, scheme, auth,
timeout, certificate flag (which never fails), concurrency, buffer size.  An empty `Host`
gives `Target 'host' is a required field` whatever the other fields are; with a non-empty
`Host`, a port outside 1..65535 gives the port error.  With an error the returned target is
nil, and without one it is the receiver. -/
theorem Validate_error_spec (t : Target) :
    (t.Validate.2 =
      [t.validateHostAndPort, t.validateScheme.2, t.validateAuth, t.validateTimeout.2,
        t.validateValidateCert, t.ValidateMaxCollectorConcurrency.2,
        t.ValidateMaxCollectorBufferSize.2].findSome? id) ∧
    (t.Validate.2 ≠ none ↔
      t.validateHostAndPort ≠ none ∨ t.validateScheme.2 ≠ none ∨ t.validateAuth ≠ none
        ∨ t.validateTimeout.2 ≠ none ∨ t.ValidateMaxCollectorConcurrency.2 ≠ none
        ∨ t.ValidateMaxCollectorBufferSize.2 ≠ none) ∧
    ({ t with Host := "" }.Validate.2 = some "Target 'host' is a required field") ∧
    (t.Host ≠ "" → (t.Port < 1 ∨ t.Port > 65535) →
      t.Validate.2
        = some ("Target 'port' must be between 1 and 65535 for host '" ++ t.Host ++ "'")) ∧
    (t.Validate.2 ≠ none → Target.Validate.returned t = none) ∧
    (t.Validate.2 = none → Target.Validate.returned t = some t.Validate.1) := by
  refine ⟨Validate_error_eq t, ?_, ?_, ?_, ?_, ?_⟩
  · rw [Validate_error_eq]
    cases h1 : t.validateHostAndPort <;> cases h2 : t.validateScheme.2 <;>
      cases h3 : t.validateAuth <;> cases h4 : t.validateTimeout.2 <;>
      cases h5 : t.ValidateMaxCollectorConcurrency.2 <;>
      cases h6 : t.ValidateMaxCollectorBufferSize.2 <;>
      simp [List.findSome?, Target.validateValidateCert]
  · rw [Validate_error_eq]
    simp [List.findSome?, Target.validateHostAndPort]
  · intro hhost hport
    rw [Validate_error_eq]
    simp [List.findSome?, Target.validateHostAndPort, hhost, hport]
  · intro h
    unfold Target.Validate.returned
    cases hv : t.Validate with
    | mk t' e =>
      cases e with
      | none => rw [hv] at h; exact absurd rfl h
      | some e => rfl
  · intro h
    unfold Target.Validate.returned
    cases hv : t.Validate with
    | mk t' e =>
      cases e with
      | none => rfl
      | some e => rw [hv] at h; cases h

/-- Witness for C24: the target of the test case `invalid_port` (host test.com, port 70000)
gets the port error. -/
theorem Validate_error_spec_witness :
    (Target.Validate
        { Target.zero with Host := "test.com", Port := 70000, Scheme := "https",
                           AuthMethod := "basic", Username := "user", Password := "pass" }).2
      = some "Target 'port' must be between 1 and 65535 for host 'test.com'" :=
  (Validate_error_spec
      { Target.zero with Host := "test.com", Port := 70000, Scheme := "https",
                         AuthMethod := "basic", Username := "user", Password := "pass" }
    ).2.2.2.1 (by decide) (by decide)

/-- Claim C25.  `validateAuth` succeeds exactly for `basic` with a user name and a password
both non-empty, or `key` with a non-empty key.  Every other `AuthMethod`, the empty string
included, is rejected with the error that begins
`'auth_method' must be 'basic' or 'key'` (the code appends ` for host '<Host>'`).  The key is
ignored under `basic`, and the user name and the password are ignored under `key`. -/
theorem validateAuth_spec (t : Target) :
    (t.validateAuth = none ↔
      (t.AuthMethod = "basic" ∧ t.Username ≠ "" ∧ t.Password ≠ "")
        ∨ (t.AuthMethod = "key" ∧ t.Key ≠ "")) ∧
    (t.AuthMethod ≠ "basic" → t.AuthMethod ≠ "key" →
      t.validateAuth
        = some ("'auth_method' must be 'basic' or 'key' for host '" ++ t.Host ++ "'")) ∧
    ({ t with AuthMethod := "" }.validateAuth
        = some ("'auth_method' must be 'basic' or 'key' for host '" ++ t.Host ++ "'")) ∧
    ("'auth_method' must be 'basic' or 'key' for host '"
        = "'auth_method' must be 'basic' or 'key'" ++ " for host '") ∧
    (t.AuthMethod = "basic" → ∀ key : String, { t with Key := key }.validateAuth = t.validateAuth) ∧
    (t.AuthMethod = "key" → ∀ username password : String,
      { t with Username := username, Password := password }.validateAuth = t.validateAuth) := by
  refine ⟨validateAuth_eq_none_iff t, ?_, ?_, by decide, ?_, ?_⟩
  · intro hb hk
    simp [Target.validateAuth, hb, hk]
  · simp [Target.validateAuth]
  · intro hb key
    simp [Target.validateAuth, hb]
  · intro hk username password
    have hb : ¬ t.AuthMethod = "basic" := by rw [hk]; decide
    simp [Target.validateAuth, hk, hb]

/-- Witness for C25: the target of the test case with the method `invalid` is rejected. -/
theorem validateAuth_spec_witness :
    Target.validateAuth { Target.zero with Host := "test.com", Port := 443, AuthMethod := "invalid" }
      = some "'auth_method' must be 'basic' or 'key' for host 'test.com'" :=
  (validateAuth_spec { Target.zero with Host := "test.com", Port := 443, AuthMethod := "invalid" }
    ).2.1 (by decide) (by decide)

/-! ### The firewall-states collector when no maximum is known -/

/-- A value that `==` finds equal to 0 is one of the two zeros. -/
theorem Float64.isZero_of_eq_zero (x : Float64) (h : Float64.eq x 0 = true) :
    x.isZero = true := by
  unfold Float64.eq at h
  simp only [Bool.and_eq_true, Bool.or_eq_true, decide_eq_true_eq] at h
  rcases h.2 with h0 | h0
  · rw [h0]; decide
  · exact h0.1

/-- A zero is neither not-a-number nor infinite. -/
theorem Float64.finite_of_isZero (x : Float64) (h : x.isZero = true) :
    x.isNaN = false ∧ x.isInf = false := by
  simp only [Float64.isZero, Float64.isNaN, Float64.isInf, decide_eq_true_eq,
    decide_eq_false_iff_not] at h ⊢
  omega

/-- Division by a zero: zero by zero is not-a-number, and every other number by zero is an
infinity. -/
theorem Float64.div_zero (x y : Float64) (hy : y.isZero = true) :
    (x.isZero = true → x / y = Float64.nan) ∧
    (x.isZero = false → x.isNaN = false → x / y = Float64.inf (x.sign != y.sign)) := by
  obtain ⟨hyn, hyi⟩ := Float64.finite_of_isZero y hy
  constructor
  · intro hx
    obtain ⟨hxn, hxi⟩ := Float64.finite_of_isZero x hx
    show Float64.div x y = _
    simp [Float64.div, hyn, hyi, hxn, hxi, hx, hy]
  · intro hx hxn
    show Float64.div x y = _
    by_cases hxi : x.isInf = true
    · simp [Float64.div, hyn, hyi, hxn, hxi, hy]
    · simp [Float64.div, hyn, hyi, hxn, hxi, hx, hy]

/-- Claim C26.  When `maximumStates` and `defaultMaximumStates` of a decoded firewall-states
payload are both zero, the division is not guarded: the usage-ratio sample is still emitted
under the target host, with the value `currentStates / 0`, which is not-a-number when
`currentStates` is zero too and an infinity for every other number; nothing is skipped and
the call has no error to report.  For (0, 0, 0) and (0, 0, 30000) the three samples are
listed. -/
theorem FirewallStatesCollector_zero_maximum (lib : Lib) (dec : Decoders)
    (c : FirewallStatesCollector) (target : Target) (stats : FirewallStatesStats)
    (hfetch : fetch lib target "/api/v2/firewall/states/size" dec.FirewallStatesStats
      = some stats)
    (hmax : Float64.eq stats.MaximumStates 0 = true)
    (hdef : Float64.eq stats.DefaultMaximumStates 0 = true) :
    ((⟨c.firewallStatesUsageRatio.Name, [target.Host],
        stats.CurrentStates / stats.DefaultMaximumStates⟩ : Metric)
        ∈ (c.CollectWithTarget lib dec target).2) ∧
    (Float64.eq stats.CurrentStates 0 = true →
      stats.CurrentStates / stats.DefaultMaximumStates = Float64.nan) ∧
    (stats.CurrentStates.isZero = false → stats.CurrentStates.isNaN = false →
      stats.CurrentStates / stats.DefaultMaximumStates
        = Float64.inf (stats.CurrentStates.sign != stats.DefaultMaximumStates.sign)) ∧
    (FirewallStatesCollector.CollectWithTarget
        (Lib.only "https://fw:443/api/v2/firewall/states/size" ⟨200, "ok", "", "", some "x"⟩)
        (Decoders.firewallStates ⟨0, 0, 0⟩)
        NewFirewallStatesCollector
        { Target.zero with Host := "fw", Port := 443, Scheme := "https" }).2
      = [⟨"pfsense_firewall_states_current_count", ["fw"], 0⟩,
         ⟨"pfsense_firewall_states_maximum_count", ["fw"], 0⟩,
         ⟨"pfsense_firewall_states_usage_ratio", ["fw"], Float64.nan⟩] ∧
    (FirewallStatesCollector.CollectWithTarget
        (Lib.only "https://fw:443/api/v2/firewall/states/size" ⟨200, "ok", "", "", some "x"⟩)
        (Decoders.firewallStates ⟨0, 0, 30000⟩)
        NewFirewallStatesCollector
        { Target.zero with Host := "fw", Port := 443, Scheme := "https" }).2
      = [⟨"pfsense_firewall_states_current_count", ["fw"], 30000⟩,
         ⟨"pfsense_firewall_states_maximum_count", ["fw"], 0⟩,
         ⟨"pfsense_firewall_states_usage_ratio", ["fw"], Float64.inf false⟩] := by
  have hy := Float64.isZero_of_eq_zero _ hdef
  refine ⟨?_, ?_, (Float64.div_zero _ _ hy).2, by decide, by decide⟩
  · unfold FirewallStatesCollector.CollectWithTarget
    rw [hfetch]
    simp only [hmax, if_true]
    exact List.mem_append_right _ (GaugeVec.child_of_Set c.firewallStatesUsageRatio
      [target.Host] (stats.CurrentStates / stats.DefaultMaximumStates)).1
  · intro hx
    exact (Float64.div_zero _ _ hy).1 (Float64.isZero_of_eq_zero _ hx)

/-- Witness for C26: the payload (0, 0, 0); the usage-ratio sample is emitted and its value is
not-a-number. -/
theorem FirewallStatesCollector_zero_maximum_witness :
    ((⟨"pfsense_firewall_states_usage_ratio", ["fw"], (0 : Float64) / 0⟩ : Metric)
      ∈ (FirewallStatesCollector.CollectWithTarget
          (Lib.only "https://fw:443/api/v2/firewall/states/size" ⟨200, "ok", "", "", some "x"⟩)
          (Decoders.firewallStates ⟨0, 0, 0⟩)
          NewFirewallStatesCollector
          { Target.zero with Host := "fw", Port := 443, Scheme := "https" }).2) ∧
    (0 : Float64) / 0 = Float64.nan :=
  ⟨(FirewallStatesCollector_zero_maximum
      (Lib.only "https://fw:443/api/v2/firewall/states/size" ⟨200, "ok", "", "", some "x"⟩)
      (Decoders.firewallStates ⟨0, 0, 0⟩)
      NewFirewallStatesCollector
      { Target.zero with Host := "fw", Port := 443, Scheme := "https" }
      ⟨0, 0, 0⟩ (by decide) (by decide) (by decide)).1,
   (FirewallStatesCollector_zero_maximum
      (Lib.only "https://fw:443/api/v2/firewall/states/size" ⟨200, "ok", "", "", some "x"⟩)
      (Decoders.firewallStates ⟨0, 0, 0⟩)
      NewFirewallStatesCollector
      { Target.zero with Host := "fw", Port := 443, Scheme := "https" }
      ⟨0, 0, 0⟩ (by decide) (by decide) (by decide)).2.1 (by decide)⟩

/-! ### `Target.Validate` on a validated target, and `ValidateTargets` -/

/-- A target on which `Validate` succeeds comes back within the bounds of every check. -/
theorem Validate_within_bounds (t : Target) (h : t.Validate.2 = none) :
    t.Validate.1.Host ≠ "" ∧
    1 ≤ t.Validate.1.Port ∧ t.Validate.1.Port ≤ 65535 ∧
    (t.Validate.1.Scheme = "http" ∨ t.Validate.1.Scheme = "https") ∧
    ((t.Validate.1.AuthMethod = "basic" ∧ t.Validate.1.Username ≠ ""
        ∧ t.Validate.1.Password ≠ "")
      ∨ (t.Validate.1.AuthMethod = "key" ∧ t.Validate.1.Key ≠ "")) ∧
    6 ≤ t.Validate.1.Timeout ∧ t.Validate.1.Timeout ≤ 359 ∧
    1 ≤ t.Validate.1.MaxCollectorConcurrency ∧ t.Validate.1.MaxCollectorConcurrency ≤ 10 ∧
    10 ≤ t.Validate.1.MaxCollectorBufferSize := by
  obtain ⟨hfst, hhp, hsc, hau, htm, hmc, hmb⟩ := Validate_of_success t h
  rw [hfst]
  rw [validateHostAndPort_eq_none_iff] at hhp
  rw [validateAuth_eq_none_iff] at hau
  rw [validateScheme_eq] at hsc
  rw [validateTimeout_eq] at htm
  rw [ValidateMaxCollectorConcurrency_eq] at hmc
  rw [ValidateMaxCollectorBufferSize_eq] at hmb
  simp only [ite_eq_right_iff, reduceCtorEq, imp_false, not_and, not_or, not_lt, not_le,
    Decidable.not_not] at hsc htm hmc hmb
  refine ⟨hhp.1, hhp.2.1, hhp.2.2, ?_, hau, ?_, ?_, ?_, ?_, ?_⟩
  · by_cases h1 : (if t.Scheme = "" then "https" else t.Scheme) = "http"
    · exact Or.inl h1
    · exact Or.inr (hsc h1)
  all_goals
    simp only
    omega

/-- A target within the bounds of every check passes `Validate` unchanged. -/
theorem Validate_of_bounds (t : Target) (hhost : t.Host ≠ "")
    (hport : 1 ≤ t.Port ∧ t.Port ≤ 65535)
    (hscheme : t.Scheme = "http" ∨ t.Scheme = "https")
    (hauth : (t.AuthMethod = "basic" ∧ t.Username ≠ "" ∧ t.Password ≠ "")
      ∨ (t.AuthMethod = "key" ∧ t.Key ≠ ""))
    (htimeout : 6 ≤ t.Timeout ∧ t.Timeout ≤ 359)
    (hconc : 1 ≤ t.MaxCollectorConcurrency ∧ t.MaxCollectorConcurrency ≤ 10)
    (hbuf : 10 ≤ t.MaxCollectorBufferSize) :
    t.Validate = (t, none) := by
  obtain ⟨ho, p, sc, am, u, pw, k, vc, tm, cs, mc, mb⟩ := t
  simp only at hhost hport hscheme hauth htimeout hconc hbuf
  have hau := (validateAuth_eq_none_iff ⟨ho, p, sc, am, u, pw, k, vc, tm, cs, mc, mb⟩).2 hauth
  have hp1 : ¬ (p < 1 ∨ p > 65535) := by omega
  have ht0 : ¬ tm = 0 := by omega
  have ht1 : ¬ (tm ≤ 5 ∨ tm ≥ 360) := by omega
  have hc0 : ¬ mc = 0 := by omega
  have hc1 : ¬ (mc < 1 ∨ mc > 10) := by omega
  have hb0 : ¬ mb = 0 := by omega
  have hb1 : ¬ mb < 10 := by omega
  have hhp : Target.validateHostAndPort ⟨ho, p, sc, am, u, pw, k, vc, tm, cs, mc, mb⟩ = none := by
    simp only [Target.validateHostAndPort, hhost, hp1, if_false]
  have hs0 : ¬ sc = "" := by
    rcases hscheme with h | h <;> rw [h] <;> decide
  have hs1 : ¬ (sc ≠ "http" ∧ sc ≠ "https") := by
    rcases hscheme with h | h <;> simp [h]
  have hsc : Target.validateScheme ⟨ho, p, sc, am, u, pw, k, vc, tm, cs, mc, mb⟩
      = (⟨ho, p, sc, am, u, pw, k, vc, tm, cs, mc, mb⟩, none) := by
    simp only [Target.validateScheme, hs0, hs1, if_false]
  have htm : Target.validateTimeout ⟨ho, p, sc, am, u, pw, k, vc, tm, cs, mc, mb⟩
      = (⟨ho, p, sc, am, u, pw, k, vc, tm, cs, mc, mb⟩, none) := by
    simp only [Target.validateTimeout, ht0, ht1, if_false]
  have hmc : Target.ValidateMaxCollectorConcurrency ⟨ho, p, sc, am, u, pw, k, vc, tm, cs, mc, mb⟩
      = (⟨ho, p, sc, am, u, pw, k, vc, tm, cs, mc, mb⟩, none) := by
    simp only [Target.ValidateMaxCollectorConcurrency, hc0, hc1, if_false]
  have hmb : Target.ValidateMaxCollectorBufferSize ⟨ho, p, sc, am, u, pw, k, vc, tm, cs, mc, mb⟩
      = (⟨ho, p, sc, am, u, pw, k, vc, tm, cs, mc, mb⟩, none) := by
    simp only [Target.ValidateMaxCollectorBufferSize, hb0, hb1, if_false]
  simp only [Target.Validate, hhp, hsc, hau, htm, Target.validateValidateCert, hmc, hmb]

/-- Claim C29.  `Target.Validate` is idempotent: on every target `t` on which it succeeds
with result `t'`, it succeeds on `t'` and returns `t'` again. -/
theorem Validate_idempotent (t : Target) (h : t.Validate.2 = none) :
    t.Validate.1.Validate = (t.Validate.1, none) := by
  obtain ⟨h1, h2, h3, h4, h5, h6, h7, h8, h9, h10⟩ := Validate_within_bounds t h
  exact Validate_of_bounds _ h1 ⟨h2, h3⟩ h4 h5 ⟨h6, h7⟩ ⟨h8, h9⟩ h10

/-- Witness for C29: the target with only host, port and basic credentials set; validating
the validated target gives the target with the four defaults, as the first time. -/
theorem Validate_idempotent_witness :
    (Target.Validate { Target.zero with Host := "test.com", Port := 443, AuthMethod := "basic",
                                        Username := "admin", Password := "secret" }).1.Validate
      = ((Target.Validate { Target.zero with Host := "test.com", Port := 443, AuthMethod := "basic",
                                             Username := "admin", Password := "secret" }).1,
          none) :=
  Validate_idempotent { Target.zero with Host := "test.com", Port := 443, AuthMethod := "basic",
                                         Username := "admin", Password := "secret" } (by decide)

/-- The loop of `ValidateTargets` over the elements `rest` that follow the elements `pre`
already visited: without an error every element is replaced by its validated form; with an
error the loop has stopped at the first element that does not validate, and that element and
those after it are as they were. -/
theorem ValidateTargets_loop_spec :
    ∀ (rest pre : List Target) (c : Config), c.Targets = pre ++ rest →
      ((Config.ValidateTargets.loop c pre.length rest).2 = none →
        (∀ t ∈ rest, t.Validate.2 = none) ∧
        (Config.ValidateTargets.loop c pre.length rest).1.Targets
          = pre ++ rest.map (fun t => t.Validate.1)) ∧
      (∀ e, (Config.ValidateTargets.loop c pre.length rest).2 = some e →
        ∃ mid t post err, rest = mid ++ t :: post ∧ (∀ u ∈ mid, u.Validate.2 = none) ∧
          t.Validate.2 = some err ∧
          e = "validation error for target " ++ toString (pre.length + mid.length) ++ ": " ++ err ∧
          (Config.ValidateTargets.loop c pre.length rest).1.Targets
            = pre ++ mid.map (fun u => u.Validate.1) ++ t :: post) := by
  intro rest
  induction rest with
  | nil =>
    intro pre c hc
    simp [Config.ValidateTargets.loop, hc]
  | cons target rest ih =>
    intro pre c hc
    cases hv : target.Validate with
    | mk v e =>
      cases e with
      | some err =>
        have hstop : Config.ValidateTargets.loop c pre.length (target :: rest)
            = (c, some ("validation error for target " ++ toString pre.length ++ ": " ++ err)) := by
          simp only [Config.ValidateTargets.loop, hv]
        rw [hstop]
        refine ⟨fun h => Option.noConfusion h, ?_⟩
        intro e he
        refine ⟨[], target, rest, err, rfl, by simp, by rw [hv], ?_, ?_⟩
        · simp only [Option.some.injEq] at he
          simp [← he]
        · simp [hc]
      | none =>
        have hset : c.Targets.set pre.length v = (pre ++ [v]) ++ rest := by
          rw [hc]
          simp [List.set_append]
        have hlen : (pre ++ [v]).length = pre.length + 1 := by simp
        have hstep : Config.ValidateTargets.loop c pre.length (target :: rest)
            = Config.ValidateTargets.loop { c with Targets := c.Targets.set pre.length v }
                (pre ++ [v]).length rest := by
          simp only [Config.ValidateTargets.loop, hv, hlen]
        obtain ⟨ih1, ih2⟩ := ih (pre ++ [v])
          { c with Targets := c.Targets.set pre.length v } hset
        rw [hstep]
        have hv1 : target.Validate.1 = v := by rw [hv]
        have hv2 : target.Validate.2 = none := by rw [hv]
        constructor
        · intro h
          obtain ⟨h1, h2⟩ := ih1 h
          refine ⟨?_, ?_⟩
          · intro t ht
            rcases List.mem_cons.1 ht with rfl | ht
            · exact hv2
            · exact h1 t ht
          · rw [h2]
            simp [hv1]
        · intro e he
          obtain ⟨mid, t, post, err, h1, h2, h3, h4, h5⟩ := ih2 e he
          refine ⟨target :: mid, t, post, err, by rw [h1]; rfl, ?_, h3, ?_, ?_⟩
          · intro u hu
            rcases List.mem_cons.1 hu with rfl | hu
            · exact hv2
            · exact h2 u hu
          · rw [h4, hlen]
            simp only [List.length_cons]
            congr 4
            omega
          · rw [h5]
            simp [hv1]

/-- Claim C30.  If `ValidateTargets` returns no error, every element of `c.Targets` validates
and the slice afterwards holds, at each index, the validated target with its defaults
applied, which is within all the bounds of a target.  If it returns an error, the targets
before some index all validate, the target at that index does not, the error is
`validation error for target <index>: <its error>`, and the slice afterwards holds the
targets before the index in validated form and the targets at and after it as they were. -/
theorem ValidateTargets_spec (c : Config) :
    (c.ValidateTargets.2 = none →
      (∀ t ∈ c.Targets, t.Validate.2 = none) ∧
      c.ValidateTargets.1.Targets = c.Targets.map (fun t => t.Validate.1) ∧
      (∀ t ∈ c.ValidateTargets.1.Targets,
        t.Host ≠ "" ∧ 1 ≤ t.Port ∧ t.Port ≤ 65535 ∧
        (t.Scheme = "http" ∨ t.Scheme = "https") ∧
        ((t.AuthMethod = "basic" ∧ t.Username ≠ "" ∧ t.Password ≠ "")
          ∨ (t.AuthMethod = "key" ∧ t.Key ≠ "")) ∧
        6 ≤ t.Timeout ∧ t.Timeout ≤ 359 ∧
        1 ≤ t.MaxCollectorConcurrency ∧ t.MaxCollectorConcurrency ≤ 10 ∧
        10 ≤ t.MaxCollectorBufferSize)) ∧
    (∀ e, c.ValidateTargets.2 = some e →
      ∃ pre t post err, c.Targets = pre ++ t :: post ∧ (∀ u ∈ pre, u.Validate.2 = none) ∧
        t.Validate.2 = some err ∧
        e = "validation error for target " ++ toString pre.length ++ ": " ++ err ∧
        c.ValidateTargets.1.Targets = pre.map (fun u => u.Validate.1) ++ t :: post) := by
  obtain ⟨h1, h2⟩ := ValidateTargets_loop_spec c.Targets [] c rfl
  simp only [List.length_nil, List.nil_append, Nat.zero_add] at h1 h2
  unfold Config.ValidateTargets
  constructor
  · intro h
    obtain ⟨ha, hb⟩ := h1 h
    refine ⟨ha, hb, ?_⟩
    intro t ht
    rw [hb] at ht
    obtain ⟨u, hu, rfl⟩ := List.mem_map.1 ht
    exact Validate_within_bounds u (ha u hu)
  · intro e he
    exact h2 e he

/-- Witness for C30: the two targets of the test come back with their defaults, and the
configuration whose only target has no host gets the error for index 0 and stays as it
was. -/
theorem ValidateTargets_spec_witness :
    ((Config.ValidateTargets ⟨"", 0,
        [{ Target.zero with Host := "test1.com", Port := 443, AuthMethod := "basic",
                            Username := "user", Password := "pass" },
         { Target.zero with Host := "test2.com", Port := 80, AuthMethod := "key",
                            Key := "apikey" }]⟩).1.Targets
      = [{ Target.zero with Host := "test1.com", Port := 443, AuthMethod := "basic",
                            Username := "user", Password := "pass", Scheme := "https",
                            Timeout := 30, MaxCollectorConcurrency := 4,
                            MaxCollectorBufferSize := 100 },
         { Target.zero with Host := "test2.com", Port := 80, AuthMethod := "key",
                            Key := "apikey", Scheme := "https", Timeout := 30,
                            MaxCollectorConcurrency := 4, MaxCollectorBufferSize := 100 }]) ∧
    (∃ pre t post err,
      [{ Target.zero with Port := 443, AuthMethod := "basic", Username := "user",
                          Password := "pass" }] = pre ++ t :: post ∧
      (∀ u ∈ pre, u.Validate.2 = none) ∧ t.Validate.2 = some err ∧
      "validation error for target 0: Target 'host' is a required field"
        = "validation error for target " ++ toString pre.length ++ ": " ++ err ∧
      (Config.ValidateTargets ⟨"", 0,
        [{ Target.zero with Port := 443, AuthMethod := "basic", Username := "user",
                            Password := "pass" }]⟩).1.Targets
        = pre.map (fun u => u.Validate.1) ++ t :: post) :=
  ⟨((ValidateTargets_spec ⟨"", 0,
        [{ Target.zero with Host := "test1.com", Port := 443, AuthMethod := "basic",
                            Username := "user", Password := "pass" },
         { Target.zero with Host := "test2.com", Port := 80, AuthMethod := "key",
                            Key := "apikey" }]⟩).1 (by decide)).2.1,
   (ValidateTargets_spec ⟨"", 0,
        [{ Target.zero with Port := 443, AuthMethod := "basic", Username := "user",
                            Password := "pass" }]⟩).2
      "validation error for target 0: Target 'host' is a required field" (by decide)⟩

/-! ### What a collector emits after earlier calls -/

/-- Claim C21, evaluated where it fails.  The system collector, called with success for the
target `a` and then for the target `b`, sends at the second call the seven samples of `a`
again, each next to the sample of `b`; and the login-protection collector, treated the same
way, sends the count of `a` again.  Neither sample carries the host of the target of the
call. -/
theorem SystemCollector_emits_earlier_host :
    ((SystemCollector.CollectWithTarget
        (Lib.canned (.ok ⟨200, .ok "body"⟩) (.ok ⟨200, "ok", "", "", some "x"⟩))
        (Decoders.system ⟨50, 4, 25, 50, 75, 0, 10⟩)
        (SystemCollector.CollectWithTarget
          (Lib.canned (.ok ⟨200, .ok "body"⟩) (.ok ⟨200, "ok", "", "", some "x"⟩))
          (Decoders.system ⟨50, 4, 25, 50, 75, 0, 10⟩)
          NewSystemCollector
          { Target.zero with Host := "a", Port := 443, Scheme := "https" }).1
        { Target.zero with Host := "b", Port := 443, Scheme := "https" }).2
      = [⟨"pfsense_system_temperature_celsius", ["a"], 50⟩,
         ⟨"pfsense_system_temperature_celsius", ["b"], 50⟩,
         ⟨"pfsense_system_cpu_count", ["a"], 4⟩,
         ⟨"pfsense_system_cpu_count", ["b"], 4⟩,
         ⟨"pfsense_system_cpu_usage_ratio", ["a"], 0.25⟩,
         ⟨"pfsense_system_cpu_usage_ratio", ["b"], 0.25⟩,
         ⟨"pfsense_system_disk_usage_ratio", ["a"], 0.5⟩,
         ⟨"pfsense_system_disk_usage_ratio", ["b"], 0.5⟩,
         ⟨"pfsense_system_memory_usage_ratio", ["a"], 0.75⟩,
         ⟨"pfsense_system_memory_usage_ratio", ["b"], 0.75⟩,
         ⟨"pfsense_system_swap_usage_ratio", ["a"], 0⟩,
         ⟨"pfsense_system_swap_usage_ratio", ["b"], 0⟩,
         ⟨"pfsense_system_mbuf_usage_ratio", ["a"], 0.1⟩,
         ⟨"pfsense_system_mbuf_usage_ratio", ["b"], 0.1⟩]) ∧
    ((LoginProtectionCollector.CollectWithTarget
        (Lib.canned (.ok ⟨200, .ok "body"⟩) (.ok ⟨200, "ok", "", "", some "x"⟩))
        (Decoders.loginProtection ⟨"sshguard", ["192.0.2.1"]⟩)
        (LoginProtectionCollector.CollectWithTarget
          (Lib.canned (.ok ⟨200, .ok "body"⟩) (.ok ⟨200, "ok", "", "", some "x"⟩))
          (Decoders.loginProtection ⟨"sshguard", ["192.0.2.1"]⟩)
          NewLoginProtectionCollector
          { Target.zero with Host := "a", Port := 443, Scheme := "https" }).1
        { Target.zero with Host := "b", Port := 443, Scheme := "https" }).2
      = [⟨"pfsense_login_protection_blocked_ip", ["b", "192.0.2.1"], 1⟩,
         ⟨"pfsense_login_protection_blocked_ip_count", ["a"], 1⟩,
         ⟨"pfsense_login_protection_blocked_ip_count", ["b"], 1⟩]) := by
  decide

/-! ### The gauges of a collector across a call -/

/-- A reset gauge has no two children under the same label values. -/
theorem GaugeVec.WF_Reset (g : GaugeVec) : g.Reset.WF := by
  simp [GaugeVec.WF, GaugeVec.Reset]

/-- `Set` keeps the children of a gauge apart: one child per label values. -/
theorem GaugeVec.WF_Set (g : GaugeVec) (lvs : List String) (v : Float64) (h : g.WF) :
    (g.Set lvs v).WF := by
  unfold GaugeVec.WF at h ⊢
  unfold GaugeVec.Set
  split
  · have hmap : List.map (fun p => p.1)
          (List.map (fun p : List String × Float64 => if p.1 = lvs then (p.1, v) else p)
            g.children)
        = List.map (fun p => p.1) g.children := by
      rw [List.map_map]
      apply List.map_congr_left
      intro p _
      simp only [Function.comp]
      split <;> rfl
    simp only [hmap]
    exact h
  · rename_i hany
    simp only [List.any_eq_true, decide_eq_true_eq, not_exists, not_and] at hany
    simp only [List.map_append, List.map_cons, List.map_nil]
    rw [List.nodup_append]
    refine ⟨h, List.nodup_singleton _, ?_⟩
    intro a ha hb
    simp only [List.mem_singleton] at hb
    obtain ⟨p, hp, rfl⟩ := List.mem_map.1 ha
    exact hany p hp hb

/-- A property of the state that every round of a loop keeps holds after the loop. -/
theorem foldl_pred {σ α : Type} (P : σ → Prop) (step : σ → α → σ)
    (h : ∀ s a, P s → P (step s a)) (l : List α) (s : σ) (hs : P s) :
    P (l.foldl step s) := by
  induction l generalizing s with
  | nil => exact hs
  | cons x xs ih => exact ih _ (h s x hs)

/-- The gauges of the gateway collector after a successful call: each one reset and then set
once per record of the payload; and the samples sent are those of these gauges, in order. -/
theorem GatewayCollector_gauges_after (lib : Lib) (dec : Decoders) (c : GatewayCollector) (target : Target)
    (gateways : List GatewayStats)
    (hfetch : fetch lib target "/api/v2/status/gateways" dec.Gateways = some gateways) :
    (Collector.gateway (c.CollectWithTarget lib dec target).1).gauges
      = [gateways.foldl (fun g (gw : GatewayStats) =>
             g.Set [target.Host, gw.Name, gw.SourceIP, gw.MonitorIP] (gw.Loss / 100.0)) c.gatewayLossRatio.Reset,
         gateways.foldl (fun g (gw : GatewayStats) =>
             g.Set [target.Host, gw.Name, gw.SourceIP, gw.MonitorIP] (gw.Delay / 1000.0)) c.gatewayDelaySeconds.Reset,
         gateways.foldl (fun g (gw : GatewayStats) =>
             g.Set [target.Host, gw.Name, gw.SourceIP, gw.MonitorIP] (gw.StdDev / 1000.0)) c.gatewayStdDevSeconds.Reset,
         gateways.foldl (fun g (gw : GatewayStats) =>
             g.Set [target.Host, gw.Name, gw.SourceIP, gw.MonitorIP, gw.Substatus] (gatewayUpToFloat64 gw.Status)) c.gatewayUp.Reset] ∧
    (c.CollectWithTarget lib dec target).2
      = (Collector.gateway (c.CollectWithTarget lib dec target).1).gauges.flatMap
          GaugeVec.Collect := by
  unfold GatewayCollector.CollectWithTarget
  rw [hfetch]
  refine ⟨?_, by simp [Collector.gauges, List.flatMap]⟩
  simp only [Collector.gauges, List.cons.injEq, and_true]
  refine ⟨?_, ?_, ?_, ?_⟩
  · exact foldl_proj GatewayCollector.gatewayLossRatio _ _ (fun _ _ => rfl) _ _
  · exact foldl_proj GatewayCollector.gatewayDelaySeconds _ _ (fun _ _ => rfl) _ _
  · exact foldl_proj GatewayCollector.gatewayStdDevSeconds _ _ (fun _ _ => rfl) _ _
  · exact foldl_proj GatewayCollector.gatewayUp _ _ (fun _ _ => rfl) _ _

/-- The gauges of the service collector after a successful call: each one reset and then set
once per record of the payload; and the samples sent are those of these gauges, in order. -/
theorem ServiceCollector_gauges_after (lib : Lib) (dec : Decoders) (c : ServiceCollector) (target : Target)
    (services : List ServiceStats)
    (hfetch : fetch lib target "/api/v2/status/services" dec.Services = some services) :
    (Collector.service (c.CollectWithTarget lib dec target).1).gauges
      = [services.foldl (fun g (svc : ServiceStats) =>
             g.Set [target.Host, svc.Name] (BoolToFloat64 svc.Status)) c.serviceUp.Reset,
         services.foldl (fun g (svc : ServiceStats) =>
             g.Set [target.Host, svc.Name] (BoolToFloat64 svc.Enabled)) c.serviceEnabled.Reset] ∧
    (c.CollectWithTarget lib dec target).2
      = (Collector.service (c.CollectWithTarget lib dec target).1).gauges.flatMap
          GaugeVec.Collect := by
  unfold ServiceCollector.CollectWithTarget
  rw [hfetch]
  refine ⟨?_, by simp [Collector.gauges, List.flatMap]⟩
  simp only [Collector.gauges, List.cons.injEq, and_true]
  refine ⟨?_, ?_⟩
  · exact foldl_proj ServiceCollector.serviceUp _ _ (fun _ _ => rfl) _ _
  · exact foldl_proj ServiceCollector.serviceEnabled _ _ (fun _ _ => rfl) _ _

/-- The gauges of the interface collector after a successful call: each one reset and then set
once per record of the payload; and the samples sent are those of these gauges, in order. -/
theorem InterfaceCollector_gauges_after (lib : Lib) (dec : Decoders) (c : InterfaceCollector) (target : Target)
    (interfaces : List InterfaceStats)
    (hfetch : fetch lib target "/api/v2/status/interfaces" dec.Interfaces = some interfaces) :
    (Collector.interface (c.CollectWithTarget lib dec target).1).gauges
      = [interfaces.foldl (fun g (iface : InterfaceStats) =>
             g.Set [target.Host, iface.Name, iface.Descr, iface.Hwif, iface.Status] (interfaceStatusToFloat64 iface.Status)) c.interfaceUp.Reset,
         interfaces.foldl (fun g (iface : InterfaceStats) =>
             g.Set [target.Host, iface.Name, iface.Descr, iface.Hwif] (iface.InErrs)) c.interfaceInErrsCount.Reset,
         interfaces.foldl (fun g (iface : InterfaceStats) =>
             g.Set [target.Host, iface.Name, iface.Descr, iface.Hwif] (iface.OutErrs)) c.interfaceOutErrsCount.Reset,
         interfaces.foldl (fun g (iface : InterfaceStats) =>
             g.Set [target.Host, iface.Name, iface.Descr, iface.Hwif] (iface.Collisions)) c.interfaceCollisionsCount.Reset,
         interfaces.foldl (fun g (iface : InterfaceStats) =>
             g.Set [target.Host, iface.Name, iface.Descr, iface.Hwif] (iface.InBytes)) c.interfaceInBytesCount.Reset,
         interfaces.foldl (fun g (iface : InterfaceStats) =>
             g.Set [target.Host, iface.Name, iface.Descr, iface.Hwif] (iface.InBytesPass)) c.interfaceInBytesPassCount.Reset,
         interfaces.foldl (fun g (iface : InterfaceStats) =>
             g.Set [target.Host, iface.Name, iface.Descr, iface.Hwif] (iface.OutBytes)) c.interfaceOutBytesCount.Reset,
         interfaces.foldl (fun g (iface : InterfaceStats) =>
             g.Set [target.Host, iface.Name, iface.Descr, iface.Hwif] (iface.OutBytesPass)) c.interfaceOutBytesPassCount.Reset,
         interfaces.foldl (fun g (iface : InterfaceStats) =>
             g.Set [target.Host, iface.Name, iface.Descr, iface.Hwif] (iface.InPkts)) c.interfaceInPktsCount.Reset,
         interfaces.foldl (fun g (iface : InterfaceStats) =>
             g.Set [target.Host, iface.Name, iface.Descr, iface.Hwif] (iface.InPktsPass)) c.interfaceInPktsPassCount.Reset,
         interfaces.foldl (fun g (iface : InterfaceStats) =>
             g.Set [target.Host, iface.Name, iface.Descr, iface.Hwif] (iface.OutPkts)) c.interfaceOutPktsCount.Reset,
         interfaces.foldl (fun g (iface : InterfaceStats) =>
             g.Set [target.Host, iface.Name, iface.Descr, iface.Hwif] (iface.OutPktsPass)) c.interfaceOutPktsPassCount.Reset] ∧
    (c.CollectWithTarget lib dec target).2
      = (Collector.interface (c.CollectWithTarget lib dec target).1).gauges.flatMap
          GaugeVec.Collect := by
  unfold InterfaceCollector.CollectWithTarget
  rw [hfetch]
  refine ⟨?_, by simp [Collector.gauges, List.flatMap]⟩
  simp only [Collector.gauges, List.cons.injEq, and_true]
  refine ⟨?_, ?_, ?_, ?_, ?_, ?_, ?_, ?_, ?_, ?_, ?_, ?_⟩
  · exact foldl_proj InterfaceCollector.interfaceUp _ _ (fun _ _ => rfl) _ _
  · exact foldl_proj InterfaceCollector.interfaceInErrsCount _ _ (fun _ _ => rfl) _ _
  · exact foldl_proj InterfaceCollector.interfaceOutErrsCount _ _ (fun _ _ => rfl) _ _
  · exact foldl_proj InterfaceCollector.interfaceCollisionsCount _ _ (fun _ _ => rfl) _ _
  · exact foldl_proj InterfaceCollector.interfaceInBytesCount _ _ (fun _ _ => rfl) _ _
  · exact foldl_proj InterfaceCollector.interfaceInBytesPassCount _ _ (fun _ _ => rfl) _ _
  · exact foldl_proj InterfaceCollector.interfaceOutBytesCount _ _ (fun _ _ => rfl) _ _
  · exact foldl_proj InterfaceCollector.interfaceOutBytesPassCount _ _ (fun _ _ => rfl) _ _
  · exact foldl_proj InterfaceCollector.interfaceInPktsCount _ _ (fun _ _ => rfl) _ _
  · exact foldl_proj InterfaceCollector.interfaceInPktsPassCount _ _ (fun _ _ => rfl) _ _
  · exact foldl_proj InterfaceCollector.interfaceOutPktsCount _ _ (fun _ _ => rfl) _ _
  · exact foldl_proj InterfaceCollector.interfaceOutPktsPassCount _ _ (fun _ _ => rfl) _ _

/-- The gauges of the package collector after a successful call: each one reset and then set
once per record of the payload; and the samples sent are those of these gauges, in order. -/
theorem PackageCollector_gauges_after (lib : Lib) (dec : Decoders) (c : PackageCollector) (target : Target)
    (packages : List PackageStats)
    (hfetch : fetch lib target "/api/v2/system/packages" dec.Packages = some packages) :
    (Collector.package (c.CollectWithTarget lib dec target).1).gauges
      = [packages.foldl (fun g (pkg : PackageStats) =>
             g.Set [target.Host, pkg.Name, pkg.Shortname, pkg.InstalledVersion, pkg.LatestVersion] (BoolToFloat64 pkg.UpdateAvailable)) c.updateAvailable.Reset] ∧
    (c.CollectWithTarget lib dec target).2
      = (Collector.package (c.CollectWithTarget lib dec target).1).gauges.flatMap
          GaugeVec.Collect := by
  unfold PackageCollector.CollectWithTarget
  rw [hfetch]
  refine ⟨?_, by simp [Collector.gauges, List.flatMap]⟩
  simp only [Collector.gauges, List.cons.injEq, and_true]
  exact foldl_proj PackageCollector.updateAvailable _ _ (fun _ _ => rfl) _ _

/-- The gauges of the firewallSchedule collector after a successful call: each one reset and then set
once per record of the payload; and the samples sent are those of these gauges, in order. -/
theorem FirewallScheduleCollector_gauges_after (lib : Lib) (dec : Decoders) (c : FirewallScheduleCollector) (target : Target)
    (schedules : List FirewallScheduleStats)
    (hfetch : fetch lib target "/api/v2/firewall/schedules" dec.FirewallSchedules = some schedules) :
    (Collector.firewallSchedule (c.CollectWithTarget lib dec target).1).gauges
      = [schedules.foldl (fun g (schedule : FirewallScheduleStats) =>
             g.Set [target.Host, schedule.Name] (BoolToFloat64 schedule.Active)) c.firewallScheduleActive.Reset] ∧
    (c.CollectWithTarget lib dec target).2
      = (Collector.firewallSchedule (c.CollectWithTarget lib dec target).1).gauges.flatMap
          GaugeVec.Collect := by
  unfold FirewallScheduleCollector.CollectWithTarget
  rw [hfetch]
  refine ⟨?_, by simp [Collector.gauges, List.flatMap]⟩
  simp only [Collector.gauges, List.cons.injEq, and_true]
  exact foldl_proj FirewallScheduleCollector.firewallScheduleActive _ _ (fun _ _ => rfl) _ _


/-- The gauges of the login-protection collector after a successful call: the per-IP gauge
reset and then set once per entry, and the count gauge set under the host without a reset. -/
theorem LoginProtectionCollector_gauges_after (lib : Lib) (dec : Decoders)
    (c : LoginProtectionCollector) (target : Target) (stats : LoginProtectionStats)
    (hfetch : fetch lib target "/api/v2/diagnostics/table?id=sshguard" dec.LoginProtectionStats
      = some stats) :
    (Collector.loginProtection (c.CollectWithTarget lib dec target).1).gauges
      = [stats.Entries.foldl (fun g (entry : String) => g.Set [target.Host, entry] 1)
           c.loginProtectionBlockedIP.Reset,
         c.loginProtectionBlockedIPCount.Set [target.Host]
           (Float64.ofNat stats.Entries.length)] ∧
    (c.CollectWithTarget lib dec target).2
      = (Collector.loginProtection (c.CollectWithTarget lib dec target).1).gauges.flatMap
          GaugeVec.Collect := by
  unfold LoginProtectionCollector.CollectWithTarget
  rw [hfetch]
  refine ⟨?_, by simp [Collector.gauges, List.flatMap]⟩
  simp only [Collector.gauges, List.cons.injEq, and_true]
  refine ⟨?_, ?_⟩
  · exact foldl_proj LoginProtectionCollector.loginProtectionBlockedIP _ _ (fun _ _ => rfl) _ _
  · congr 1
    refine foldl_inv LoginProtectionCollector.loginProtectionBlockedIPCount _ ?_ _ _
    intro _ _
    rfl

/-- The gauges of the CARP collector after a call whose two fetches succeed: the two status
gauges reset and set under the host, and the virtual-IP gauge reset and then set once per
virtual IP. -/
theorem CARPCollector_gauges_after (lib : Lib) (dec : Decoders) (c : CARPCollector)
    (target : Target) (stats : CARPStats) (virtualIPs : List CARPVirtualIPStatus)
    (hfetch : fetch lib target "/api/v2/status/carp" dec.CARPStats = some stats)
    (hfetch2 : fetch lib target "/api/v2/firewall/virtual_ips?mode=carp" dec.CARPVirtualIPs
      = some virtualIPs) :
    (Collector.carp (c.CollectWithTarget lib dec target).1).gauges
      = [c.carpEnabled.Reset.Set [target.Host] (BoolToFloat64 stats.Enabled),
         c.carpMaintenanceModeEnabled.Reset.Set [target.Host]
           (BoolToFloat64 stats.MaintenanceMode),
         virtualIPs.foldl (fun g (ip : CARPVirtualIPStatus) =>
           g.Set [target.Host, ip.CARPStatus, ip.UniqID, ip.Subnet, toString ip.VHID,
             ip.Interface] (CARPStatusToFloat64 ip.CARPStatus)) c.carpVirtualIPStatus.Reset] ∧
    (c.CollectWithTarget lib dec target).2
      = (Collector.carp (c.CollectWithTarget lib dec target).1).gauges.flatMap
          GaugeVec.Collect := by
  unfold CARPCollector.CollectWithTarget
  rw [hfetch]
  simp only [hfetch2]
  refine ⟨?_, by simp [Collector.gauges, List.flatMap]⟩
  simp only [Collector.gauges, List.cons.injEq, and_true]
  refine ⟨?_, ?_, ?_⟩
  · refine (foldl_inv CARPCollector.carpEnabled _ ?_ _ _).trans rfl
    intro _ _
    rfl
  · refine (foldl_inv CARPCollector.carpMaintenanceModeEnabled _ ?_ _ _).trans rfl
    intro _ _
    rfl
  · exact (foldl_proj CARPCollector.carpVirtualIPStatus _ _ (fun _ _ => rfl) _ _).trans rfl

/-- The gauges of the CARP collector after a call whose second fetch fails: reset, with the
two status gauges set; nothing is sent. -/
theorem CARPCollector_gauges_after_failure (lib : Lib) (dec : Decoders) (c : CARPCollector)
    (target : Target) (stats : CARPStats)
    (hfetch : fetch lib target "/api/v2/status/carp" dec.CARPStats = some stats)
    (hfetch2 : fetch lib target "/api/v2/firewall/virtual_ips?mode=carp" dec.CARPVirtualIPs
      = none) :
    (Collector.carp (c.CollectWithTarget lib dec target).1).gauges
      = [c.carpEnabled.Reset.Set [target.Host] (BoolToFloat64 stats.Enabled),
         c.carpMaintenanceModeEnabled.Reset.Set [target.Host]
           (BoolToFloat64 stats.MaintenanceMode),
         c.carpVirtualIPStatus.Reset] ∧
    (c.CollectWithTarget lib dec target).2 = [] := by
  unfold CARPCollector.CollectWithTarget
  rw [hfetch]
  simp only [hfetch2]
  exact ⟨rfl, trivial⟩

/-- The gauge of the REST API collector after a successful call: reset and set once. -/
theorem RESTAPICollector_gauges_after (lib : Lib) (dec : Decoders) (c : RESTAPICollector)
    (target : Target) (stats : RESTAPIStats)
    (hfetch : fetch lib target "/api/v2/system/restapi/version" dec.RESTAPIStats = some stats) :
    (Collector.restapi (c.CollectWithTarget lib dec target).1).gauges
      = [c.restAPIUpdateAvailable.Reset.Set
          [target.Host, stats.CurrentVersion, stats.LatestVersion,
            stats.LatestVersionReleaseDate] (BoolToFloat64 stats.UpdateAvailable)] ∧
    (c.CollectWithTarget lib dec target).2
      = (Collector.restapi (c.CollectWithTarget lib dec target).1).gauges.flatMap
          GaugeVec.Collect := by
  unfold RESTAPICollector.CollectWithTarget
  rw [hfetch]
  exact ⟨rfl, by simp [Collector.gauges, List.flatMap]⟩

/-- The gauges of the system collector after a successful call: each one set under the host,
without a reset. -/
theorem SystemCollector_gauges_after (lib : Lib) (dec : Decoders) (c : SystemCollector)
    (target : Target) (stats : SystemStats)
    (hfetch : fetch lib target "/api/v2/status/system" dec.SystemStats = some stats) :
    (Collector.system (c.CollectWithTarget lib dec target).1).gauges
      = [c.systemTemperatureCelsius.Set [target.Host] stats.TempC,
         c.systemCPUCount.Set [target.Host] stats.CPUCount,
         c.systemCPUUsage.Set [target.Host] (stats.CPUUsage / 100),
         c.systemDiskUsage.Set [target.Host] (stats.DiskUsage / 100),
         c.systemMemoryUsage.Set [target.Host] (stats.MemUsage / 100),
         c.systemSwapUsage.Set [target.Host] (stats.SwapUsage / 100),
         c.systemMbufUsage.Set [target.Host] (stats.MbufUsage / 100)] ∧
    (c.CollectWithTarget lib dec target).2
      = (Collector.system (c.CollectWithTarget lib dec target).1).gauges.flatMap
          GaugeVec.Collect := by
  unfold SystemCollector.CollectWithTarget
  rw [hfetch]
  exact ⟨rfl, by simp [Collector.gauges, List.flatMap]⟩

/-- The gauges of the firewall-states collector after a successful call: each one set under
the host, without a reset. -/
theorem FirewallStatesCollector_gauges_after (lib : Lib) (dec : Decoders)
    (c : FirewallStatesCollector) (target : Target) (stats : FirewallStatesStats)
    (hfetch : fetch lib target "/api/v2/firewall/states/size" dec.FirewallStatesStats
      = some stats) :
    (∃ maximum : Float64,
      (Collector.firewallStates (c.CollectWithTarget lib dec target).1).gauges
        = [c.firewallStatesCurrentCount.Set [target.Host] stats.CurrentStates,
           c.firewallStatesMaximumCount.Set [target.Host] maximum,
           c.firewallStatesUsageRatio.Set [target.Host] (stats.CurrentStates / maximum)]) ∧
    (c.CollectWithTarget lib dec target).2
      = (Collector.firewallStates (c.CollectWithTarget lib dec target).1).gauges.flatMap
          GaugeVec.Collect := by
  unfold FirewallStatesCollector.CollectWithTarget
  rw [hfetch]
  refine ⟨?_, by simp [Collector.gauges, List.flatMap]⟩
  by_cases hz : Float64.eq stats.MaximumStates 0 = true
  · exact ⟨stats.DefaultMaximumStates, by simp only [hz, if_true, Collector.gauges]⟩
  · exact ⟨stats.MaximumStates, by simp only [hz, Bool.false_eq_true, if_false, Collector.gauges]⟩

/-- A loop of `Set`s keeps the children of a gauge apart. -/
theorem GaugeVec.WF_foldl_Set {α : Type} (key : α → List String) (val : α → Float64)
    (rs : List α) (g : GaugeVec) (h : g.WF) :
    (rs.foldl (fun g r => g.Set (key r) (val r)) g).WF := by
  induction rs generalizing g with
  | nil => exact h
  | cons r rs ih => exact ih _ (GaugeVec.WF_Set g _ _ h)

/-- A gauge follows itself. -/
theorem GaugeVec.Follows_refl (g : GaugeVec) : g.Follows g :=
  ⟨rfl, id⟩

/-- A gauge that was reset follows the gauge it was. -/
theorem GaugeVec.Follows_Reset (g : GaugeVec) : g.Follows g.Reset :=
  ⟨rfl, fun _ => GaugeVec.WF_Reset g⟩

/-- A gauge that was set follows the gauge it was. -/
theorem GaugeVec.Follows_Set (g : GaugeVec) (lvs : List String) (v : Float64) :
    g.Follows (g.Set lvs v) :=
  ⟨GaugeVec.Name_Set g lvs v, GaugeVec.WF_Set g lvs v⟩

/-- A gauge that was reset and then set follows the gauge it was. -/
theorem GaugeVec.Follows_Reset_Set (g : GaugeVec) (lvs : List String) (v : Float64) :
    g.Follows (g.Reset.Set lvs v) :=
  ⟨GaugeVec.Name_Set g.Reset lvs v, fun _ => GaugeVec.WF_Set g.Reset lvs v (GaugeVec.WF_Reset g)⟩

/-- A gauge that was reset and then set in a loop follows the gauge it was. -/
theorem GaugeVec.Follows_foldl_Set_Reset {α : Type} (key : α → List String)
    (val : α → Float64) (rs : List α) (g : GaugeVec) :
    g.Follows (rs.foldl (fun g r => g.Set (key r) (val r)) g.Reset) :=
  ⟨GaugeVec.Name_foldl_Set key val rs g.Reset,
    fun _ => GaugeVec.WF_foldl_Set key val rs g.Reset (GaugeVec.WF_Reset g)⟩

/-- Every gauge of a list follows itself. -/
theorem Forall₂_Follows_refl (gs : List GaugeVec) : List.Forall₂ GaugeVec.Follows gs gs := by
  induction gs with
  | nil => exact List.Forall₂.nil
  | cons g gs ih => exact List.Forall₂.cons (GaugeVec.Follows_refl g) ih

/-- Gauges that follow gauges with names of their own and one child per label values are
such gauges too. -/
theorem Forall₂_Follows_spec (gs gs' : List GaugeVec)
    (h : List.Forall₂ GaugeVec.Follows gs gs') :
    gs'.map (fun g => g.Name) = gs.map (fun g => g.Name) ∧
    ((∀ g ∈ gs, g.WF) → ∀ g ∈ gs', g.WF) := by
  induction h with
  | nil => exact ⟨rfl, fun h => h⟩
  | cons hab _ ih =>
    refine ⟨?_, ?_⟩
    · simp only [List.map_cons, hab.1, ih.1]
    · intro hall g hg
      rcases List.mem_cons.1 hg with rfl | hg
      · exact hab.2 (hall _ (List.mem_cons_self _ _))
      · exact ih.2 (fun x hx => hall x (List.mem_cons_of_mem _ hx)) g hg

/-- A call of `CollectWithTarget` on any collector: each gauge afterwards follows the gauge
before, and the samples sent are none, or those of the gauges afterwards in order. -/
theorem Collector_call (lib : Lib) (dec : Decoders) (k : Collector) (target : Target) :
    List.Forall₂ GaugeVec.Follows k.gauges (k.CollectWithTarget lib dec target).1.gauges ∧
    ((k.CollectWithTarget lib dec target).2 = [] ∨
      (k.CollectWithTarget lib dec target).2
        = (k.CollectWithTarget lib dec target).1.gauges.flatMap GaugeVec.Collect) := by
  cases k with
  | carp c =>
    simp only [Collector.CollectWithTarget]
    cases hf : fetch lib target "/api/v2/status/carp" dec.CARPStats with
    | none =>
      have hnone : c.CollectWithTarget lib dec target = (c, []) := by
        unfold CARPCollector.CollectWithTarget
        rw [hf]
      rw [hnone]
      exact ⟨Forall₂_Follows_refl _, Or.inl rfl⟩
    | some stats =>
      cases hf2 : fetch lib target "/api/v2/firewall/virtual_ips?mode=carp" dec.CARPVirtualIPs with
      | none =>
        obtain ⟨hg, hs⟩ := CARPCollector_gauges_after_failure lib dec c target stats hf hf2
        refine ⟨?_, Or.inl hs⟩
        rw [hg]
        exact (List.Forall₂.cons (GaugeVec.Follows_Reset_Set _ _ _)
        (List.Forall₂.cons (GaugeVec.Follows_Reset_Set _ _ _)
        (List.Forall₂.cons (GaugeVec.Follows_Reset _)
        List.Forall₂.nil)))
      | some virtualIPs =>
        obtain ⟨hg, hs⟩ := CARPCollector_gauges_after lib dec c target stats virtualIPs hf hf2
        refine ⟨?_, Or.inr hs⟩
        rw [hg]
        exact (List.Forall₂.cons (GaugeVec.Follows_Reset_Set _ _ _)
        (List.Forall₂.cons (GaugeVec.Follows_Reset_Set _ _ _)
        (List.Forall₂.cons (GaugeVec.Follows_foldl_Set_Reset _ _ _ _)
        List.Forall₂.nil)))
  | firewallSchedule c =>
    simp only [Collector.CollectWithTarget]
    cases hf : fetch lib target "/api/v2/firewall/schedules" dec.FirewallSchedules with
    | none =>
      have hnone : c.CollectWithTarget lib dec target = (c, []) := by
        unfold FirewallScheduleCollector.CollectWithTarget
        rw [hf]
      rw [hnone]
      exact ⟨Forall₂_Follows_refl _, Or.inl rfl⟩
    | some payload =>
      obtain ⟨hg, hs⟩ := FirewallScheduleCollector_gauges_after lib dec c target payload hf
      refine ⟨?_, Or.inr hs⟩
      rw [hg]
      exact (List.Forall₂.cons (GaugeVec.Follows_foldl_Set_Reset _ _ _ _)
      List.Forall₂.nil)
  | firewallStates c =>
    simp only [Collector.CollectWithTarget]
    cases hf : fetch lib target "/api/v2/firewall/states/size" dec.FirewallStatesStats with
    | none =>
      have hnone : c.CollectWithTarget lib dec target = (c, []) := by
        unfold FirewallStatesCollector.CollectWithTarget
        rw [hf]
      rw [hnone]
      exact ⟨Forall₂_Follows_refl _, Or.inl rfl⟩
    | some payload =>
      obtain ⟨⟨maximum, hg⟩, hs⟩ := FirewallStatesCollector_gauges_after lib dec c target payload hf
      refine ⟨?_, Or.inr hs⟩
      rw [hg]
      exact (List.Forall₂.cons (GaugeVec.Follows_Set _ _ _)
      (List.Forall₂.cons (GaugeVec.Follows_Set _ _ _)
      (List.Forall₂.cons (GaugeVec.Follows_Set _ _ _)
      List.Forall₂.nil)))
  | gateway c =>
    simp only [Collector.CollectWithTarget]
    cases hf : fetch lib target "/api/v2/status/gateways" dec.Gateways with
    | none =>
      have hnone : c.CollectWithTarget lib dec target = (c, []) := by
        unfold GatewayCollector.CollectWithTarget
        rw [hf]
      rw [hnone]
      exact ⟨Forall₂_Follows_refl _, Or.inl rfl⟩
    | some payload =>
      obtain ⟨hg, hs⟩ := GatewayCollector_gauges_after lib dec c target payload hf
      refine ⟨?_, Or.inr hs⟩
      rw [hg]
      exact (List.Forall₂.cons (GaugeVec.Follows_foldl_Set_Reset _ _ _ _)
      (List.Forall₂.cons (GaugeVec.Follows_foldl_Set_Reset _ _ _ _)
      (List.Forall₂.cons (GaugeVec.Follows_foldl_Set_Reset _ _ _ _)
      (List.Forall₂.cons (GaugeVec.Follows_foldl_Set_Reset _ _ _ _)
      List.Forall₂.nil))))
  | interface c =>
    simp only [Collector.CollectWithTarget]
    cases hf : fetch lib target "/api/v2/status/interfaces" dec.Interfaces with
    | none =>
      have hnone : c.CollectWithTarget lib dec target = (c, []) := by
        unfold InterfaceCollector.CollectWithTarget
        rw [hf]
      rw [hnone]
      exact ⟨Forall₂_Follows_refl _, Or.inl rfl⟩
    | some payload =>
      obtain ⟨hg, hs⟩ := InterfaceCollector_gauges_after lib dec c target payload hf
      refine ⟨?_, Or.inr hs⟩
      rw [hg]
      exact (List.Forall₂.cons (GaugeVec.Follows_foldl_Set_Reset _ _ _ _)
      (List.Forall₂.cons (GaugeVec.Follows_foldl_Set_Reset _ _ _ _)
      (List.Forall₂.cons (GaugeVec.Follows_foldl_Set_Reset _ _ _ _)
      (List.Forall₂.cons (GaugeVec.Follows_foldl_Set_Reset _ _ _ _)
      (List.Forall₂.cons (GaugeVec.Follows_foldl_Set_Reset _ _ _ _)
      (List.Forall₂.cons (GaugeVec.Follows_foldl_Set_Reset _ _ _ _)
      (List.Forall₂.cons (GaugeVec.Follows_foldl_Set_Reset _ _ _ _)
      (List.Forall₂.cons (GaugeVec.Follows_foldl_Set_Reset _ _ _ _)
      (List.Forall₂.cons (GaugeVec.Follows_foldl_Set_Reset _ _ _ _)
      (List.Forall₂.cons (GaugeVec.Follows_foldl_Set_Reset _ _ _ _)
      (List.Forall₂.cons (GaugeVec.Follows_foldl_Set_Reset _ _ _ _)
      (List.Forall₂.cons (GaugeVec.Follows_foldl_Set_Reset _ _ _ _)
      List.Forall₂.nil))))))))))))
  | loginProtection c =>
    simp only [Collector.CollectWithTarget]
    cases hf : fetch lib target "/api/v2/diagnostics/table?id=sshguard" dec.LoginProtectionStats with
    | none =>
      have hnone : c.CollectWithTarget lib dec target = (c, []) := by
        unfold LoginProtectionCollector.CollectWithTarget
        rw [hf]
      rw [hnone]
      exact ⟨Forall₂_Follows_refl _, Or.inl rfl⟩
    | some payload =>
      obtain ⟨hg, hs⟩ := LoginProtectionCollector_gauges_after lib dec c target payload hf
      refine ⟨?_, Or.inr hs⟩
      rw [hg]
      exact (List.Forall₂.cons (GaugeVec.Follows_foldl_Set_Reset _ _ _ _)
      (List.Forall₂.cons (GaugeVec.Follows_Set _ _ _)
      List.Forall₂.nil))
  | package c =>
    simp only [Collector.CollectWithTarget]
    cases hf : fetch lib target "/api/v2/system/packages" dec.Packages with
    | none =>
      have hnone : c.CollectWithTarget lib dec target = (c, []) := by
        unfold PackageCollector.CollectWithTarget
        rw [hf]
      rw [hnone]
      exact ⟨Forall₂_Follows_refl _, Or.inl rfl⟩
    | some payload =>
      obtain ⟨hg, hs⟩ := PackageCollector_gauges_after lib dec c target payload hf
      refine ⟨?_, Or.inr hs⟩
      rw [hg]
      exact (List.Forall₂.cons (GaugeVec.Follows_foldl_Set_Reset _ _ _ _)
      List.Forall₂.nil)
  | restapi c =>
    simp only [Collector.CollectWithTarget]
    cases hf : fetch lib target "/api/v2/system/restapi/version" dec.RESTAPIStats with
    | none =>
      have hnone : c.CollectWithTarget lib dec target = (c, []) := by
        unfold RESTAPICollector.CollectWithTarget
        rw [hf]
      rw [hnone]
      exact ⟨Forall₂_Follows_refl _, Or.inl rfl⟩
    | some payload =>
      obtain ⟨hg, hs⟩ := RESTAPICollector_gauges_after lib dec c target payload hf
      refine ⟨?_, Or.inr hs⟩
      rw [hg]
      exact (List.Forall₂.cons (GaugeVec.Follows_Reset_Set _ _ _)
      List.Forall₂.nil)
  | service c =>
    simp only [Collector.CollectWithTarget]
    cases hf : fetch lib target "/api/v2/status/services" dec.Services with
    | none =>
      have hnone : c.CollectWithTarget lib dec target = (c, []) := by
        unfold ServiceCollector.CollectWithTarget
        rw [hf]
      rw [hnone]
      exact ⟨Forall₂_Follows_refl _, Or.inl rfl⟩
    | some payload =>
      obtain ⟨hg, hs⟩ := ServiceCollector_gauges_after lib dec c target payload hf
      refine ⟨?_, Or.inr hs⟩
      rw [hg]
      exact (List.Forall₂.cons (GaugeVec.Follows_foldl_Set_Reset _ _ _ _)
      (List.Forall₂.cons (GaugeVec.Follows_foldl_Set_Reset _ _ _ _)
      List.Forall₂.nil))
  | system c =>
    simp only [Collector.CollectWithTarget]
    cases hf : fetch lib target "/api/v2/status/system" dec.SystemStats with
    | none =>
      have hnone : c.CollectWithTarget lib dec target = (c, []) := by
        unfold SystemCollector.CollectWithTarget
        rw [hf]
      rw [hnone]
      exact ⟨Forall₂_Follows_refl _, Or.inl rfl⟩
    | some payload =>
      obtain ⟨hg, hs⟩ := SystemCollector_gauges_after lib dec c target payload hf
      refine ⟨?_, Or.inr hs⟩
      rw [hg]
      exact (List.Forall₂.cons (GaugeVec.Follows_Set _ _ _)
      (List.Forall₂.cons (GaugeVec.Follows_Set _ _ _)
      (List.Forall₂.cons (GaugeVec.Follows_Set _ _ _)
      (List.Forall₂.cons (GaugeVec.Follows_Set _ _ _)
      (List.Forall₂.cons (GaugeVec.Follows_Set _ _ _)
      (List.Forall₂.cons (GaugeVec.Follows_Set _ _ _)
      (List.Forall₂.cons (GaugeVec.Follows_Set _ _ _)
      List.Forall₂.nil)))))))

/-- A call keeps the names of the gauges of a collector. -/
theorem Collector_names_after (lib : Lib) (dec : Decoders) (k : Collector) (target : Target) :
    (k.CollectWithTarget lib dec target).1.gauges.map (fun g => g.Name)
      = k.gauges.map (fun g => g.Name) :=
  (Forall₂_Follows_spec _ _ (Collector_call lib dec k target).1).1

/-- A call keeps a collector well formed. -/
theorem Collector_WF_after (lib : Lib) (dec : Decoders) (k : Collector) (target : Target)
    (h : k.WF) : (k.CollectWithTarget lib dec target).1.WF := by
  obtain ⟨hn, hw⟩ := Forall₂_Follows_spec _ _ (Collector_call lib dec k target).1
  exact ⟨by rw [hn]; exact h.1, hw h.2⟩

/-- The collectors are well formed as constructed. -/
theorem Collector_WF_registered : ∀ k ∈ Collector.registered, k.WF := by
  simp only [Collector.registered, Collector.WF, GaugeVec.WF]
  decide

/-! ### What `Describe` announces of what `CollectWithTarget` sends -/

/-- Every sample sent by a call carries the name of a gauge of the collector. -/
theorem Collector_sample_name (lib : Lib) (dec : Decoders) (k : Collector) (target : Target)
    (m : Metric) (hm : m ∈ (k.CollectWithTarget lib dec target).2) :
    ∃ g ∈ k.gauges, g.Name = m.Name := by
  obtain ⟨_, hs⟩ := Collector_call lib dec k target
  have hn := Collector_names_after lib dec k target
  rcases hs with hs | hs
  · rw [hs] at hm
    cases hm
  · rw [hs, List.mem_flatMap] at hm
    obtain ⟨g', hg', hmg⟩ := hm
    have hname : m.Name = g'.Name := by
      simp only [GaugeVec.Collect, List.mem_map] at hmg
      obtain ⟨p, _, rfl⟩ := hmg
      rfl
    have hmem : g'.Name ∈ k.gauges.map (fun g => g.Name) := by
      rw [← hn]
      exact List.mem_map.2 ⟨g', hg', rfl⟩
    obtain ⟨g, hg, hgn⟩ := List.mem_map.1 hmem
    exact ⟨g, hg, by rw [hname]; exact hgn⟩

/-- Counterexample to C28 as stated: the interface collector sends a sample of `interface_up`
and the CARP collector one of `carp_virtual_ip_status`, and neither name is among the
descriptors that the collector sends in `Describe`. -/
theorem Describe_omits_collected :
    ((⟨"pfsense_interface_up", ["fw", "wan", "WAN", "em0", "up"], 1⟩ : Metric)
      ∈ (InterfaceCollector.CollectWithTarget
          (Lib.only "https://fw:443/api/v2/status/interfaces" ⟨200, "ok", "", "", some "[]"⟩)
          (Decoders.interfaces [⟨"wan", "WAN", "em0", "up", 0, 0, 0, 0, 0, 0, 0, 0, 0, 0, 0⟩])
          NewInterfaceCollector
          { Target.zero with Host := "fw", Port := 443, Scheme := "https" }).2) ∧
    (∀ d ∈ NewInterfaceCollector.Describe, d.Name ≠ "pfsense_interface_up") ∧
    ((⟨"pfsense_carp_virtual_ip_status", ["fw", "master", "vip1", "10.0.0.1/24", "1", "wan"], 1⟩
        : Metric)
      ∈ (CARPCollector.CollectWithTarget
          (Lib.canned (.ok ⟨200, .ok "body"⟩) (.ok ⟨200, "ok", "", "", some "x"⟩))
          (Decoders.carp ⟨true, false⟩ [⟨"master", "vip1", "10.0.0.1/24", 1, "wan"⟩])
          NewCARPCollector
          { Target.zero with Host := "fw", Port := 443, Scheme := "https" }).2) ∧
    (∀ d ∈ NewCARPCollector.Describe, d.Name ≠ "pfsense_carp_virtual_ip_status") := by
  decide

/-- Claim C28 (amended).  For every concrete collector, every sample that `CollectWithTarget`
sends belongs to a metric family whose descriptor the collector sends in `Describe`, unless
it is a sample of `carp_virtual_ip_status` of the CARP collector or of `interface_up` of the
interface collector; and `MasterCollector.Describe` over a registry that holds the collector
announces the same descriptor. -/
theorem Describe_covers_collected (lib : Lib) (dec : Decoders) (k : Collector)
    (target : Target) (m : Metric) (hm : m ∈ (k.CollectWithTarget lib dec target).2) :
    ((∃ d ∈ k.Describe, d.Name = m.Name) ∨
      (∃ c, k = .carp c ∧ m.Name = c.carpVirtualIPStatus.Name) ∨
      (∃ c, k = .interface c ∧ m.Name = c.interfaceUp.Name)) ∧
    (∀ (mc : MasterCollector) (ks : List Collector), k ∈ ks →
      (∃ d ∈ mc.Describe (ks.map (Collector.toTargeted lib dec)), d.Name = m.Name) ∨
      (∃ c, k = .carp c ∧ m.Name = c.carpVirtualIPStatus.Name) ∨
      (∃ c, k = .interface c ∧ m.Name = c.interfaceUp.Name)) := by
  obtain ⟨g, hg, hgn⟩ := Collector_sample_name lib dec k target m hm
  have h1 : (∃ d ∈ k.Describe, d.Name = m.Name) ∨
      (∃ c, k = .carp c ∧ m.Name = c.carpVirtualIPStatus.Name) ∨
      (∃ c, k = .interface c ∧ m.Name = c.interfaceUp.Name) := by
    rw [← hgn]
    cases k with
    | carp c =>
      simp only [Collector.gauges, List.mem_cons, List.mem_singleton, List.not_mem_nil,
        or_false] at hg
      rcases hg with rfl | rfl | rfl
      · exact Or.inl ⟨⟨c.carpEnabled.Name, c.carpEnabled.LabelNames⟩,
          by simp [Collector.Describe, CARPCollector.Describe, GaugeVec.Describe], rfl⟩
      · exact Or.inl ⟨⟨c.carpMaintenanceModeEnabled.Name, c.carpMaintenanceModeEnabled.LabelNames⟩,
          by simp [Collector.Describe, CARPCollector.Describe, GaugeVec.Describe], rfl⟩
      · exact Or.inr (Or.inl ⟨c, rfl, rfl⟩)
    | interface c =>
      simp only [Collector.gauges, List.mem_cons, List.mem_singleton, List.not_mem_nil,
        or_false] at hg
      rcases hg with rfl | hg
      · exact Or.inr (Or.inr ⟨c, rfl, rfl⟩)
      · refine Or.inl ⟨⟨g.Name, g.LabelNames⟩, ?_, rfl⟩
        rcases hg with rfl | rfl | rfl | rfl | rfl | rfl | rfl | rfl | rfl | rfl | rfl <;>
          simp [Collector.Describe, InterfaceCollector.Describe, GaugeVec.Describe]
    | firewallSchedule c =>
      refine Or.inl ⟨⟨g.Name, g.LabelNames⟩, ?_, rfl⟩
      simp only [Collector.gauges, List.mem_cons, List.mem_singleton, List.not_mem_nil,
        or_false] at hg
      subst hg
      simp [Collector.Describe, FirewallScheduleCollector.Describe, GaugeVec.Describe]
    | firewallStates c =>
      refine Or.inl ⟨⟨g.Name, g.LabelNames⟩, ?_, rfl⟩
      simp only [Collector.gauges, List.mem_cons, List.mem_singleton, List.not_mem_nil,
        or_false] at hg
      rcases hg with rfl | rfl | rfl <;>
        simp [Collector.Describe, FirewallStatesCollector.Describe, GaugeVec.Describe]
    | gateway c =>
      refine Or.inl ⟨⟨g.Name, g.LabelNames⟩, ?_, rfl⟩
      simp only [Collector.gauges, List.mem_cons, List.mem_singleton, List.not_mem_nil,
        or_false] at hg
      rcases hg with rfl | rfl | rfl | rfl <;>
        simp [Collector.Describe, GatewayCollector.Describe, GaugeVec.Describe]
    | loginProtection c =>
      refine Or.inl ⟨⟨g.Name, g.LabelNames⟩, ?_, rfl⟩
      simp only [Collector.gauges, List.mem_cons, List.mem_singleton, List.not_mem_nil,
        or_false] at hg
      rcases hg with rfl | rfl <;>
        simp [Collector.Describe, LoginProtectionCollector.Describe, GaugeVec.Describe]
    | package c =>
      refine Or.inl ⟨⟨g.Name, g.LabelNames⟩, ?_, rfl⟩
      simp only [Collector.gauges, List.mem_cons, List.mem_singleton, List.not_mem_nil,
        or_false] at hg
      subst hg
      simp [Collector.Describe, PackageCollector.Describe, GaugeVec.Describe]
    | restapi c =>
      refine Or.inl ⟨⟨g.Name, g.LabelNames⟩, ?_, rfl⟩
      simp only [Collector.gauges, List.mem_cons, List.mem_singleton, List.not_mem_nil,
        or_false] at hg
      subst hg
      simp [Collector.Describe, RESTAPICollector.Describe, GaugeVec.Describe]
    | service c =>
      refine Or.inl ⟨⟨g.Name, g.LabelNames⟩, ?_, rfl⟩
      simp only [Collector.gauges, List.mem_cons, List.mem_singleton, List.not_mem_nil,
        or_false] at hg
      rcases hg with rfl | rfl <;>
        simp [Collector.Describe, ServiceCollector.Describe, GaugeVec.Describe]
    | system c =>
      refine Or.inl ⟨⟨g.Name, g.LabelNames⟩, ?_, rfl⟩
      simp only [Collector.gauges, List.mem_cons, List.mem_singleton, List.not_mem_nil,
        or_false] at hg
      rcases hg with rfl | rfl | rfl | rfl | rfl | rfl | rfl <;>
        simp [Collector.Describe, SystemCollector.Describe, GaugeVec.Describe]
  refine ⟨h1, ?_⟩
  intro mc ks hk
  rcases h1 with ⟨d, hd, hdn⟩ | h | h
  · refine Or.inl ⟨d, ?_, hdn⟩
    simp only [MasterCollector.Describe, List.mem_flatMap, List.mem_map]
    exact ⟨Collector.toTargeted lib dec k, ⟨k, hk, rfl⟩, hd⟩
  · exact Or.inr (Or.inl h)
  · exact Or.inr (Or.inr h)

/-- Witness for C28 (amended): the sample that the service collector sends for a service is
of a family that its `Describe` announces. -/
theorem Describe_covers_collected_witness :
    (∃ d ∈ (Collector.service NewServiceCollector).Describe, d.Name = "pfsense_service_up") ∨
      (∃ c, Collector.service NewServiceCollector = .carp c
        ∧ "pfsense_service_up" = c.carpVirtualIPStatus.Name) ∨
      (∃ c, Collector.service NewServiceCollector = .interface c
        ∧ "pfsense_service_up" = c.interfaceUp.Name) :=
  (Describe_covers_collected
    (Lib.only "https://fw:443/api/v2/status/services" ⟨200, "ok", "", "", some "[]"⟩)
    (Decoders.services [⟨"sshd", true, true⟩])
    (.service NewServiceCollector)
    { Target.zero with Host := "fw", Port := 443, Scheme := "https" }
    ⟨"pfsense_service_up", ["fw", "sshd"], 1⟩ (by decide)).1

/-! ### One sample per label values, and the last record wins -/

/-- The samples of gauges that have names of their own and one child per label values: no
two of them have the same name and label values. -/
theorem nodup_samples_of_WF (gs : List GaugeVec) (hn : (gs.map (fun g => g.Name)).Nodup)
    (hw : ∀ g ∈ gs, g.WF) :
    ((gs.flatMap GaugeVec.Collect).map (fun m => (m.Name, m.LabelValues))).Nodup := by
  induction gs with
  | nil => simp
  | cons g gs ih =>
    rw [List.map_cons, List.nodup_cons] at hn
    simp only [List.flatMap_cons, List.map_append]
    rw [List.nodup_append]
    refine ⟨?_, ih hn.2 (fun x hx => hw x (List.mem_cons_of_mem _ hx)), ?_⟩
    · have hmap : List.map (fun m : Metric => (m.Name, m.LabelValues)) g.Collect
          = List.map (fun lvs => (g.Name, lvs)) (g.children.map (fun p => p.1)) := by
        simp only [GaugeVec.Collect, List.map_map]
        rfl
      rw [hmap]
      refine List.Nodup.map ?_ (hw g (List.mem_cons_self _ _))
      intro a b hab
      exact (Prod.mk.inj hab).2
    · intro a ha hb
      obtain ⟨m, hm, rfl⟩ := List.mem_map.1 ha
      obtain ⟨m', hm', heq⟩ := List.mem_map.1 hb
      simp only [GaugeVec.Collect, List.mem_map] at hm
      obtain ⟨p, _, rfl⟩ := hm
      rw [List.mem_flatMap] at hm'
      obtain ⟨g', hg', hm'⟩ := hm'
      simp only [GaugeVec.Collect, List.mem_map] at hm'
      obtain ⟨p', _, rfl⟩ := hm'
      simp only [Prod.mk.injEq] at heq
      exact hn.1 (List.mem_map.2 ⟨g', hg', heq.1⟩)

/-- The last record wins on a gauge that is reset and then set once per record, when the
samples sent are those of a list of gauges that holds it. -/
theorem LastWins_of_gauge {α : Type} (samples : List Metric) (payload : List α)
    (g : GaugeVec) (key : α → List String) (val : α → Float64) (gs : List GaugeVec)
    (hs : samples = gs.flatMap GaugeVec.Collect)
    (hg : payload.foldl (fun g r => g.Set (key r) (val r)) g.Reset ∈ gs) :
    LastWins samples payload g.Name key val := by
  intro pre r post hp hlast
  subst hp
  rw [hs, List.mem_flatMap]
  refine ⟨_, hg, ?_⟩
  simp only [GaugeVec.Collect, List.mem_map]
  refine ⟨(key r, val r), (GaugeVec.child_of_last key val g pre r post hlast).1, ?_⟩
  rw [GaugeVec.Name_foldl_Set]
  rfl

/-- Claim C22.  One call of `CollectWithTarget`, on any collector in a state in which its
gauges have names of their own and one child per label values (as constructed, and after
every call), sends no two samples with the same metric name and the same label values.  And
on every gauge that a collector sets once per record of its payload, a record after which no
record of the payload has the same label values has its value among the samples sent: where
several records share the label values, the value sent is that of the last one. -/
theorem CollectWithTarget_one_sample_per_labels (lib : Lib) (dec : Decoders)
    (target : Target) :
    (∀ k : Collector, k.WF →
      ((k.CollectWithTarget lib dec target).2.map (fun m => (m.Name, m.LabelValues))).Nodup) ∧
    (∀ (c : GatewayCollector) (gateways : List GatewayStats),
      fetch lib target "/api/v2/status/gateways" dec.Gateways = some gateways →
      LastWins (c.CollectWithTarget lib dec target).2 gateways c.gatewayLossRatio.Name
        (fun (gw : GatewayStats) => [target.Host, gw.Name, gw.SourceIP, gw.MonitorIP])
        (fun (gw : GatewayStats) => gw.Loss / 100.0) ∧
      LastWins (c.CollectWithTarget lib dec target).2 gateways c.gatewayDelaySeconds.Name
        (fun (gw : GatewayStats) => [target.Host, gw.Name, gw.SourceIP, gw.MonitorIP])
        (fun (gw : GatewayStats) => gw.Delay / 1000.0) ∧
      LastWins (c.CollectWithTarget lib dec target).2 gateways c.gatewayStdDevSeconds.Name
        (fun (gw : GatewayStats) => [target.Host, gw.Name, gw.SourceIP, gw.MonitorIP])
        (fun (gw : GatewayStats) => gw.StdDev / 1000.0) ∧
      LastWins (c.CollectWithTarget lib dec target).2 gateways c.gatewayUp.Name
        (fun (gw : GatewayStats) => [target.Host, gw.Name, gw.SourceIP, gw.MonitorIP, gw.Substatus])
        (fun (gw : GatewayStats) => gatewayUpToFloat64 gw.Status)) ∧
    (∀ (c : ServiceCollector) (services : List ServiceStats),
      fetch lib target "/api/v2/status/services" dec.Services = some services →
      LastWins (c.CollectWithTarget lib dec target).2 services c.serviceUp.Name
        (fun (svc : ServiceStats) => [target.Host, svc.Name])
        (fun (svc : ServiceStats) => BoolToFloat64 svc.Status) ∧
      LastWins (c.CollectWithTarget lib dec target).2 services c.serviceEnabled.Name
        (fun (svc : ServiceStats) => [target.Host, svc.Name])
        (fun (svc : ServiceStats) => BoolToFloat64 svc.Enabled)) ∧
    (∀ (c : InterfaceCollector) (interfaces : List InterfaceStats),
      fetch lib target "/api/v2/status/interfaces" dec.Interfaces = some interfaces →
      LastWins (c.CollectWithTarget lib dec target).2 interfaces c.interfaceUp.Name
        (fun (iface : InterfaceStats) => [target.Host, iface.Name, iface.Descr, iface.Hwif, iface.Status])
        (fun (iface : InterfaceStats) => interfaceStatusToFloat64 iface.Status) ∧
      LastWins (c.CollectWithTarget lib dec target).2 interfaces c.interfaceInErrsCount.Name
        (fun (iface : InterfaceStats) => [target.Host, iface.Name, iface.Descr, iface.Hwif])
        (fun (iface : InterfaceStats) => iface.InErrs) ∧
      LastWins (c.CollectWithTarget lib dec target).2 interfaces c.interfaceOutErrsCount.Name
        (fun (iface : InterfaceStats) => [target.Host, iface.Name, iface.Descr, iface.Hwif])
        (fun (iface : InterfaceStats) => iface.OutErrs) ∧
      LastWins (c.CollectWithTarget lib dec target).2 interfaces c.interfaceCollisionsCount.Name
        (fun (iface : InterfaceStats) => [target.Host, iface.Name, iface.Descr, iface.Hwif])
        (fun (iface : InterfaceStats) => iface.Collisions) ∧
      LastWins (c.CollectWithTarget lib dec target).2 interfaces c.interfaceInBytesCount.Name
        (fun (iface : InterfaceStats) => [target.Host, iface.Name, iface.Descr, iface.Hwif])
        (fun (iface : InterfaceStats) => iface.InBytes) ∧
      LastWins (c.CollectWithTarget lib dec target).2 interfaces c.interfaceInBytesPassCount.Name
        (fun (iface : InterfaceStats) => [target.Host, iface.Name, iface.Descr, iface.Hwif])
        (fun (iface : InterfaceStats) => iface.InBytesPass) ∧
      LastWins (c.CollectWithTarget lib dec target).2 interfaces c.interfaceOutBytesCount.Name
        (fun (iface : InterfaceStats) => [target.Host, iface.Name, iface.Descr, iface.Hwif])
        (fun (iface : InterfaceStats) => iface.OutBytes) ∧
      LastWins (c.CollectWithTarget lib dec target).2 interfaces c.interfaceOutBytesPassCount.Name
        (fun (iface : InterfaceStats) => [target.Host, iface.Name, iface.Descr, iface.Hwif])
        (fun (iface : InterfaceStats) => iface.OutBytesPass) ∧
      LastWins (c.CollectWithTarget lib dec target).2 interfaces c.interfaceInPktsCount.Name
        (fun (iface : InterfaceStats) => [target.Host, iface.Name, iface.Descr, iface.Hwif])
        (fun (iface : InterfaceStats) => iface.InPkts) ∧
      LastWins (c.CollectWithTarget lib dec target).2 interfaces c.interfaceInPktsPassCount.Name
        (fun (iface : InterfaceStats) => [target.Host, iface.Name, iface.Descr, iface.Hwif])
        (fun (iface : InterfaceStats) => iface.InPktsPass) ∧
      LastWins (c.CollectWithTarget lib dec target).2 interfaces c.interfaceOutPktsCount.Name
        (fun (iface : InterfaceStats) => [target.Host, iface.Name, iface.Descr, iface.Hwif])
        (fun (iface : InterfaceStats) => iface.OutPkts) ∧
      LastWins (c.CollectWithTarget lib dec target).2 interfaces c.interfaceOutPktsPassCount.Name
        (fun (iface : InterfaceStats) => [target.Host, iface.Name, iface.Descr, iface.Hwif])
        (fun (iface : InterfaceStats) => iface.OutPktsPass)) ∧
    (∀ (c : PackageCollector) (packages : List PackageStats),
      fetch lib target "/api/v2/system/packages" dec.Packages = some packages →
      LastWins (c.CollectWithTarget lib dec target).2 packages c.updateAvailable.Name
        (fun (pkg : PackageStats) => [target.Host, pkg.Name, pkg.Shortname, pkg.InstalledVersion, pkg.LatestVersion])
        (fun (pkg : PackageStats) => BoolToFloat64 pkg.UpdateAvailable)) ∧
    (∀ (c : FirewallScheduleCollector) (schedules : List FirewallScheduleStats),
      fetch lib target "/api/v2/firewall/schedules" dec.FirewallSchedules = some schedules →
      LastWins (c.CollectWithTarget lib dec target).2 schedules c.firewallScheduleActive.Name
        (fun (schedule : FirewallScheduleStats) => [target.Host, schedule.Name])
        (fun (schedule : FirewallScheduleStats) => BoolToFloat64 schedule.Active)) ∧
    (∀ (c : LoginProtectionCollector) (stats : LoginProtectionStats),
      fetch lib target "/api/v2/diagnostics/table?id=sshguard" dec.LoginProtectionStats
        = some stats →
      LastWins (c.CollectWithTarget lib dec target).2 stats.Entries
        c.loginProtectionBlockedIP.Name
        (fun (entry : String) => [target.Host, entry]) (fun _ => 1)) ∧
    (∀ (c : CARPCollector) (stats : CARPStats) (virtualIPs : List CARPVirtualIPStatus),
      fetch lib target "/api/v2/status/carp" dec.CARPStats = some stats →
      fetch lib target "/api/v2/firewall/virtual_ips?mode=carp" dec.CARPVirtualIPs
        = some virtualIPs →
      LastWins (c.CollectWithTarget lib dec target).2 virtualIPs c.carpVirtualIPStatus.Name
        (fun (ip : CARPVirtualIPStatus) =>
          [target.Host, ip.CARPStatus, ip.UniqID, ip.Subnet, toString ip.VHID, ip.Interface])
        (fun (ip : CARPVirtualIPStatus) => CARPStatusToFloat64 ip.CARPStatus)) := by
  refine ⟨?_, ?_, ?_, ?_, ?_, ?_, ?_, ?_⟩
  · intro k hk
    have hk' := Collector_WF_after lib dec k target hk
    rcases (Collector_call lib dec k target).2 with hs | hs
    · rw [hs]
      exact List.nodup_nil
    · rw [hs]
      exact nodup_samples_of_WF _ hk'.1 hk'.2
  · intro c gateways hf
    obtain ⟨hg, hs⟩ := GatewayCollector_gauges_after lib dec c target gateways hf
    rw [hg] at hs
    exact ⟨LastWins_of_gauge _ _ c.gatewayLossRatio _ _ _ hs (List.mem_cons_self _ _),
      LastWins_of_gauge _ _ c.gatewayDelaySeconds _ _ _ hs (List.mem_cons_of_mem _ (List.mem_cons_self _ _)),
      LastWins_of_gauge _ _ c.gatewayStdDevSeconds _ _ _ hs (List.mem_cons_of_mem _ (List.mem_cons_of_mem _ (List.mem_cons_self _ _))),
      LastWins_of_gauge _ _ c.gatewayUp _ _ _ hs (List.mem_cons_of_mem _ (List.mem_cons_of_mem _ (List.mem_cons_of_mem _ (List.mem_cons_self _ _))))⟩
  · intro c services hf
    obtain ⟨hg, hs⟩ := ServiceCollector_gauges_after lib dec c target services hf
    rw [hg] at hs
    exact ⟨LastWins_of_gauge _ _ c.serviceUp _ _ _ hs (List.mem_cons_self _ _),
      LastWins_of_gauge _ _ c.serviceEnabled _ _ _ hs (List.mem_cons_of_mem _ (List.mem_cons_self _ _))⟩
  · intro c interfaces hf
    obtain ⟨hg, hs⟩ := InterfaceCollector_gauges_after lib dec c target interfaces hf
    rw [hg] at hs
    exact ⟨LastWins_of_gauge _ _ c.interfaceUp _ _ _ hs (List.mem_cons_self _ _),
      LastWins_of_gauge _ _ c.interfaceInErrsCount _ _ _ hs (List.mem_cons_of_mem _ (List.mem_cons_self _ _)),
      LastWins_of_gauge _ _ c.interfaceOutErrsCount _ _ _ hs (List.mem_cons_of_mem _ (List.mem_cons_of_mem _ (List.mem_cons_self _ _))),
      LastWins_of_gauge _ _ c.interfaceCollisionsCount _ _ _ hs (List.mem_cons_of_mem _ (List.mem_cons_of_mem _ (List.mem_cons_of_mem _ (List.mem_cons_self _ _)))),
      LastWins_of_gauge _ _ c.interfaceInBytesCount _ _ _ hs (List.mem_cons_of_mem _ (List.mem_cons_of_mem _ (List.mem_cons_of_mem _ (List.mem_cons_of_mem _ (List.mem_cons_self _ _))))),
      LastWins_of_gauge _ _ c.interfaceInBytesPassCount _ _ _ hs (List.mem_cons_of_mem _ (List.mem_cons_of_mem _ (List.mem_cons_of_mem _ (List.mem_cons_of_mem _ (List.mem_cons_of_mem _ (List.mem_cons_self _ _)))))),
      LastWins_of_gauge _ _ c.interfaceOutBytesCount _ _ _ hs (List.mem_cons_of_mem _ (List.mem_cons_of_mem _ (List.mem_cons_of_mem _ (List.mem_cons_of_mem _ (List.mem_cons_of_mem _ (List.mem_cons_of_mem _ (List.mem_cons_self _ _))))))),
      LastWins_of_gauge _ _ c.interfaceOutBytesPassCount _ _ _ hs (List.mem_cons_of_mem _ (List.mem_cons_of_mem _ (List.mem_cons_of_mem _ (List.mem_cons_of_mem _ (List.mem_cons_of_mem _ (List.mem_cons_of_mem _ (List.mem_cons_of_mem _ (List.mem_cons_self _ _)))))))),
      LastWins_of_gauge _ _ c.interfaceInPktsCount _ _ _ hs (List.mem_cons_of_mem _ (List.mem_cons_of_mem _ (List.mem_cons_of_mem _ (List.mem_cons_of_mem _ (List.mem_cons_of_mem _ (List.mem_cons_of_mem _ (List.mem_cons_of_mem _ (List.mem_cons_of_mem _ (List.mem_cons_self _ _))))))))),
      LastWins_of_gauge _ _ c.interfaceInPktsPassCount _ _ _ hs (List.mem_cons_of_mem _ (List.mem_cons_of_mem _ (List.mem_cons_of_mem _ (List.mem_cons_of_mem _ (List.mem_cons_of_mem _ (List.mem_cons_of_mem _ (List.mem_cons_of_mem _ (List.mem_cons_of_mem _ (List.mem_cons_of_mem _ (List.mem_cons_self _ _)))))))))),
      LastWins_of_gauge _ _ c.interfaceOutPktsCount _ _ _ hs (List.mem_cons_of_mem _ (List.mem_cons_of_mem _ (List.mem_cons_of_mem _ (List.mem_cons_of_mem _ (List.mem_cons_of_mem _ (List.mem_cons_of_mem _ (List.mem_cons_of_mem _ (List.mem_cons_of_mem _ (List.mem_cons_of_mem _ (List.mem_cons_of_mem _ (List.mem_cons_self _ _))))))))))),
      LastWins_of_gauge _ _ c.interfaceOutPktsPassCount _ _ _ hs (List.mem_cons_of_mem _ (List.mem_cons_of_mem _ (List.mem_cons_of_mem _ (List.mem_cons_of_mem _ (List.mem_cons_of_mem _ (List.mem_cons_of_mem _ (List.mem_cons_of_mem _ (List.mem_cons_of_mem _ (List.mem_cons_of_mem _ (List.mem_cons_of_mem _ (List.mem_cons_of_mem _ (List.mem_cons_self _ _))))))))))))⟩
  · intro c packages hf
    obtain ⟨hg, hs⟩ := PackageCollector_gauges_after lib dec c target packages hf
    rw [hg] at hs
    exact LastWins_of_gauge _ _ c.updateAvailable _ _ _ hs (List.mem_cons_self _ _)
  · intro c schedules hf
    obtain ⟨hg, hs⟩ := FirewallScheduleCollector_gauges_after lib dec c target schedules hf
    rw [hg] at hs
    exact LastWins_of_gauge _ _ c.firewallScheduleActive _ _ _ hs (List.mem_cons_self _ _)
  · intro c stats hf
    obtain ⟨hg, hs⟩ := LoginProtectionCollector_gauges_after lib dec c target stats hf
    rw [hg] at hs
    exact LastWins_of_gauge _ _ c.loginProtectionBlockedIP _ _ _ hs (List.mem_cons_self _ _)
  · intro c stats virtualIPs hf hf2
    obtain ⟨hg, hs⟩ := CARPCollector_gauges_after lib dec c target stats virtualIPs hf hf2
    rw [hg] at hs
    exact LastWins_of_gauge _ _ c.carpVirtualIPStatus _ _ _ hs (List.mem_cons_of_mem _ (List.mem_cons_of_mem _ (List.mem_cons_self _ _)))

/-- Witness for C22: two records for the service `sshd`, the first down and the second up;
the samples of the service collector are distinct in name and label values, and the sample
of `service_up` for `sshd` carries the 1 of the second record. -/
theorem CollectWithTarget_one_sample_per_labels_witness :
    (((Collector.service NewServiceCollector).CollectWithTarget
        (Lib.only "https://fw:443/api/v2/status/services" ⟨200, "ok", "", "", some "[]"⟩)
        (Decoders.services [⟨"sshd", true, false⟩, ⟨"sshd", true, true⟩])
        { Target.zero with Host := "fw", Port := 443, Scheme := "https" }).2.map
          (fun m => (m.Name, m.LabelValues))).Nodup ∧
    (⟨"pfsense_service_up", ["fw", "sshd"], 1⟩ : Metric)
      ∈ (ServiceCollector.CollectWithTarget
          (Lib.only "https://fw:443/api/v2/status/services" ⟨200, "ok", "", "", some "[]"⟩)
          (Decoders.services [⟨"sshd", true, false⟩, ⟨"sshd", true, true⟩])
          NewServiceCollector
          { Target.zero with Host := "fw", Port := 443, Scheme := "https" }).2 :=
  ⟨(CollectWithTarget_one_sample_per_labels
      (Lib.only "https://fw:443/api/v2/status/services" ⟨200, "ok", "", "", some "[]"⟩)
      (Decoders.services [⟨"sshd", true, false⟩, ⟨"sshd", true, true⟩])
      { Target.zero with Host := "fw", Port := 443, Scheme := "https" }).1
      (.service NewServiceCollector)
      (by simp only [Collector.WF, Collector.gauges, GaugeVec.WF]; decide),
   ((CollectWithTarget_one_sample_per_labels
      (Lib.only "https://fw:443/api/v2/status/services" ⟨200, "ok", "", "", some "[]"⟩)
      (Decoders.services [⟨"sshd", true, false⟩, ⟨"sshd", true, true⟩])
      { Target.zero with Host := "fw", Port := 443, Scheme := "https" }).2.2.1
      NewServiceCollector [⟨"sshd", true, false⟩, ⟨"sshd", true, true⟩] (by decide)).1
      [⟨"sshd", true, false⟩] ⟨"sshd", true, true⟩ [] rfl (by decide)⟩

/-! ### The number of samples of a call and the buffer of `Collect` -/

/-- The label values under which a gauge has a child after `Set`: those set, and those it had
a child under before. -/
theorem GaugeVec.mem_keys_Set (g : GaugeVec) (lvs : List String) (v : Float64)
    (k : List String) :
    k ∈ (g.Set lvs v).children.map (fun p => p.1)
      ↔ k = lvs ∨ k ∈ g.children.map (fun p => p.1) := by
  simp only [List.mem_map]
  constructor
  · rintro ⟨p, hp, rfl⟩
    rcases (GaugeVec.mem_children_Set g lvs v p).1 hp with h | ⟨h, _⟩
    · exact Or.inl (by rw [h])
    · exact Or.inr ⟨p, h, rfl⟩
  · rintro (rfl | ⟨p, hp, rfl⟩)
    · exact ⟨(k, v), (GaugeVec.mem_children_Set g k v _).2 (Or.inl rfl), rfl⟩
    · by_cases hk : p.1 = lvs
      · exact ⟨(lvs, v), (GaugeVec.mem_children_Set g lvs v _).2 (Or.inl rfl), hk.symm⟩
      · exact ⟨p, (GaugeVec.mem_children_Set g lvs v _).2 (Or.inr ⟨hp, hk⟩), rfl⟩

/-- `Set` adds one child when the gauge had none under the label values, and none otherwise. -/
theorem GaugeVec.length_Set (g : GaugeVec) (lvs : List String) (v : Float64) :
    (g.Set lvs v).children.length
      = if lvs ∈ g.children.map (fun p => p.1) then g.children.length
        else g.children.length + 1 := by
  have hany : (g.children.any (fun p => p.1 = lvs) = true)
      ↔ lvs ∈ g.children.map (fun p => p.1) := by
    simp only [List.any_eq_true, decide_eq_true_eq, List.mem_map]
  unfold GaugeVec.Set
  by_cases h : g.children.any (fun p => p.1 = lvs) = true
  · rw [if_pos h, if_pos (hany.1 h)]
    simp
  · rw [if_neg h, if_neg (fun hk => h (hany.2 hk))]
    simp

/-- A loop of `Set`s adds at most one child per record. -/
theorem GaugeVec.length_foldl_Set_le {α : Type} (key : α → List String) (val : α → Float64)
    (rs : List α) (g : GaugeVec) :
    (rs.foldl (fun g r => g.Set (key r) (val r)) g).children.length
      ≤ g.children.length + rs.length := by
  induction rs generalizing g with
  | nil => simp
  | cons r rs ih =>
    have h1 := ih (g.Set (key r) (val r))
    have h2 := GaugeVec.length_Set g (key r) (val r)
    simp only [List.foldl_cons, List.length_cons]
    split at h2 <;> omega

/-- A loop of `Set`s over records with label values that differ from one another and from
those of the children the gauge has adds one child per record. -/
theorem GaugeVec.length_foldl_Set_eq {α : Type} (key : α → List String) (val : α → Float64)
    (rs : List α) (g : GaugeVec)
    (hnew : ∀ r ∈ rs, key r ∉ g.children.map (fun p => p.1))
    (hnd : (rs.map key).Nodup) :
    (rs.foldl (fun g r => g.Set (key r) (val r)) g).children.length
      = g.children.length + rs.length := by
  induction rs generalizing g with
  | nil => simp
  | cons r rs ih =>
    rw [List.map_cons, List.nodup_cons] at hnd
    have h2 := GaugeVec.length_Set g (key r) (val r)
    rw [if_neg (hnew r (List.mem_cons_self _ _))] at h2
    have h1 := ih (g.Set (key r) (val r))
      (by
        intro r' hr' hmem
        rcases (GaugeVec.mem_keys_Set g (key r) (val r) (key r')).1 hmem with h | h
        · exact hnd.1 (h ▸ List.mem_map.2 ⟨r', hr', rfl⟩)
        · exact hnew r' (List.mem_cons_of_mem _ hr') h)
      hnd.2
    simp only [List.foldl_cons, List.length_cons]
    omega

/-- Label values that differ on two records whenever other label values of the records
differ: no two records share them if no two share the others. -/
theorem nodup_map_of_imp {α β γ : Type} (f : α → β) (g : α → γ)
    (h : ∀ x y, g x = g y → f x = f y) (l : List α) (hf : (l.map f).Nodup) :
    (l.map g).Nodup := by
  induction l with
  | nil => simp
  | cons x xs ih =>
    rw [List.map_cons, List.nodup_cons] at hf ⊢
    refine ⟨?_, ih hf.2⟩
    intro hx
    obtain ⟨y, hy, hxy⟩ := List.mem_map.1 hx
    exact hf.1 (List.mem_map.2 ⟨y, hy, h _ _ hxy⟩)

/-- The number of samples of gauges with at most `n` children each. -/
theorem length_flatMap_Collect_le (gs : List GaugeVec) (n : Nat)
    (h : ∀ g ∈ gs, g.children.length ≤ n) :
    (gs.flatMap GaugeVec.Collect).length ≤ gs.length * n := by
  induction gs with
  | nil => simp
  | cons g gs ih =>
    have h1 := h g (List.mem_cons_self _ _)
    have h2 := ih (fun x hx => h x (List.mem_cons_of_mem _ hx))
    simp only [List.flatMap_cons, List.length_append, List.length_cons, GaugeVec.Collect,
      List.length_map, Nat.add_mul, Nat.one_mul] at h2 ⊢
    omega

/-- The number of samples of gauges with `n` children each. -/
theorem length_flatMap_Collect_eq (gs : List GaugeVec) (n : Nat)
    (h : ∀ g ∈ gs, g.children.length = n) :
    (gs.flatMap GaugeVec.Collect).length = gs.length * n := by
  induction gs with
  | nil => simp
  | cons g gs ih =>
    have h1 := h g (List.mem_cons_self _ _)
    have h2 := ih (fun x hx => h x (List.mem_cons_of_mem _ hx))
    simp only [List.flatMap_cons, List.length_append, List.length_cons, GaugeVec.Collect,
      List.length_map, Nat.add_mul, Nat.one_mul] at h2 ⊢
    omega

/-- A gauge reset and then set in a loop has at most one child per record. -/
theorem GaugeVec.length_foldl_Set_Reset_le {α : Type} (key : α → List String)
    (val : α → Float64) (rs : List α) (g : GaugeVec) :
    (rs.foldl (fun g r => g.Set (key r) (val r)) g.Reset).children.length ≤ rs.length := by
  have h := GaugeVec.length_foldl_Set_le key val rs g.Reset
  simpa [GaugeVec.Reset] using h

/-- A gauge reset and then set in a loop over records with label values that differ from one
another has one child per record. -/
theorem GaugeVec.length_foldl_Set_Reset_eq {α : Type} (key : α → List String)
    (val : α → Float64) (rs : List α) (g : GaugeVec) (hnd : (rs.map key).Nodup) :
    (rs.foldl (fun g r => g.Set (key r) (val r)) g.Reset).children.length = rs.length := by
  have h := GaugeVec.length_foldl_Set_eq key val rs g.Reset
    (by intro r _ hmem; simp [GaugeVec.Reset] at hmem) hnd
  simpa [GaugeVec.Reset] using h

/-- The interface collector sends at most 12 samples per record of its payload, and 12 per
record when no two records have the same name, description and hardware interface. -/
theorem InterfaceCollector_sample_count (lib : Lib) (dec : Decoders) (c : InterfaceCollector) (target : Target)
    (interfaces : List InterfaceStats)
    (hfetch : fetch lib target "/api/v2/status/interfaces" dec.Interfaces = some interfaces) :
    (c.CollectWithTarget lib dec target).2.length ≤ 12 * interfaces.length ∧
    ((interfaces.map (fun (iface : InterfaceStats) => [iface.Name, iface.Descr, iface.Hwif])).Nodup →
      (c.CollectWithTarget lib dec target).2.length = 12 * interfaces.length) := by
  obtain ⟨hg, hs⟩ := InterfaceCollector_gauges_after lib dec c target interfaces hfetch
  rw [hs, hg]
  constructor
  · refine le_trans (length_flatMap_Collect_le _ interfaces.length ?_) (by simp)
    intro g hg
    simp only [List.mem_cons, List.mem_singleton, List.not_mem_nil, or_false] at hg
    rcases hg with rfl | rfl | rfl | rfl | rfl | rfl | rfl | rfl | rfl | rfl | rfl | rfl <;>
      exact GaugeVec.length_foldl_Set_Reset_le _ _ _ _
  · intro hnd
    refine (length_flatMap_Collect_eq _ interfaces.length ?_).trans (by simp)
    intro g hg
    simp only [List.mem_cons, List.mem_singleton, List.not_mem_nil, or_false] at hg
    rcases hg with rfl | rfl | rfl | rfl | rfl | rfl | rfl | rfl | rfl | rfl | rfl | rfl <;>
      exact GaugeVec.length_foldl_Set_Reset_eq _ _ _ _
        (nodup_map_of_imp _ _
          (fun x y h => by
            simp only [List.cons.injEq, and_true, true_and] at h ⊢
            tauto)
          _ hnd)

/-- The gateway collector sends at most 4 samples per record of its payload, and 4 per
record when no two records have the same name, source IP and monitor IP. -/
theorem GatewayCollector_sample_count (lib : Lib) (dec : Decoders) (c : GatewayCollector) (target : Target)
    (gateways : List GatewayStats)
    (hfetch : fetch lib target "/api/v2/status/gateways" dec.Gateways = some gateways) :
    (c.CollectWithTarget lib dec target).2.length ≤ 4 * gateways.length ∧
    ((gateways.map (fun (gw : GatewayStats) => [gw.Name, gw.SourceIP, gw.MonitorIP])).Nodup →
      (c.CollectWithTarget lib dec target).2.length = 4 * gateways.length) := by
  obtain ⟨hg, hs⟩ := GatewayCollector_gauges_after lib dec c target gateways hfetch
  rw [hs, hg]
  constructor
  · refine le_trans (length_flatMap_Collect_le _ gateways.length ?_) (by simp)
    intro g hg
    simp only [List.mem_cons, List.mem_singleton, List.not_mem_nil, or_false] at hg
    rcases hg with rfl | rfl | rfl | rfl <;>
      exact GaugeVec.length_foldl_Set_Reset_le _ _ _ _
  · intro hnd
    refine (length_flatMap_Collect_eq _ gateways.length ?_).trans (by simp)
    intro g hg
    simp only [List.mem_cons, List.mem_singleton, List.not_mem_nil, or_false] at hg
    rcases hg with rfl | rfl | rfl | rfl <;>
      exact GaugeVec.length_foldl_Set_Reset_eq _ _ _ _
        (nodup_map_of_imp _ _
          (fun x y h => by
            simp only [List.cons.injEq, and_true, true_and] at h ⊢
            tauto)
          _ hnd)

set_option maxRecDepth 100000 in
/-- Claim C27, evaluated where the code departs from it.  The target leaves every optional
setting out and is validated, which gives it the default buffer size, 100; the payload has
nine interfaces with different names; the interface collector sends 12 × 9 = 108 samples,
more than the buffer holds.  With 100 samples in the buffer the goroutine of `Collect` that
runs the collector has no step: its next send blocks, and nothing receives from the buffer
before `CollectWithTarget` returns.  The run of `Collect` over the registry of this one
collector reaches that point (the start of the goroutine, then its acquire, its allow-list
test and a hundred sends) with no sample forwarded to the output channel, and there neither
the goroutine nor the loop nor `wg.Wait()` can move. -/
theorem Collect_buffer_overflow :
    ((Target.Validate
        { Target.zero with Host := "fw", Port := 443, AuthMethod := "key", Key := "k" }).2 = none) ∧
    ((Target.Validate
            { Target.zero with Host := "fw", Port := 443, AuthMethod := "key", Key := "k" }).1.MaxCollectorBufferSize = 100) ∧
    ((InterfaceCollector.CollectWithTarget
        (Lib.only "https://fw:443/api/v2/status/interfaces" ⟨200, "ok", "", "", some "[]"⟩)
        (Decoders.interfaces
          [⟨"wan", "WAN", "em0", "up", 0, 0, 0, 0, 0, 0, 0, 0, 0, 0, 0⟩,
           ⟨"lan", "LAN", "em1", "up", 0, 0, 0, 0, 0, 0, 0, 0, 0, 0, 0⟩,
           ⟨"opt1", "OPT1", "em2", "up", 0, 0, 0, 0, 0, 0, 0, 0, 0, 0, 0⟩,
           ⟨"opt2", "OPT2", "em3", "up", 0, 0, 0, 0, 0, 0, 0, 0, 0, 0, 0⟩,
           ⟨"opt3", "OPT3", "em4", "up", 0, 0, 0, 0, 0, 0, 0, 0, 0, 0, 0⟩,
           ⟨"opt4", "OPT4", "em5", "up", 0, 0, 0, 0, 0, 0, 0, 0, 0, 0, 0⟩,
           ⟨"opt5", "OPT5", "em6", "up", 0, 0, 0, 0, 0, 0, 0, 0, 0, 0, 0⟩,
           ⟨"opt6", "OPT6", "em7", "up", 0, 0, 0, 0, 0, 0, 0, 0, 0, 0, 0⟩,
           ⟨"opt7", "OPT7", "em8", "up", 0, 0, 0, 0, 0, 0, 0, 0, 0, 0, 0⟩])
        NewInterfaceCollector
        (Target.Validate
            { Target.zero with Host := "fw", Port := 443, AuthMethod := "key", Key := "k" }).1).2.length = 108) ∧
    (¬ ((108 : Int) ≤ (Target.Validate
            { Target.zero with Host := "fw", Port := 443, AuthMethod := "key", Key := "k" }).1.MaxCollectorBufferSize)) ∧
    ((MasterCollector.stepTask
        ⟨(Target.Validate
            { Target.zero with Host := "fw", Port := 443, AuthMethod := "key", Key := "k" }).1⟩
        (MasterCollector.init
          ⟨(Target.Validate
            { Target.zero with Host := "fw", Port := 443, AuthMethod := "key", Key := "k" }).1⟩
          [Collector.toTargeted
          (Lib.only "https://fw:443/api/v2/status/interfaces" ⟨200, "ok", "", "", some "[]"⟩)
          (Decoders.interfaces
            [⟨"wan", "WAN", "em0", "up", 0, 0, 0, 0, 0, 0, 0, 0, 0, 0, 0⟩,
             ⟨"lan", "LAN", "em1", "up", 0, 0, 0, 0, 0, 0, 0, 0, 0, 0, 0⟩,
             ⟨"opt1", "OPT1", "em2", "up", 0, 0, 0, 0, 0, 0, 0, 0, 0, 0, 0⟩,
             ⟨"opt2", "OPT2", "em3", "up", 0, 0, 0, 0, 0, 0, 0, 0, 0, 0, 0⟩,
             ⟨"opt3", "OPT3", "em4", "up", 0, 0, 0, 0, 0, 0, 0, 0, 0, 0, 0⟩,
             ⟨"opt4", "OPT4", "em5", "up", 0, 0, 0, 0, 0, 0, 0, 0, 0, 0, 0⟩,
             ⟨"opt5", "OPT5", "em6", "up", 0, 0, 0, 0, 0, 0, 0, 0, 0, 0, 0⟩,
             ⟨"opt6", "OPT6", "em7", "up", 0, 0, 0, 0, 0, 0, 0, 0, 0, 0, 0⟩,
             ⟨"opt7", "OPT7", "em8", "up", 0, 0, 0, 0, 0, 0, 0, 0, 0, 0, 0⟩])
          (.interface NewInterfaceCollector)])
        0
        ⟨Collector.toTargeted
            (Lib.only "https://fw:443/api/v2/status/interfaces" ⟨200, "ok", "", "", some "[]"⟩)
            (Decoders.interfaces
              [⟨"wan", "WAN", "em0", "up", 0, 0, 0, 0, 0, 0, 0, 0, 0, 0, 0⟩,
               ⟨"lan", "LAN", "em1", "up", 0, 0, 0, 0, 0, 0, 0, 0, 0, 0, 0⟩,
               ⟨"opt1", "OPT1", "em2", "up", 0, 0, 0, 0, 0, 0, 0, 0, 0, 0, 0⟩,
               ⟨"opt2", "OPT2", "em3", "up", 0, 0, 0, 0, 0, 0, 0, 0, 0, 0, 0⟩,
               ⟨"opt3", "OPT3", "em4", "up", 0, 0, 0, 0, 0, 0, 0, 0, 0, 0, 0⟩,
               ⟨"opt4", "OPT4", "em5", "up", 0, 0, 0, 0, 0, 0, 0, 0, 0, 0, 0⟩,
               ⟨"opt5", "OPT5", "em6", "up", 0, 0, 0, 0, 0, 0, 0, 0, 0, 0, 0⟩,
               ⟨"opt6", "OPT6", "em7", "up", 0, 0, 0, 0, 0, 0, 0, 0, 0, 0, 0⟩,
               ⟨"opt7", "OPT7", "em8", "up", 0, 0, 0, 0, 0, 0, 0, 0, 0, 0, 0⟩])
            (.interface NewInterfaceCollector),
          .collect 100, 1, 0⟩).isNone = true) ∧
    (((MasterCollector.Collect
        ⟨(Target.Validate
            { Target.zero with Host := "fw", Port := 443, AuthMethod := "key", Key := "k" }).1⟩
        [Collector.toTargeted
          (Lib.only "https://fw:443/api/v2/status/interfaces" ⟨200, "ok", "", "", some "[]"⟩)
          (Decoders.interfaces
            [⟨"wan", "WAN", "em0", "up", 0, 0, 0, 0, 0, 0, 0, 0, 0, 0, 0⟩,
             ⟨"lan", "LAN", "em1", "up", 0, 0, 0, 0, 0, 0, 0, 0, 0, 0, 0⟩,
             ⟨"opt1", "OPT1", "em2", "up", 0, 0, 0, 0, 0, 0, 0, 0, 0, 0, 0⟩,
             ⟨"opt2", "OPT2", "em3", "up", 0, 0, 0, 0, 0, 0, 0, 0, 0, 0, 0⟩,
             ⟨"opt3", "OPT3", "em4", "up", 0, 0, 0, 0, 0, 0, 0, 0, 0, 0, 0⟩,
             ⟨"opt4", "OPT4", "em5", "up", 0, 0, 0, 0, 0, 0, 0, 0, 0, 0, 0⟩,
             ⟨"opt5", "OPT5", "em6", "up", 0, 0, 0, 0, 0, 0, 0, 0, 0, 0, 0⟩,
             ⟨"opt6", "OPT6", "em7", "up", 0, 0, 0, 0, 0, 0, 0, 0, 0, 0, 0⟩,
             ⟨"opt7", "OPT7", "em8", "up", 0, 0, 0, 0, 0, 0, 0, 0, 0, 0, 0⟩])
          (.interface NewInterfaceCollector)]
        (Action.launch :: List.replicate 102 (Action.run 0)))).map
        (fun s => (s.tasks.map (fun t => t.pc), s.ch.length, s.returned, s.panicked))
      = some ([.collect 100], 0, false, false)) ∧
    ((MasterCollector.Collect
        ⟨(Target.Validate
            { Target.zero with Host := "fw", Port := 443, AuthMethod := "key", Key := "k" }).1⟩
        [Collector.toTargeted
          (Lib.only "https://fw:443/api/v2/status/interfaces" ⟨200, "ok", "", "", some "[]"⟩)
          (Decoders.interfaces
            [⟨"wan", "WAN", "em0", "up", 0, 0, 0, 0, 0, 0, 0, 0, 0, 0, 0⟩,
             ⟨"lan", "LAN", "em1", "up", 0, 0, 0, 0, 0, 0, 0, 0, 0, 0, 0⟩,
             ⟨"opt1", "OPT1", "em2", "up", 0, 0, 0, 0, 0, 0, 0, 0, 0, 0, 0⟩,
             ⟨"opt2", "OPT2", "em3", "up", 0, 0, 0, 0, 0, 0, 0, 0, 0, 0, 0⟩,
             ⟨"opt3", "OPT3", "em4", "up", 0, 0, 0, 0, 0, 0, 0, 0, 0, 0, 0⟩,
             ⟨"opt4", "OPT4", "em5", "up", 0, 0, 0, 0, 0, 0, 0, 0, 0, 0, 0⟩,
             ⟨"opt5", "OPT5", "em6", "up", 0, 0, 0, 0, 0, 0, 0, 0, 0, 0, 0⟩,
             ⟨"opt6", "OPT6", "em7", "up", 0, 0, 0, 0, 0, 0, 0, 0, 0, 0, 0⟩,
             ⟨"opt7", "OPT7", "em8", "up", 0, 0, 0, 0, 0, 0, 0, 0, 0, 0, 0⟩])
          (.interface NewInterfaceCollector)]
        (Action.launch :: List.replicate 102 (Action.run 0) ++ [Action.run 0])).isNone = true) ∧
    ((MasterCollector.Collect
        ⟨(Target.Validate
            { Target.zero with Host := "fw", Port := 443, AuthMethod := "key", Key := "k" }).1⟩
        [Collector.toTargeted
          (Lib.only "https://fw:443/api/v2/status/interfaces" ⟨200, "ok", "", "", some "[]"⟩)
          (Decoders.interfaces
            [⟨"wan", "WAN", "em0", "up", 0, 0, 0, 0, 0, 0, 0, 0, 0, 0, 0⟩,
             ⟨"lan", "LAN", "em1", "up", 0, 0, 0, 0, 0, 0, 0, 0, 0, 0, 0⟩,
             ⟨"opt1", "OPT1", "em2", "up", 0, 0, 0, 0, 0, 0, 0, 0, 0, 0, 0⟩,
             ⟨"opt2", "OPT2", "em3", "up", 0, 0, 0, 0, 0, 0, 0, 0, 0, 0, 0⟩,
             ⟨"opt3", "OPT3", "em4", "up", 0, 0, 0, 0, 0, 0, 0, 0, 0, 0, 0⟩,
             ⟨"opt4", "OPT4", "em5", "up", 0, 0, 0, 0, 0, 0, 0, 0, 0, 0, 0⟩,
             ⟨"opt5", "OPT5", "em6", "up", 0, 0, 0, 0, 0, 0, 0, 0, 0, 0, 0⟩,
             ⟨"opt6", "OPT6", "em7", "up", 0, 0, 0, 0, 0, 0, 0, 0, 0, 0, 0⟩,
             ⟨"opt7", "OPT7", "em8", "up", 0, 0, 0, 0, 0, 0, 0, 0, 0, 0, 0⟩])
          (.interface NewInterfaceCollector)]
        (Action.launch :: List.replicate 102 (Action.run 0) ++ [Action.launch])).isNone = true) ∧
    ((MasterCollector.Collect
        ⟨(Target.Validate
            { Target.zero with Host := "fw", Port := 443, AuthMethod := "key", Key := "k" }).1⟩
        [Collector.toTargeted
          (Lib.only "https://fw:443/api/v2/status/interfaces" ⟨200, "ok", "", "", some "[]"⟩)
          (Decoders.interfaces
            [⟨"wan", "WAN", "em0", "up", 0, 0, 0, 0, 0, 0, 0, 0, 0, 0, 0⟩,
             ⟨"lan", "LAN", "em1", "up", 0, 0, 0, 0, 0, 0, 0, 0, 0, 0, 0⟩,
             ⟨"opt1", "OPT1", "em2", "up", 0, 0, 0, 0, 0, 0, 0, 0, 0, 0, 0⟩,
             ⟨"opt2", "OPT2", "em3", "up", 0, 0, 0, 0, 0, 0, 0, 0, 0, 0, 0⟩,
             ⟨"opt3", "OPT3", "em4", "up", 0, 0, 0, 0, 0, 0, 0, 0, 0, 0, 0⟩,
             ⟨"opt4", "OPT4", "em5", "up", 0, 0, 0, 0, 0, 0, 0, 0, 0, 0, 0⟩,
             ⟨"opt5", "OPT5", "em6", "up", 0, 0, 0, 0, 0, 0, 0, 0, 0, 0, 0⟩,
             ⟨"opt6", "OPT6", "em7", "up", 0, 0, 0, 0, 0, 0, 0, 0, 0, 0, 0⟩,
             ⟨"opt7", "OPT7", "em8", "up", 0, 0, 0, 0, 0, 0, 0, 0, 0, 0, 0⟩])
          (.interface NewInterfaceCollector)]
        (Action.launch :: List.replicate 102 (Action.run 0) ++ [Action.wait])).isNone = true) := by
  decide

end PfsenseExporter
